import Mathlib

/-!
Verification of lab2-distro: the broker, the storage replica and their quorum protocol.

A shallow embedding of `lab2/broker/main.go`, `lab2/nodos/main.go`, `lab2/consumidores/main.go`
and the offer loop of `lab2/productores/main.go`.

Conventions of the embedding.

* A Go `map[string]*T` is an association list `Mapa T`; the order of the list is the order in
  which a `for ... range` loop visits the entries (Go leaves that order unspecified, so every
  statement below is for an arbitrary list order).  Mutation through the stored pointer is
  `Mapa.modificar`.
* A Go slice received in an RPC reply is a `Slice`: either the `nil` slice or a non-nil slice
  with its elements.  `len` and `range` treat `nil` as empty; `== nil` tells them apart.
* Every outbound RPC is an input of the function that issues it: the caller supplies the outcome
  of each call (transport error, or a reply with its fields).
* Counters of Go type `int` are natural numbers (a handler adds one, or the length of one reply,
  so the 64-bit wrap-around is out of reach); `int32` prices are integers, and are only compared.
  The price and stock arithmetic of the producer wraps explicitly (`envolver64`, `envolver32`).
* Clock readings are integers in nanoseconds; probabilities and random draws are rationals
  (every `float64` that occurs is a finite rational and they are only compared).
* Log output is omitted.
-/

namespace Lab2

/-! ## Data model -/

/-- The message `pb.OfertaRequest`. -/
structure Oferta where
  oferta_id : String
  tienda : String
  categoria : String
  producto : String
  precio : Int
  stock : Int
  fecha : String
deriving DecidableEq, Repr

/-- A Go slice value: the nil slice, or a non-nil slice holding `elems`. -/
inductive Slice (α : Type) where
  | nil : Slice α
  | de (elems : List α) : Slice α
deriving DecidableEq, Repr

/-- The elements a `range` loop over the slice visits. -/
def Slice.elems {α : Type} : Slice α → List α
  | Slice.nil => []
  | Slice.de l => l

/-- Go's `s == nil`. -/
def Slice.esNil {α : Type} : Slice α → Bool
  | Slice.nil => true
  | Slice.de _ => false

/-- A Go map with string keys, as the list of its entries in iteration order. -/
abbrev Mapa (α : Type) := List (String × α)

/-- The lookup `v, existe := m[k]`. -/
def Mapa.buscar {α : Type} (m : Mapa α) (k : String) : Option α :=
  match m with
  | [] => none
  | (k', v) :: resto => if k' = k then some v else Mapa.buscar resto k

/-- Mutation of the value stored under `k` through its pointer. -/
def Mapa.modificar {α : Type} (m : Mapa α) (k : String) (f : α → α) : Mapa α :=
  m.map (fun e => if e.1 = k then (e.1, f e.2) else e)

/-- The assignment `m[k] = v`. -/
def Mapa.poner {α : Type} (m : Mapa α) (k : String) (v : α) : Mapa α :=
  match m with
  | [] => [(k, v)]
  | (k', v') :: resto => if k' = k then (k, v) :: resto else (k', v') :: Mapa.poner resto k v

structure ProductorInfo where
  nombre : String
  ofertasEnviadas : Nat
  ofertasAceptadas : Nat
deriving DecidableEq, Repr

structure NodoInfo where
  nombre : String
  direccion : String
  estado : Bool
  cantCaidas : Nat
deriving DecidableEq, Repr

structure ConsumidorInfo where
  id_consumidor : String
  categorias : List String
  tiendas : List String
  precio_max : Int
  direccion : String
  estado : Bool
  ofertasRecibidas : Nat
  archivoCSV : String
  cantCaidas : Nat
deriving DecidableEq, Repr

structure Broker where
  productores : Mapa ProductorInfo
  nodos : Mapa NodoInfo
  consumidores : Mapa ConsumidorInfo
  ofertasRecibidas : Nat
  escriturasExitosas : Nat
  escriturasFallidas : Nat
  inicio : Bool
  sistemaActivo : Bool
deriving DecidableEq, Repr

def N : Nat := 3
def W : Nat := 2
def R : Nat := 2

def categoriasValidas : List String :=
  ["Electrónica", "Moda", "Hogar", "Deportes", "Belleza", "Infantil",
   "Computación", "Electrodomésticos", "Herramientas", "Juguetes",
   "Automotriz", "Mascotas"]

def tiendasValidas : List String := ["Riploy", "Falabellox", "Parisio"]

def nodosValidos : List String := ["DB1", "DB2", "DB3"]

def NewBroker : Broker :=
  { productores := [], nodos := [], consumidores := [],
    ofertasRecibidas := 0, escriturasExitosas := 0, escriturasFallidas := 0,
    inicio := false, sistemaActivo := true }

/-! ## RPC outcomes -/

/-- Outcome of an `EnviarOferta` call on a peer: `(resp, err)`. -/
inductive RespOferta where
  | error : RespOferta
  | resp (exito : Bool) : RespOferta
deriving DecidableEq, Repr

/-- Outcome of a `LeerOfertas` call on a replica: `(resp, err)`. -/
inductive RespLectura where
  | error : RespLectura
  | resp (ofertas : Slice Oferta) (exito : Bool) : RespLectura
deriving DecidableEq, Repr

/-- The message `pb.SincronizacionResponse`. -/
structure SincronizacionResponse where
  ofertasFaltantes : List Oferta
  exito : Bool
deriving DecidableEq, Repr

/-! ## Broker: registration -/

def esValido (valor : String) (listaValidos : List String) : Bool :=
  match listaValidos with
  | [] => false
  | valido :: resto => if valido = valor then true else esValido valor resto

def Broker.verificarInicio (b : Broker) : Broker :=
  let registrados := b.productores.length + b.nodos.length + b.consumidores.length
  if registrados = 18 ∧ b.inicio = false then { b with inicio := true } else b

def Broker.RegistrarProductor (b : Broker) (nombre : String) : Broker × Bool :=
  if esValido nombre tiendasValidas = false then (b, false)
  else if (b.productores.buscar nombre).isSome then (b, false)
  else
    let info : ProductorInfo := { nombre := nombre, ofertasEnviadas := 0, ofertasAceptadas := 0 }
    let b1 := { b with productores := b.productores.poner nombre info }
    (b1.verificarInicio, true)

/-- The flag `conecta` is the outcome of `grpc.Dial` (true when it returned no error). -/
def Broker.RegistrarNodo (b : Broker) (nodoID direccion : String) (conecta : Bool) :
    Broker × Bool :=
  if esValido nodoID nodosValidos = false then (b, false)
  else if (b.nodos.buscar nodoID).isSome then (b, false)
  else if conecta = false then (b, false)
  else
    let info : NodoInfo :=
      { nombre := nodoID, direccion := direccion, estado := true, cantCaidas := 0 }
    let b1 := { b with nodos := b.nodos.poner nodoID info }
    (b1.verificarInicio, true)

def Broker.RegistrarConsumidor (b : Broker) (consumidorID : String)
    (categorias tiendas : List String) (precioMax : Int) (direccion : String)
    (conecta : Bool) : Broker × Bool :=
  if (b.consumidores.buscar consumidorID).isSome then (b, false)
  else if conecta = false then (b, false)
  else
    let info : ConsumidorInfo :=
      { id_consumidor := consumidorID, categorias := categorias, tiendas := tiendas,
        precio_max := precioMax, direccion := direccion, estado := true,
        ofertasRecibidas := 0, archivoCSV := "consumidor_" ++ consumidorID ++ ".csv",
        cantCaidas := 0 }
    let b1 := { b with consumidores := b.consumidores.poner consumidorID info }
    (b1.verificarInicio, true)

def Broker.SolicitarInicio (b : Broker) : Bool := b.inicio

/-! ## Broker: write path -/

/-- The argument `r` is the outcome of `nodoInfo.client.EnviarOferta(ctx, oferta)`. -/
def Broker.enviarOfertaANodo (nodoInfo : NodoInfo) (r : RespOferta) : NodoInfo × Bool :=
  match r with
  | RespOferta.error =>
    if nodoInfo.estado then
      ({ nodoInfo with estado := false, cantCaidas := nodoInfo.cantCaidas + 1 }, false)
    else (nodoInfo, false)
  | RespOferta.resp true =>
    if nodoInfo.estado = false then ({ nodoInfo with estado := true }, true)
    else (nodoInfo, true)
  | RespOferta.resp false =>
    if nodoInfo.estado then
      ({ nodoInfo with estado := false, cantCaidas := nodoInfo.cantCaidas + 1 }, false)
    else (nodoInfo, false)

/-- The loop `for nodoID, nodoInfo := range b.nodos` of `almacenarOfertaEnNodos`: the entries
after the loop and the value of `confirmaciones`.  The call to replica `nodoID` has outcome
`rpc nodoID oferta`. -/
def Broker.recorrerNodos (oferta : Oferta) (rpc : String → Oferta → RespOferta) :
    Mapa NodoInfo → Mapa NodoInfo × Nat
  | [] => ([], 0)
  | (nodoID, nodoInfo) :: resto =>
    let r := Broker.enviarOfertaANodo nodoInfo (rpc nodoID oferta)
    let s := Broker.recorrerNodos oferta rpc resto
    ((nodoID, r.1) :: s.1, if r.2 then s.2 + 1 else s.2)

def Broker.almacenarOfertaEnNodos (b : Broker) (oferta : Oferta)
    (rpc : String → Oferta → RespOferta) : Broker × Bool :=
  let s := Broker.recorrerNodos oferta rpc b.nodos
  ({ b with nodos := s.1 }, decide (s.2 ≥ W))

/-- The handler `Broker.EnviarOferta` (Submit).  The asynchronous `go b.distribuirAConsumidores`
it starts in both branches runs later under the lock; it is the separate step
`Broker.distribuirAConsumidores`. -/
def Broker.EnviarOferta (b : Broker) (req : Oferta) (rpc : String → Oferta → RespOferta) :
    Broker × Bool :=
  match b.productores.buscar req.tienda with
  | none => (b, false)
  | some _ =>
    let enviadas := b.productores.modificar req.tienda
      (fun prod => { prod with ofertasEnviadas := prod.ofertasEnviadas + 1 })
    let b1 := { b with productores := enviadas }
    if esValido req.categoria categoriasValidas = false then (b1, false)
    else
      let aceptadas := b1.productores.modificar req.tienda
        (fun prod => { prod with ofertasAceptadas := prod.ofertasAceptadas + 1 })
      let b2 := { b1 with productores := aceptadas, ofertasRecibidas := b1.ofertasRecibidas + 1 }
      let s := b2.almacenarOfertaEnNodos req rpc
      if s.2 then ({ s.1 with escriturasExitosas := s.1.escriturasExitosas + 1 }, true)
      else ({ s.1 with escriturasFallidas := s.1.escriturasFallidas + 1 }, false)

/-- Whether `Broker.EnviarOferta` reaches one of its two `go b.distribuirAConsumidores(req)`
statements: it returns before them when a validation fails. -/
def Broker.EnviarOferta_distribuye (b : Broker) (req : Oferta) : Bool :=
  match b.productores.buscar req.tienda with
  | none => false
  | some _ => if esValido req.categoria categoriasValidas = false then false else true

/-! ## Broker: subscription matcher and consumer fan-out -/

def Broker.coincideConPreferencias (oferta : Oferta) (consumidor : ConsumidorInfo) : Bool :=
  if consumidor.categorias.length > 0 ∧ consumidor.categorias.head? ≠ some "null" ∧
      consumidor.categorias.any (fun categoria => categoria = oferta.categoria) = false then
    false
  else if consumidor.tiendas.length > 0 ∧ consumidor.tiendas.head? ≠ some "null" ∧
      consumidor.tiendas.any (fun tienda => tienda = oferta.tienda) = false then
    false
  else if consumidor.precio_max > 0 ∧ oferta.precio > consumidor.precio_max then
    false
  else true

/-- The argument `r` is the outcome of `consumidorInfo.client.EnviarOferta(ctx, oferta)`. -/
def Broker.notificarConsumidor (consumidorInfo : ConsumidorInfo) (r : RespOferta) :
    ConsumidorInfo × Bool :=
  match r with
  | RespOferta.error =>
    if consumidorInfo.estado then
      ({ consumidorInfo with estado := false, cantCaidas := consumidorInfo.cantCaidas + 1 },
        false)
    else (consumidorInfo, false)
  | RespOferta.resp true =>
    if consumidorInfo.estado = false then ({ consumidorInfo with estado := true }, true)
    else (consumidorInfo, true)
  | RespOferta.resp false =>
    if consumidorInfo.estado then
      ({ consumidorInfo with estado := false, cantCaidas := consumidorInfo.cantCaidas + 1 },
        false)
    else (consumidorInfo, false)

/-- The loop of `distribuirAConsumidores` over `b.consumidores`: the entries after the loop and
the list of consumers that were called, in call order. -/
def Broker.recorrerConsumidores (oferta : Oferta) (rpc : String → Oferta → RespOferta) :
    Mapa ConsumidorInfo → Mapa ConsumidorInfo × List String
  | [] => ([], [])
  | (consumidorID, consumidor) :: resto =>
    let s := Broker.recorrerConsumidores oferta rpc resto
    if Broker.coincideConPreferencias oferta consumidor then
      let r := Broker.notificarConsumidor consumidor (rpc consumidorID oferta)
      let c := if r.2 then { r.1 with ofertasRecibidas := r.1.ofertasRecibidas + 1 } else r.1
      ((consumidorID, c) :: s.1, consumidorID :: s.2)
    else ((consumidorID, consumidor) :: s.1, s.2)

def Broker.distribuirAConsumidores (b : Broker) (oferta : Oferta)
    (rpc : String → Oferta → RespOferta) : Broker :=
  { b with consumidores := (Broker.recorrerConsumidores oferta rpc b.consumidores).1 }

/-! ## Broker: read path and resynchronisation -/

def Broker.sonListasIdenticas (lista1 lista2 : Slice Oferta) : Bool :=
  if lista1.elems.length ≠ lista2.elems.length then false
  else lista1.elems.all (fun oferta1 =>
    lista2.elems.any (fun oferta2 => oferta1.oferta_id = oferta2.oferta_id))

/-- The loop `for nodoID, nodoInfo := range b.nodos` of `obtenerHistorialOfertas`: the entries
after the loop and `listasOfertas`.  The call to replica `nodoID` has outcome `leer nodoID`. -/
def Broker.leerNodos (leer : String → RespLectura) :
    Mapa NodoInfo → Mapa NodoInfo × List (Slice Oferta)
  | [] => ([], [])
  | (nodoID, nodoInfo) :: resto =>
    let s := Broker.leerNodos leer resto
    let caido : NodoInfo :=
      if nodoInfo.estado then
        { nodoInfo with estado := false, cantCaidas := nodoInfo.cantCaidas + 1 }
      else nodoInfo
    match leer nodoID with
    | RespLectura.error => ((nodoID, caido) :: s.1, s.2)
    | RespLectura.resp ofertas true => ((nodoID, nodoInfo) :: s.1, ofertas :: s.2)
    | RespLectura.resp _ false => ((nodoID, caido) :: s.1, s.2)

/-- The record of a replica after its `LeerOfertas` call had the outcome `r`, in the loop of
`obtenerHistorialOfertas`: on an error or a not-ok reply a replica marked alive is marked dead
and its crash count grows by one. -/
def Broker.trasLectura (r : RespLectura) (nodoInfo : NodoInfo) : NodoInfo :=
  match r with
  | RespLectura.resp _ true => nodoInfo
  | _ =>
    if nodoInfo.estado then
      { nodoInfo with estado := false, cantCaidas := nodoInfo.cantCaidas + 1 }
    else nodoInfo

/-- The double loop over `i < j` of `obtenerHistorialOfertas`: `listasOfertas[i]` for the first
pair found identical, and the final `return nil` when there is none. -/
def Broker.primerParIdentico : List (Slice Oferta) → Slice Oferta
  | [] => Slice.nil
  | lista :: resto =>
    if resto.any (fun otra => Broker.sonListasIdenticas lista otra) then lista
    else Broker.primerParIdentico resto

def Broker.obtenerHistorialOfertas (b : Broker) (leer : String → RespLectura) :
    Broker × Slice Oferta :=
  let s := Broker.leerNodos leer b.nodos
  let b1 := { b with nodos := s.1 }
  if s.2.length < R then (b1, Slice.nil)
  else (b1, Broker.primerParIdentico s.2)

/-- Whether the double loop over `i < j` of `obtenerHistorialOfertas` finds a pair of identical
lists, that is, returns from inside the loop. -/
def Broker.hayParIdentico : List (Slice Oferta) → Bool
  | [] => false
  | lista :: resto =>
    resto.any (fun otra => Broker.sonListasIdenticas lista otra) ||
      Broker.hayParIdentico resto

/-- Whether `obtenerHistorialOfertas` reaches its `return listasOfertas[i]`: at least `R`
replicas answered ok and two of the collected lists are identical. -/
def Broker.alcanzaQuorumLectura (b : Broker) (leer : String → RespLectura) : Bool :=
  let s := Broker.leerNodos leer b.nodos
  if s.2.length < R then false else Broker.hayParIdentico s.2

/-- The inner loop over `ofertasActuales` that sets `existe` / `existeEnActuales`. -/
def existeEnActuales (ofertasActuales : List Oferta) (ofertaHistorial : Oferta) : Bool :=
  ofertasActuales.any (fun ofertaActual => ofertaActual.oferta_id = ofertaHistorial.oferta_id)

/-- The handler `Broker.SincronizarEntidad` (Resync). -/
def Broker.SincronizarEntidad (b : Broker) (entidadID tipo : String)
    (ofertasActuales : List Oferta) (leer : String → RespLectura) :
    Broker × SincronizacionResponse :=
  let h := b.obtenerHistorialOfertas leer
  let b1 := h.1
  match h.2 with
  | Slice.nil => (b1, { ofertasFaltantes := [], exito := false })
  | Slice.de historialOfertas =>
    if tipo = "consumidor" then
      match b1.consumidores.buscar entidadID with
      | none => (b1, { ofertasFaltantes := [], exito := false })
      | some consumidor =>
        let ofertasFaltantes := historialOfertas.filter (fun ofertaHistorial =>
          Broker.coincideConPreferencias ofertaHistorial consumidor &&
            !existeEnActuales ofertasActuales ofertaHistorial)
        let resincronizados := b1.consumidores.modificar entidadID
          (fun c => { c with estado := true,
                             ofertasRecibidas := c.ofertasRecibidas + ofertasFaltantes.length })
        let b2 := { b1 with consumidores := resincronizados }
        (b2, { ofertasFaltantes := ofertasFaltantes, exito := true })
    else
      let ofertasFaltantes := historialOfertas.filter (fun ofertaHistorial =>
        !existeEnActuales ofertasActuales ofertaHistorial)
      let b2 :=
        if tipo = "nodo" then
          let resincronizados := b1.nodos.modificar entidadID
            (fun nodo => { nodo with estado := true })
          { b1 with nodos := resincronizados }
        else b1
      (b2, { ofertasFaltantes := ofertasFaltantes, exito := true })

/-! ## Broker: runs -/

/-- One handler invocation on the broker, with the outcomes of the RPCs it issues. -/
inductive Accion where
  | registrarProductor (nombre : String) : Accion
  | registrarNodo (nodoID direccion : String) (conecta : Bool) : Accion
  | registrarConsumidor (consumidorID : String) (categorias tiendas : List String)
      (precioMax : Int) (direccion : String) (conecta : Bool) : Accion
  | enviarOferta (req : Oferta) (rpc : String → Oferta → RespOferta) : Accion
  | distribuir (oferta : Oferta) (rpc : String → Oferta → RespOferta) : Accion
  | sincronizar (entidadID tipo : String) (ofertasActuales : List Oferta)
      (leer : String → RespLectura) : Accion

/-- The broker state after one handler invocation (all handlers run under `b.mu`). -/
def Broker.paso (b : Broker) : Accion → Broker
  | Accion.registrarProductor nombre => (b.RegistrarProductor nombre).1
  | Accion.registrarNodo nodoID direccion conecta => (b.RegistrarNodo nodoID direccion conecta).1
  | Accion.registrarConsumidor consumidorID categorias tiendas precioMax direccion conecta =>
    (b.RegistrarConsumidor consumidorID categorias tiendas precioMax direccion conecta).1
  | Accion.enviarOferta req rpc => (b.EnviarOferta req rpc).1
  | Accion.distribuir oferta rpc => b.distribuirAConsumidores oferta rpc
  | Accion.sincronizar entidadID tipo ofertasActuales leer =>
    (b.SincronizarEntidad entidadID tipo ofertasActuales leer).1

/-- The broker state after a sequence of handler invocations. -/
def Broker.ejecutar (b : Broker) (acciones : List Accion) : Broker :=
  acciones.foldl Broker.paso b

/-- Whether the invocation is a Submit that passes both validations of `Broker.EnviarOferta` in
state `b`: the store is a registered producer and the category is valid. -/
def Broker.pasaValidacion (b : Broker) : Accion → Bool
  | Accion.enviarOferta req _ =>
    (b.productores.buscar req.tienda).isSome && esValido req.categoria categoriasValidas
  | _ => false

/-- The number of Submits in the run from `b` that passed both validations. -/
def Broker.validados : Broker → List Accion → Nat
  | _, [] => 0
  | b, a :: resto => (if b.pasaValidacion a then 1 else 0) + Broker.validados (b.paso a) resto

/-- The value of `registrados` in `verificarInicio`: the number of registered entities. -/
def Broker.registrados (b : Broker) : Nat :=
  b.productores.length + b.nodos.length + b.consumidores.length

/-- Whether the invocation is a registration that replies ok=true in state `b`. -/
def Broker.registroExitoso (b : Broker) : Accion → Bool
  | Accion.registrarProductor nombre => (b.RegistrarProductor nombre).2
  | Accion.registrarNodo nodoID direccion conecta => (b.RegistrarNodo nodoID direccion conecta).2
  | Accion.registrarConsumidor consumidorID categorias tiendas precioMax direccion conecta =>
    (b.RegistrarConsumidor consumidorID categorias tiendas precioMax direccion conecta).2
  | _ => false

/-- The number of registrations of the run from `b` that replied ok=true. -/
def Broker.registrosExitosos : Broker → List Accion → Nat
  | _, [] => 0
  | b, a :: resto =>
    (if b.registroExitoso a then 1 else 0) + Broker.registrosExitosos (b.paso a) resto

/-- The number of replicas of `nodos` whose `EnviarOferta` call returned without error and
replied ok. -/
def confirmacionesDe (rpc : String → Oferta → RespOferta) (oferta : Oferta)
    (nodos : Mapa NodoInfo) : Nat :=
  nodos.countP (fun e => decide (rpc e.1 oferta = RespOferta.resp true))

/-- The number of replicas of `nodos` whose `LeerOfertas` call returned without error and
replied ok. -/
def respondieron (leer : String → RespLectura) (nodos : Mapa NodoInfo) : Nat :=
  nodos.countP (fun e =>
    match leer e.1 with
    | RespLectura.resp _ true => true
    | _ => false)

/-- The logs carried by the `LeerOfertas` replies that returned without error with ok=true, in
the order the replicas are visited. -/
def respuestasOk (leer : String → RespLectura) (nodos : Mapa NodoInfo) : List (Slice Oferta) :=
  nodos.filterMap (fun e =>
    match leer e.1 with
    | RespLectura.resp ofertas true => some ofertas
    | _ => none)

/-! ## Storage replica (`lab2/nodos/main.go`) -/

structure NodoDB where
  nombre : String
  direccion : String
  ofertas : List Oferta
  contadorOfertas : Nat
  probFallo : ℚ
  enFallo : Bool
  caidasSimuladas : Nat
  /-- The field is `none` while `startTime.IsZero()`. -/
  startTime : Option Int
deriving DecidableEq

/-- One `time.Second`, in nanoseconds. -/
def segundo : Int := 1000000000

/-- The value the `switch n.nombre` gives to `puedeFallar`. -/
def NodoDB.puedeFallar (nombre : String) (elapsed : Int) : Bool :=
  if nombre = "DB1" then decide (elapsed ≤ 30 * segundo)
  else if nombre = "DB2" then decide (elapsed ≥ 40 * segundo ∧ elapsed ≤ 70 * segundo)
  else if nombre = "DB3" then decide (elapsed ≥ 80 * segundo)
  else false

/-- The state change of `simularFallo`; the recovery goroutine it starts is the later step
`NodoDB.recuperarAutomaticamente`. -/
def NodoDB.simularFallo (n : NodoDB) : NodoDB :=
  { n with enFallo := true, caidasSimuladas := n.caidasSimuladas + 1 }

/-- Whether the log holds an offer with the id of `oferta`. -/
def yaExiste (ofertas : List Oferta) (oferta : Oferta) : Bool :=
  ofertas.any (fun ofertaExistente => ofertaExistente.oferta_id = oferta.oferta_id)

/-- The handler `NodoDB.EnviarOferta` (ReplicaInsert).  The clock reads `ahora` at `time.Now()`
and `despues` at `time.Since`; `sorteo` is the value of `rand.Float64()`. -/
def NodoDB.EnviarOferta (n : NodoDB) (req : Oferta) (ahora despues : Int) (sorteo : ℚ) :
    NodoDB × Bool :=
  let inicio := match n.startTime with
    | none => ahora
    | some t => t
  let n1 := { n with startTime := some inicio }
  if n1.enFallo then (n1, false)
  else
    let elapsed := despues - inicio
    let puedeFallar := NodoDB.puedeFallar n1.nombre elapsed
    if n1.enFallo = false ∧ n1.probFallo > 0 ∧ puedeFallar = true ∧ sorteo < n1.probFallo then
      (n1.simularFallo, false)
    else if yaExiste n1.ofertas req then (n1, true)
    else
      ({ n1 with contadorOfertas := n1.contadorOfertas + 1, ofertas := n1.ofertas ++ [req] }, true)

/-- The value of `elapsed` in `NodoDB.EnviarOferta`: the time from `startTime` (stamped at this
call when it is the first insert attempt) to the reading `despues` of `time.Since`. -/
def NodoDB.transcurrido (n : NodoDB) (ahora despues : Int) : Int :=
  despues - (match n.startTime with
    | none => ahora
    | some t => t)

/-- Outcome of the `SincronizarEntidad` call on the broker: `(resp, err)`. -/
inductive RespSincronizacion where
  | error : RespSincronizacion
  | resp (r : SincronizacionResponse) : RespSincronizacion
deriving DecidableEq

/-- The merge loop of `solicitarResincronizacion` over `resp.GetOfertasFaltantes()`. -/
def fusionar (ofertas faltantes : List Oferta) : List Oferta :=
  faltantes.foldl (fun acc oferta => if yaExiste acc oferta then acc else acc ++ [oferta]) ofertas

def NodoDB.solicitarResincronizacion (n : NodoDB) (r : RespSincronizacion) : NodoDB × Bool :=
  match r with
  | RespSincronizacion.error => (n, false)
  | RespSincronizacion.resp resp =>
    if resp.exito = false then (n, false)
    else
      let ofertas := fusionar n.ofertas resp.ofertasFaltantes
      ({ n with ofertas := ofertas, contadorOfertas := ofertas.length }, true)

/-- One run of `recuperarAutomaticamente` after its sleep; on failure the retry it schedules is
another run of it. -/
def NodoDB.recuperarAutomaticamente (n : NodoDB) (r : RespSincronizacion) : NodoDB :=
  let s := n.solicitarResincronizacion r
  if s.2 then { s.1 with enFallo := false } else s.1

/-- The handler `NodoDB.LeerOfertas` (ReplicaRead): the fields `Ofertas` and `Exito` of the
reply. -/
def NodoDB.LeerOfertas (n : NodoDB) : List Oferta × Bool :=
  if n.enFallo then ([], false) else (n.ofertas, true)

/-- One event on a replica: an insert request, or a run of the recovery goroutine. -/
inductive AccionNodo where
  | enviarOferta (req : Oferta) (ahora despues : Int) (sorteo : ℚ) : AccionNodo
  | recuperar (r : RespSincronizacion) : AccionNodo

def NodoDB.paso (n : NodoDB) : AccionNodo → NodoDB
  | AccionNodo.enviarOferta req ahora despues sorteo =>
    (n.EnviarOferta req ahora despues sorteo).1
  | AccionNodo.recuperar r => n.recuperarAutomaticamente r

def NodoDB.ejecutar (n : NodoDB) (acciones : List AccionNodo) : NodoDB :=
  acciones.foldl NodoDB.paso n

/-- The replica as `main` builds it. -/
def NodoDB.nuevo (nodoID direccion : String) (probFallo : ℚ) : NodoDB :=
  { nombre := nodoID, direccion := direccion, ofertas := [], contadorOfertas := 0,
    probFallo := probFallo, enFallo := false, caidasSimuladas := 0, startTime := none }

/-- The number of log entries carrying the given offer id. -/
def apariciones (ofertas : List Oferta) (id : String) : Nat :=
  ofertas.countP (fun o => decide (o.oferta_id = id))

/-- No two entries of the list carry the same offer id. -/
def sinDuplicados (ofertas : List Oferta) : Prop :=
  (ofertas.map (fun o => o.oferta_id)).Nodup

instance (ofertas : List Oferta) : Decidable (sinDuplicados ofertas) := by
  unfold sinDuplicados; infer_instance

/-- The set of offer ids of a list of offers. -/
def idsDe (ofertas : List Oferta) : Finset String :=
  (ofertas.map (fun o => o.oferta_id)).toFinset

/-- The handler `NodoDB.EnviarOferta` called once per element of `llamadas` with the same offer
(each element gives the two clock readings and the random draw of that call): the final state
and the replies in call order. -/
def NodoDB.insertarVeces (n : NodoDB) (req : Oferta) : List (Int × Int × ℚ) → NodoDB × List Bool
  | [] => (n, [])
  | llamada :: resto =>
    let r := n.EnviarOferta req llamada.1 llamada.2.1 llamada.2.2
    let s := NodoDB.insertarVeces r.1 req resto
    (s.1, r.2 :: s.2)

/-! ## Consumer (`lab2/consumidores/main.go`) -/

structure Consumidor where
  id : String
  direccion : String
  categorias : List String
  tiendas : List String
  precioMax : Int
  ofertasRecibidas : List Oferta
  archivoCSV : String
  ofertasCount : Nat
  probabilidadFallo : ℚ
  enFallo : Bool
  caidasSimuladas : Nat
deriving DecidableEq

/-- The state change of `simularFallo`; the recovery goroutine it starts is the later step
`Consumidor.recuperarAutomaticamente`. -/
def Consumidor.simularFallo (c : Consumidor) : Consumidor :=
  { c with enFallo := true, caidasSimuladas := c.caidasSimuladas + 1 }

/-- The handler `Consumidor.EnviarOferta` (ConsumerDeliver).  The value of `rand.Float64()` is
`sorteo`; `csvOk` tells whether `escribirEnCSV` returned no error. -/
def Consumidor.EnviarOferta (c : Consumidor) (req : Oferta) (sorteo : ℚ) (csvOk : Bool) :
    Consumidor × Bool :=
  if c.enFallo then (c, false)
  else if c.enFallo = false ∧ c.probabilidadFallo > 0 ∧ sorteo < c.probabilidadFallo then
    (c.simularFallo, false)
  else
    let c1 := { c with ofertasRecibidas := c.ofertasRecibidas ++ [req],
                       ofertasCount := c.ofertasCount + 1 }
    if csvOk = false then (c1, false) else (c1, true)

/-- The consumer side of a Resync: the merge loop is the one of the replica (`fusionar`); the
result of `escribirEnCSV` inside the loop is discarded by the source. -/
def Consumidor.solicitarResincronizacion (c : Consumidor) (r : RespSincronizacion) :
    Consumidor × Bool :=
  match r with
  | RespSincronizacion.error => (c, false)
  | RespSincronizacion.resp resp =>
    if resp.exito = false then (c, false)
    else
      let ofertas := fusionar c.ofertasRecibidas resp.ofertasFaltantes
      ({ c with ofertasRecibidas := ofertas, ofertasCount := ofertas.length }, true)

/-- One run of `recuperarAutomaticamente` after its sleep; on failure the retry it schedules is
another run of it. -/
def Consumidor.recuperarAutomaticamente (c : Consumidor) (r : RespSincronizacion) : Consumidor :=
  let s := c.solicitarResincronizacion r
  if s.2 then { s.1 with enFallo := false } else s.1

/-- One event on a consumer: a delivery, or a run of the recovery goroutine. -/
inductive AccionConsumidor where
  | enviarOferta (req : Oferta) (sorteo : ℚ) (csvOk : Bool) : AccionConsumidor
  | recuperar (r : RespSincronizacion) : AccionConsumidor

def Consumidor.paso (c : Consumidor) : AccionConsumidor → Consumidor
  | AccionConsumidor.enviarOferta req sorteo csvOk => (c.EnviarOferta req sorteo csvOk).1
  | AccionConsumidor.recuperar r => c.recuperarAutomaticamente r

def Consumidor.ejecutar (c : Consumidor) (acciones : List AccionConsumidor) : Consumidor :=
  acciones.foldl Consumidor.paso c

/-- The consumer as `cargarConfiguracion` builds it from its configuration row. -/
def Consumidor.nuevo (id direccion : String) (categorias tiendas : List String)
    (precioMax : Int) : Consumidor :=
  { id := id, direccion := direccion, categorias := categorias, tiendas := tiendas,
    precioMax := precioMax, ofertasRecibidas := [],
    archivoCSV := "/output/consumidor_" ++ id ++ ".csv", ofertasCount := 0,
    probabilidadFallo := 1 / 10, enFallo := false, caidasSimuladas := 0 }

/-! ## Producer (`lab2/productores/main.go`) -/

structure ProductoCatalogo where
  productoID : String
  tienda : String
  categoria : String
  producto : String
  precioBase : Int
  stockBase : Int
deriving DecidableEq, Repr

structure Productor where
  nombre : String
  catalogo : List ProductoCatalogo
  ofertasEnviadas : Nat
deriving DecidableEq, Repr

/-- The value of a Go `int` (64 bits) expression whose mathematical value is `x`. -/
def envolver64 (x : Int) : Int := (x + 2 ^ 63) % 2 ^ 64 - 2 ^ 63

/-- The conversion `int32(x)`. -/
def envolver32 (x : Int) : Int := (x + 2 ^ 31) % 2 ^ 32 - 2 ^ 31

/-- The function `generarOferta`: `azarDescuento` is the value of `rand.Intn(41)`, `azarStock`
the value of `rand.Intn(51)` and `fecha` the formatted `time.Now()`. -/
def Productor.generarOferta (p : Productor) (producto : ProductoCatalogo)
    (azarDescuento azarStock : Nat) (fecha : String) : Oferta :=
  let descuento : Int := 10 + azarDescuento
  let precioConDescuento := Int.tdiv (envolver64 (producto.precioBase * (100 - descuento))) 100
  let variacionStock : Int := -azarStock
  let stock := Int.tdiv (envolver64 (producto.stockBase * (100 + variacionStock))) 100
  let stockOferta := if stock < 1 then 1 else stock
  { oferta_id := p.nombre ++ "-" ++ toString (p.ofertasEnviadas + 1),
    tienda := p.nombre,
    categoria := producto.categoria,
    producto := producto.producto,
    precio := envolver32 precioConDescuento,
    stock := envolver32 stockOferta,
    fecha := fecha }

/-- Outcome of the `ConsultarEstado` call on the broker: `(resp, err)`. -/
inductive RespEstado where
  | error : RespEstado
  | resp (activo : Bool) : RespEstado
deriving DecidableEq, Repr

/-- The inputs of one iteration of the loop of `iniciarGeneracionOfertas`: the outcome of
`ConsultarEstado`, the value of `rand.Intn(len(p.catalogo))`, the inputs of `generarOferta` and
the outcome of the Submit. -/
structure Iteracion where
  estado : RespEstado
  indice : Nat
  azarDescuento : Nat
  azarStock : Nat
  fecha : String
  envio : RespOferta

/-- One iteration of the loop of `iniciarGeneracionOfertas`: the producer after it, the offer it
submitted with the outcome of the Submit (if it submitted one), and whether the loop goes on
(false at the `return`).  With an empty catalogue the iteration submits nothing; an `indice`
outside a non-empty catalogue is not a value of `rand.Intn(len(p.catalogo))`. -/
def Productor.iteracion (p : Productor) (e : Iteracion) :
    Productor × Option (Oferta × RespOferta) × Bool :=
  if e.estado = RespEstado.resp false then (p, none, false)
  else
    match p.catalogo[e.indice]? with
    | none => (p, none, true)
    | some producto =>
      let oferta := p.generarOferta producto e.azarDescuento e.azarStock e.fecha
      let p1 :=
        if e.envio = RespOferta.resp true then { p with ofertasEnviadas := p.ofertasEnviadas + 1 }
        else p
      (p1, some (oferta, e.envio), true)

/-- The offers submitted by the loop of `iniciarGeneracionOfertas` over the given iterations, in
order, each with the outcome of its Submit. -/
def Productor.iniciarGeneracionOfertas (p : Productor) :
    List Iteracion → List (Oferta × RespOferta)
  | [] => []
  | e :: resto =>
    let r := p.iteracion e
    if r.2.2 = false then []
    else r.2.1.toList ++ Productor.iniciarGeneracionOfertas r.1 resto

/-! ## Final report and liveness bookkeeping -/

/-- The value of `cantRecuperaciones` that `generarReporteFinal` prints for a replica: the crash
count, minus one when the replica is marked dead. -/
def NodoInfo.cantRecuperaciones (nodo : NodoInfo) : Int :=
  if nodo.estado = false then (nodo.cantCaidas : Int) - 1 else (nodo.cantCaidas : Int)

/-- The value of `cantRecuperaciones` that `generarReporteFinal` prints for a consumer. -/
def ConsumidorInfo.cantRecuperaciones (cons : ConsumidorInfo) : Int :=
  if cons.estado = false then (cons.cantCaidas : Int) - 1 else (cons.cantCaidas : Int)

/-- Every entry of the table that is marked dead has a crash count of at least one; `est` and
`cnt` read the alive flag and the crash count of an entry. -/
def marcasContadas {α : Type} (est : α → Bool) (cnt : α → Nat) (m : Mapa α) : Prop :=
  ∀ (k : String) (v : α), Mapa.buscar m k = some v → est v = false → 1 ≤ cnt v

/-- The table `m'` comes after the table `m`: every entry of `m` is still there with a crash
count that has not decreased and, if it was counted as in `marcasContadas`, still is; and every
new entry is counted. -/
def progresa {α : Type} (est : α → Bool) (cnt : α → Nat) (m m' : Mapa α) : Prop :=
  ∀ k : String,
    (∀ v, Mapa.buscar m k = some v →
      ∃ v', Mapa.buscar m' k = some v' ∧ cnt v ≤ cnt v' ∧
        ((est v = false → 1 ≤ cnt v) → (est v' = false → 1 ≤ cnt v'))) ∧
    (Mapa.buscar m k = none →
      ∀ v', Mapa.buscar m' k = some v' → est v' = false → 1 ≤ cnt v')

/-! ## Concrete states used as instances -/

/-- A broker with one producer and the three replicas, all alive. -/
def brokerEjemplo : Broker :=
  { NewBroker with
    productores := [("Riploy", { nombre := "Riploy", ofertasEnviadas := 0, ofertasAceptadas := 0 })],
    nodos := [("DB1", { nombre := "DB1", direccion := "db1:50052", estado := true, cantCaidas := 0 }),
              ("DB2", { nombre := "DB2", direccion := "db2:50053", estado := true, cantCaidas := 0 }),
              ("DB3", { nombre := "DB3", direccion := "db3:50054", estado := true, cantCaidas := 0 })] }

def ofertaEjemplo : Oferta :=
  { oferta_id := "Riploy-1", tienda := "Riploy", categoria := "Moda", producto := "Polera",
    precio := 100, stock := 5, fecha := "2025-11-01" }

/-- Scenario S3: DB2 and DB3 are unreachable, DB1 acknowledges. -/
def rpcSoloDB1 : String → Oferta → RespOferta :=
  fun nodoID _ => if nodoID = "DB1" then RespOferta.resp true else RespOferta.error

/-- Scenario S4: the consumer with `categories=["Moda"], stores=ANY, price_max=50`. -/
def consumidorS4 : ConsumidorInfo :=
  { id_consumidor := "C1", categorias := ["Moda"], tiendas := ["null"], precio_max := 50,
    direccion := "c1:50061", estado := true, ofertasRecibidas := 0,
    archivoCSV := "consumidor_C1.csv", cantCaidas := 0 }

/-- An offer of the given category and price (scenario S4 names only these two fields). -/
def ofertaDe (id categoria : String) (precio : Int) : Oferta :=
  { oferta_id := id, tienda := "Riploy", categoria := categoria, producto := "P",
    precio := precio, stock := 1, fecha := "2025-11-01" }

/-- A consumer registered with empty filter lists and no price bound. -/
def consumidorSinListas : ConsumidorInfo :=
  { consumidorS4 with categorias := [], tiendas := [], precio_max := 0 }

/-- Scenario S6: only DB1 answers `LeerOfertas`. -/
def leerSoloDB1 : String → RespLectura :=
  fun nodoID =>
    if nodoID = "DB1" then RespLectura.resp (Slice.de [ofertaEjemplo]) true
    else RespLectura.error

/-- An offer with the given id; the other fields are fixed. -/
def ofertaId (id : String) : Oferta := ofertaDe id "Moda" 40

/-- Read replies in which DB2 and DB3 return duplicate-free logs with the id set
`{"Riploy-1", "Riploy-2"}` and DB1 returns a log that holds the id `"Riploy-1"` twice. -/
def leerConDuplicado : String → RespLectura :=
  fun nodoID =>
    if nodoID = "DB1" then
      RespLectura.resp (Slice.de [ofertaId "Riploy-1", ofertaId "Riploy-1"]) true
    else if nodoID = "DB2" then
      RespLectura.resp (Slice.de [ofertaId "Riploy-1", ofertaId "Riploy-2"]) true
    else RespLectura.resp (Slice.de [ofertaId "Riploy-2", ofertaId "Riploy-1"]) true

/-- Read replies in which the three replicas return duplicate-free logs and DB2 and DB3 have
the id set `{"Riploy-1", "Riploy-2"}`. -/
def leerDosDeAcuerdo : String → RespLectura :=
  fun nodoID =>
    if nodoID = "DB1" then RespLectura.resp (Slice.de [ofertaId "Riploy-1"]) true
    else if nodoID = "DB2" then
      RespLectura.resp (Slice.de [ofertaId "Riploy-1", ofertaId "Riploy-2"]) true
    else RespLectura.resp (Slice.de [ofertaId "Riploy-2", ofertaId "Riploy-1"]) true

/-- Read replies of three healthy replicas with empty logs: `Exito` is true and the repeated
field `Ofertas` carries no element, which the decoded reply holds as the nil slice. -/
def leerVacias : String → RespLectura :=
  fun _ => RespLectura.resp Slice.nil true

/-- The same replies with the field held as a non-nil empty slice. -/
def leerVaciasNoNil : String → RespLectura :=
  fun _ => RespLectura.resp (Slice.de []) true

/-- Scenario S5: the broker of `brokerEjemplo` with the consumer of scenario S4 registered. -/
def brokerS5 : Broker :=
  { brokerEjemplo with consumidores := [("C1", consumidorS4)] }

/-- Scenario S5: five offers matching the consumer, and one that does not. -/
def historialS5 : List Oferta :=
  [ofertaDe "Riploy-1" "Moda" 10, ofertaDe "Riploy-2" "Moda" 20, ofertaDe "Riploy-3" "Moda" 30,
   ofertaDe "Riploy-4" "Hogar" 30, ofertaDe "Riploy-5" "Moda" 40, ofertaDe "Riploy-6" "Moda" 50]

/-- Scenario S5: the three replicas hold `historialS5`. -/
def leerS5 : String → RespLectura :=
  fun _ => RespLectura.resp (Slice.de historialS5) true

/-- Scenario S5: the two offers the consumer received before it crashed. -/
def actualesS5 : List Oferta :=
  [ofertaDe "Riploy-1" "Moda" 10, ofertaDe "Riploy-3" "Moda" 30]

/-- A healthy DB3 replica that holds one offer; its fault window opens after 80 s. -/
def nodoEjemplo : NodoDB :=
  { NodoDB.nuevo "DB3" "db3:50054" (1 / 10) with
    ofertas := [ofertaId "Riploy-1"], contadorOfertas := 1, startTime := some 0 }

/-- A healthy consumer that holds the offer `Riploy-1`. -/
def consumidorEjemplo : Consumidor :=
  { Consumidor.nuevo "C1" "c1:50061" ["Moda"] ["null"] 50 with
    ofertasRecibidas := [ofertaId "Riploy-1"], ofertasCount := 1 }

/-- The registration of the consumer with the given id, with the filters of scenario S4. -/
def registroConsumidor (id : String) : Accion :=
  Accion.registrarConsumidor id ["Moda"] ["null"] 50 ("c" ++ id ++ ":50060") true

/-- Scenario S1 without its last registration: the three producers, the three replicas and
eleven consumers. -/
def registrosS1 : List Accion :=
  [Accion.registrarProductor "Riploy", Accion.registrarProductor "Falabellox",
   Accion.registrarProductor "Parisio",
   Accion.registrarNodo "DB1" "db1:50052" true, Accion.registrarNodo "DB2" "db2:50053" true,
   Accion.registrarNodo "DB3" "db3:50054" true,
   registroConsumidor "1", registroConsumidor "2", registroConsumidor "3",
   registroConsumidor "4", registroConsumidor "5", registroConsumidor "6",
   registroConsumidor "7", registroConsumidor "8", registroConsumidor "9",
   registroConsumidor "10", registroConsumidor "11"]

/-- A catalogue row of the store Riploy. -/
def productoEjemplo : ProductoCatalogo :=
  { productoID := "P1", tienda := "Riploy", categoria := "Moda", producto := "Polera",
    precioBase := 1000, stockBase := 10 }

/-- A producer at start-up with a one-row catalogue. -/
def productorEjemplo : Productor :=
  { nombre := "Riploy", catalogo := [productoEjemplo], ofertasEnviadas := 0 }

/-- An iteration in which the system is active, the first catalogue row is drawn and the Submit
has the given outcome. -/
def iteracionCon (envio : RespOferta) : Iteracion :=
  { estado := RespEstado.resp true, indice := 0, azarDescuento := 0, azarStock := 0,
    fecha := "2025-11-01 10:00:00", envio := envio }

/-- A DB1 replica in fault that holds the offer `Riploy-1`. -/
def nodoEnFallo : NodoDB :=
  { NodoDB.nuevo "DB1" "db1:50052" (1 / 10) with
    ofertas := [ofertaId "Riploy-1"], contadorOfertas := 1, startTime := some 0,
    enFallo := true, caidasSimuladas := 1 }

/-- The consumer `C1` of `brokerS5`, in fault, holding the two offers of `actualesS5`. -/
def consumidorEnFallo : Consumidor :=
  { Consumidor.nuevo "C1" "c1:50061" ["Moda"] ["null"] 50 with
    ofertasRecibidas := actualesS5, ofertasCount := 2, enFallo := true, caidasSimuladas := 1 }

/-- The broker of `brokerEjemplo` with DB2 marked dead after one crash. -/
def brokerDB2Caido : Broker :=
  { brokerEjemplo with
    nodos := [("DB1", { nombre := "DB1", direccion := "db1:50052", estado := true,
                        cantCaidas := 0 }),
              ("DB2", { nombre := "DB2", direccion := "db2:50053", estado := false,
                        cantCaidas := 1 }),
              ("DB3", { nombre := "DB3", direccion := "db3:50054", estado := true,
                        cantCaidas := 0 })] }

/-- Insert outcomes: DB1 and DB2 acknowledge, DB3 replies not-ok. -/
def rpcDB3Rechaza : String → Oferta → RespOferta :=
  fun nodoID _ => if nodoID = "DB3" then RespOferta.resp false else RespOferta.resp true

/-- An offer of the registered store Riploy with a category outside the enumeration. -/
def ofertaCategoriaInvalida : Oferta := ofertaDe "Riploy-1" "Libros" 40

/-- An offer of a store that is not registered. -/
def ofertaTiendaDesconocida : Oferta := { ofertaEjemplo with tienda := "Amazon" }

/-- Delivery outcomes: every consumer replies ok. -/
def rpcTodosOk : String → Oferta → RespOferta := fun _ _ => RespOferta.resp true

/-- A broker with two consumers: `C1` with the filter of scenario S4 and `C2` subscribed to
Hogar only. -/
def brokerDosConsumidores : Broker :=
  { brokerEjemplo with
    consumidores := [("C1", consumidorS4),
                     ("C2", { consumidorS4 with id_consumidor := "C2", categorias := ["Hogar"] })] }

/-- The broker of scenario S5 with the consumer `C1` marked dead after one crash. -/
def brokerC1Caido : Broker :=
  { brokerEjemplo with
    consumidores := [("C1", { consumidorS4 with estado := false, cantCaidas := 1,
                                                ofertasRecibidas := 2 })] }

/-- The replicas of `brokerEjemplo` visited in the order DB3, DB2, DB1. -/
def brokerOrdenInverso : Broker :=
  { brokerEjemplo with nodos := brokerEjemplo.nodos.reverse }

/-- Scenario S3 as a run: Riploy and the three replicas register, then an offer is submitted
while DB2 and DB3 are unreachable. -/
def corridaS3 : List Accion :=
  [Accion.registrarProductor "Riploy",
   Accion.registrarNodo "DB1" "db1:50052" true, Accion.registrarNodo "DB2" "db2:50053" true,
   Accion.registrarNodo "DB3" "db3:50054" true,
   Accion.enviarOferta ofertaEjemplo rpcSoloDB1]

end Lab2

/-! # Theorems -/

namespace Lab2

/-! ## Auxiliary lemmas -/

theorem esValido_iff (valor : String) (lista : List String) :
    esValido valor lista = true ↔ valor ∈ lista := by
  induction lista with
  | nil => simp [esValido]
  | cons v resto ih =>
    unfold esValido
    by_cases h : v = valor
    · simp [h]
    · simp [h, ih, Ne.symm h]

theorem enviarOfertaANodo_snd (nodoInfo : NodoInfo) (r : RespOferta) :
    (Broker.enviarOfertaANodo nodoInfo r).2 = decide (r = RespOferta.resp true) := by
  cases r with
  | error => cases h : nodoInfo.estado <;> simp [Broker.enviarOfertaANodo, h]
  | resp exito =>
    cases exito <;> cases h : nodoInfo.estado <;> simp [Broker.enviarOfertaANodo, h]

theorem recorrerNodos_snd (oferta : Oferta) (rpc : String → Oferta → RespOferta)
    (nodos : Mapa NodoInfo) :
    (Broker.recorrerNodos oferta rpc nodos).2 = confirmacionesDe rpc oferta nodos := by
  induction nodos with
  | nil => rfl
  | cons e resto ih =>
    obtain ⟨nodoID, nodoInfo⟩ := e
    simp only [Broker.recorrerNodos, enviarOfertaANodo_snd, ih, confirmacionesDe,
      List.countP_cons]
    by_cases h : rpc nodoID oferta = RespOferta.resp true <;> simp [h]

theorem almacenarOfertaEnNodos_snd (b : Broker) (oferta : Oferta)
    (rpc : String → Oferta → RespOferta) :
    (b.almacenarOfertaEnNodos oferta rpc).2 = decide (W ≤ confirmacionesDe rpc oferta b.nodos) := by
  simp [Broker.almacenarOfertaEnNodos, recorrerNodos_snd]

theorem almacenarOfertaEnNodos_contadores (b : Broker) (oferta : Oferta)
    (rpc : String → Oferta → RespOferta) :
    (b.almacenarOfertaEnNodos oferta rpc).1.ofertasRecibidas = b.ofertasRecibidas ∧
    (b.almacenarOfertaEnNodos oferta rpc).1.escriturasExitosas = b.escriturasExitosas ∧
    (b.almacenarOfertaEnNodos oferta rpc).1.escriturasFallidas = b.escriturasFallidas := by
  simp [Broker.almacenarOfertaEnNodos]

/-! ## C1: write quorum -/

/-- C1. For a Submit whose store is a registered producer and whose category is valid, whatever
the outcomes of the replica RPCs, `Broker.EnviarOferta` replies ok=true exactly when the number
of registered replicas whose insert returned without error and replied ok is at least `W`. -/
theorem C1_write_quorum (b : Broker) (req : Oferta) (rpc : String → Oferta → RespOferta)
    (hprod : (b.productores.buscar req.tienda).isSome = true)
    (hcat : req.categoria ∈ categoriasValidas) :
    (b.EnviarOferta req rpc).2 = true ↔ W ≤ confirmacionesDe rpc req b.nodos := by
  obtain ⟨p, hp⟩ := Option.isSome_iff_exists.mp hprod
  have hv : esValido req.categoria categoriasValidas = true := (esValido_iff _ _).mpr hcat
  unfold Broker.EnviarOferta
  simp only [hp, hv]
  simp only [Bool.true_eq_false, if_false]
  split
  · rename_i h
    rw [almacenarOfertaEnNodos_snd] at h
    simpa [Broker.almacenarOfertaEnNodos] using h
  · rename_i h
    rw [almacenarOfertaEnNodos_snd] at h
    simpa [Broker.almacenarOfertaEnNodos] using h

/-- Scenario S3 as an instance of C1: with one ack out of three the Submit replies ok=false,
and `W = 2`. -/
theorem C1_write_quorum_witness :
    W = 2 ∧ confirmacionesDe rpcSoloDB1 ofertaEjemplo brokerEjemplo.nodos = 1 ∧
    (brokerEjemplo.EnviarOferta ofertaEjemplo rpcSoloDB1).2 = false ∧
    ((brokerEjemplo.EnviarOferta ofertaEjemplo rpcSoloDB1).2 = true ↔
      W ≤ confirmacionesDe rpcSoloDB1 ofertaEjemplo brokerEjemplo.nodos) :=
  ⟨rfl, by decide, by decide,
    C1_write_quorum brokerEjemplo ofertaEjemplo rpcSoloDB1 (by decide) (by decide)⟩

/-! ## C2: write counters -/

theorem verificarInicio_contadores (b : Broker) :
    b.verificarInicio.ofertasRecibidas = b.ofertasRecibidas ∧
    b.verificarInicio.escriturasExitosas = b.escriturasExitosas ∧
    b.verificarInicio.escriturasFallidas = b.escriturasFallidas := by
  simp only [Broker.verificarInicio]
  split <;> simp

theorem obtenerHistorialOfertas_contadores (b : Broker) (leer : String → RespLectura) :
    (b.obtenerHistorialOfertas leer).1.ofertasRecibidas = b.ofertasRecibidas ∧
    (b.obtenerHistorialOfertas leer).1.escriturasExitosas = b.escriturasExitosas ∧
    (b.obtenerHistorialOfertas leer).1.escriturasFallidas = b.escriturasFallidas := by
  simp only [Broker.obtenerHistorialOfertas]
  split <;> simp

theorem SincronizarEntidad_contadores (b : Broker) (entidadID tipo : String)
    (ofertasActuales : List Oferta) (leer : String → RespLectura) :
    (b.SincronizarEntidad entidadID tipo ofertasActuales leer).1.ofertasRecibidas
      = b.ofertasRecibidas ∧
    (b.SincronizarEntidad entidadID tipo ofertasActuales leer).1.escriturasExitosas
      = b.escriturasExitosas ∧
    (b.SincronizarEntidad entidadID tipo ofertasActuales leer).1.escriturasFallidas
      = b.escriturasFallidas := by
  have h := obtenerHistorialOfertas_contadores b leer
  unfold Broker.SincronizarEntidad
  simp only
  split
  · exact h
  · split
    · split
      · exact h
      · exact h
    · split
      · exact h
      · exact h

/-- Counters after a step that is not a validated Submit. -/
theorem paso_contadores_sin_validar (b : Broker) (a : Accion)
    (h : b.pasaValidacion a = false) :
    (b.paso a).ofertasRecibidas = b.ofertasRecibidas ∧
    (b.paso a).escriturasExitosas = b.escriturasExitosas ∧
    (b.paso a).escriturasFallidas = b.escriturasFallidas := by
  cases a with
  | registrarProductor nombre =>
    simp only [Broker.paso, Broker.RegistrarProductor]
    split
    · simp
    · split
      · simp
      · exact verificarInicio_contadores _
  | registrarNodo nodoID direccion conecta =>
    simp only [Broker.paso, Broker.RegistrarNodo]
    split
    · simp
    · split
      · simp
      · split
        · simp
        · exact verificarInicio_contadores _
  | registrarConsumidor consumidorID categorias tiendas precioMax direccion conecta =>
    simp only [Broker.paso, Broker.RegistrarConsumidor]
    split
    · simp
    · split
      · simp
      · exact verificarInicio_contadores _
  | enviarOferta req rpc =>
    simp only [Broker.pasaValidacion, Bool.and_eq_false_imp] at h
    simp only [Broker.paso, Broker.EnviarOferta]
    cases hp : b.productores.buscar req.tienda with
    | none => simp
    | some p =>
      have hv := h (by simp [hp])
      simp [hv]
  | distribuir oferta rpc => simp [Broker.paso, Broker.distribuirAConsumidores]
  | sincronizar entidadID tipo ofertasActuales leer =>
    exact SincronizarEntidad_contadores b entidadID tipo ofertasActuales leer

/-- Counters after a validated Submit: `ofertasRecibidas` grows by one and exactly one of the two
write counters grows by one. -/
theorem EnviarOferta_contadores_validado (b : Broker) (req : Oferta)
    (rpc : String → Oferta → RespOferta)
    (h : b.pasaValidacion (Accion.enviarOferta req rpc) = true) :
    (b.EnviarOferta req rpc).1.ofertasRecibidas = b.ofertasRecibidas + 1 ∧
    (((b.EnviarOferta req rpc).1.escriturasExitosas = b.escriturasExitosas + 1 ∧
      (b.EnviarOferta req rpc).1.escriturasFallidas = b.escriturasFallidas) ∨
     ((b.EnviarOferta req rpc).1.escriturasExitosas = b.escriturasExitosas ∧
      (b.EnviarOferta req rpc).1.escriturasFallidas = b.escriturasFallidas + 1)) := by
  simp only [Broker.pasaValidacion, Bool.and_eq_true] at h
  obtain ⟨hprod, hv⟩ := h
  obtain ⟨p, hp⟩ := Option.isSome_iff_exists.mp hprod
  unfold Broker.EnviarOferta
  simp only [hp, hv]
  simp only [Bool.true_eq_false, if_false]
  split <;> simp [Broker.almacenarOfertaEnNodos]

theorem ejecutar_contadores (acciones : List Accion) (b : Broker)
    (h : b.escriturasExitosas + b.escriturasFallidas = b.ofertasRecibidas) :
    (b.ejecutar acciones).escriturasExitosas + (b.ejecutar acciones).escriturasFallidas
      = (b.ejecutar acciones).ofertasRecibidas ∧
    (b.ejecutar acciones).ofertasRecibidas = b.ofertasRecibidas + b.validados acciones := by
  induction acciones generalizing b with
  | nil => simp [Broker.ejecutar, Broker.validados, h]
  | cons a resto ih =>
    have hstep : (b.paso a).escriturasExitosas + (b.paso a).escriturasFallidas
          = (b.paso a).ofertasRecibidas ∧
        (b.paso a).ofertasRecibidas
          = b.ofertasRecibidas + (if b.pasaValidacion a then 1 else 0) := by
      cases hv : b.pasaValidacion a with
      | false =>
        obtain ⟨h1, h2, h3⟩ := paso_contadores_sin_validar b a hv
        simp [h1, h2, h3, h]
      | true =>
        cases a with
        | enviarOferta req rpc =>
          obtain ⟨h1, h2⟩ := EnviarOferta_contadores_validado b req rpc hv
          simp only [Broker.paso]
          rcases h2 with ⟨h2, h3⟩ | ⟨h2, h3⟩ <;> simp [h1, h2, h3] <;> omega
        | _ => simp [Broker.pasaValidacion] at hv
    obtain ⟨i1, i2⟩ := ih (b.paso a) hstep.1
    have he : b.ejecutar (a :: resto) = (b.paso a).ejecutar resto := by
      simp [Broker.ejecutar]
    rw [he]
    refine ⟨i1, ?_⟩
    rw [i2, hstep.2]
    simp only [Broker.validados]
    omega

/-- C2. In every state the broker reaches from `NewBroker` by registrations, Submits, consumer
fan-outs and Resyncs, `escriturasExitosas + escriturasFallidas = ofertasRecibidas`, and that
number is the number of Submits of the run that passed both validations; and in any state a
Submit that passes both validations adds one to exactly one of the two write counters and leaves
the other as it was. -/
theorem C2_write_counters :
    (∀ acciones : List Accion,
      (NewBroker.ejecutar acciones).escriturasExitosas
          + (NewBroker.ejecutar acciones).escriturasFallidas
        = (NewBroker.ejecutar acciones).ofertasRecibidas ∧
      (NewBroker.ejecutar acciones).ofertasRecibidas = NewBroker.validados acciones) ∧
    (∀ (b : Broker) (req : Oferta) (rpc : String → Oferta → RespOferta),
      b.pasaValidacion (Accion.enviarOferta req rpc) = true →
      (((b.EnviarOferta req rpc).1.escriturasExitosas = b.escriturasExitosas + 1 ∧
        (b.EnviarOferta req rpc).1.escriturasFallidas = b.escriturasFallidas) ∨
       ((b.EnviarOferta req rpc).1.escriturasExitosas = b.escriturasExitosas ∧
        (b.EnviarOferta req rpc).1.escriturasFallidas = b.escriturasFallidas + 1))) := by
  refine ⟨fun acciones => ?_, fun b req rpc h => (EnviarOferta_contadores_validado b req rpc h).2⟩
  have h := ejecutar_contadores acciones NewBroker (by simp [NewBroker])
  refine ⟨h.1, ?_⟩
  rw [h.2]
  simp [NewBroker]

/-- An instance of C2: in `brokerEjemplo` the Submit of scenario S3 passes both validations and
adds one to `escriturasFallidas` only; and the run that registers Riploy and submits one offer
with no replica registered ends with one offer received. -/
theorem C2_write_counters_witness :
    brokerEjemplo.pasaValidacion (Accion.enviarOferta ofertaEjemplo rpcSoloDB1) = true ∧
    (((brokerEjemplo.EnviarOferta ofertaEjemplo rpcSoloDB1).1.escriturasExitosas
        = brokerEjemplo.escriturasExitosas + 1 ∧
      (brokerEjemplo.EnviarOferta ofertaEjemplo rpcSoloDB1).1.escriturasFallidas
        = brokerEjemplo.escriturasFallidas) ∨
     ((brokerEjemplo.EnviarOferta ofertaEjemplo rpcSoloDB1).1.escriturasExitosas
        = brokerEjemplo.escriturasExitosas ∧
      (brokerEjemplo.EnviarOferta ofertaEjemplo rpcSoloDB1).1.escriturasFallidas
        = brokerEjemplo.escriturasFallidas + 1)) ∧
    (NewBroker.ejecutar [Accion.registrarProductor "Riploy",
        Accion.enviarOferta ofertaEjemplo rpcSoloDB1]).ofertasRecibidas
      = NewBroker.validados [Accion.registrarProductor "Riploy",
        Accion.enviarOferta ofertaEjemplo rpcSoloDB1] ∧
    NewBroker.validados [Accion.registrarProductor "Riploy",
        Accion.enviarOferta ofertaEjemplo rpcSoloDB1] = 1 :=
  ⟨by decide,
   C2_write_counters.2 brokerEjemplo ofertaEjemplo rpcSoloDB1 (by decide),
   (C2_write_counters.1 _).2, by decide⟩

/-! ## C3: subscription matcher -/

theorem any_igual_false (l : List String) (v : String) :
    l.any (fun x => decide (x = v)) = false ↔ v ∉ l := by
  induction l with
  | nil => simp
  | cons a resto ih =>
    simp only [List.any_cons, Bool.or_eq_false_iff, ih, List.mem_cons, not_or,
      decide_eq_false_iff_not]
    constructor
    · rintro ⟨h1, h2⟩
      exact ⟨fun h => h1 h.symm, h2⟩
    · rintro ⟨h1, h2⟩
      exact ⟨fun h => h1 h.symm, h2⟩


/-- C3, refuted as stated. A consumer registered with an empty `categorias` list has no
`"null"` in first position and no category is an element of the list, so the stated
right-hand side is false; yet `coincideConPreferencias` returns true. -/
theorem C3_counterexample :
    ¬ (Broker.coincideConPreferencias ofertaEjemplo consumidorSinListas = true ↔
        ((consumidorSinListas.categorias.head? = some "null" ∨
            ofertaEjemplo.categoria ∈ consumidorSinListas.categorias) ∧
         (consumidorSinListas.tiendas.head? = some "null" ∨
            ofertaEjemplo.tienda ∈ consumidorSinListas.tiendas) ∧
         (consumidorSinListas.precio_max ≤ 0 ∨
            ofertaEjemplo.precio ≤ consumidorSinListas.precio_max))) := by
  decide

/-- C3, amended. `coincideConPreferencias` returns true exactly when, on each list axis, the
list is empty or has `"null"` in first position or contains the offer's value, and the price
bound is non-positive or not exceeded.  On scenario S4 it accepts `{Moda,40}` and rejects
`{Moda,60}` and `{Hogar,40}`. -/
theorem C3_matcher_amended :
    (∀ (o : Oferta) (c : ConsumidorInfo),
      Broker.coincideConPreferencias o c = true ↔
        ((c.categorias = [] ∨ c.categorias.head? = some "null" ∨ o.categoria ∈ c.categorias) ∧
         (c.tiendas = [] ∨ c.tiendas.head? = some "null" ∨ o.tienda ∈ c.tiendas) ∧
         (c.precio_max ≤ 0 ∨ o.precio ≤ c.precio_max))) ∧
    Broker.coincideConPreferencias (ofertaDe "Riploy-1" "Moda" 40) consumidorS4 = true ∧
    Broker.coincideConPreferencias (ofertaDe "Riploy-2" "Moda" 60) consumidorS4 = false ∧
    Broker.coincideConPreferencias (ofertaDe "Riploy-3" "Hogar" 40) consumidorS4 = false := by
  refine ⟨fun o c => ?_, by decide, by decide, by decide⟩
  have hlen : ∀ l : List String, l.length > 0 ↔ l ≠ [] := by
    intro l; cases l <;> simp
  unfold Broker.coincideConPreferencias
  by_cases h1 : c.categorias.length > 0 ∧ c.categorias.head? ≠ some "null" ∧
      c.categorias.any (fun categoria => categoria = o.categoria) = false
  · rw [if_pos h1]
    obtain ⟨a1, a2, a3⟩ := h1
    have a4 : o.categoria ∉ c.categorias := (any_igual_false _ _).mp a3
    have a5 : c.categorias ≠ [] := (hlen _).mp a1
    simp [a2, a4, a5]
  · rw [if_neg h1]
    have c1 : c.categorias = [] ∨ c.categorias.head? = some "null" ∨
        o.categoria ∈ c.categorias := by
      by_contra hc
      push_neg at hc
      apply h1
      exact ⟨(hlen _).mpr hc.1, hc.2.1, (any_igual_false _ _).mpr hc.2.2⟩
    by_cases h2 : c.tiendas.length > 0 ∧ c.tiendas.head? ≠ some "null" ∧
        c.tiendas.any (fun tienda => tienda = o.tienda) = false
    · rw [if_pos h2]
      obtain ⟨a1, a2, a3⟩ := h2
      have a4 : o.tienda ∉ c.tiendas := (any_igual_false _ _).mp a3
      have a5 : c.tiendas ≠ [] := (hlen _).mp a1
      simp [a2, a4, a5]
    · rw [if_neg h2]
      have c2 : c.tiendas = [] ∨ c.tiendas.head? = some "null" ∨ o.tienda ∈ c.tiendas := by
        by_contra hc
        push_neg at hc
        apply h2
        exact ⟨(hlen _).mpr hc.1, hc.2.1, (any_igual_false _ _).mpr hc.2.2⟩
      by_cases h3 : c.precio_max > 0 ∧ o.precio > c.precio_max
      · rw [if_pos h3]
        simp only [Bool.false_eq_true, false_iff, not_and, not_or, not_le]
        intro _ _
        exact ⟨h3.1, h3.2⟩
      · rw [if_neg h3]
        simp only [true_iff]
        refine ⟨c1, c2, ?_⟩
        by_contra hc
        push_neg at hc
        exact h3 ⟨hc.1, hc.2⟩

/-! ## C4: read quorum not reached -/

theorem leerNodos_snd (leer : String → RespLectura) (nodos : Mapa NodoInfo) :
    (Broker.leerNodos leer nodos).2 = respuestasOk leer nodos := by
  induction nodos with
  | nil => rfl
  | cons e resto ih =>
    obtain ⟨nodoID, nodoInfo⟩ := e
    simp only [Broker.leerNodos, respuestasOk, List.filterMap_cons]
    simp only [respuestasOk] at ih
    cases h : leer nodoID with
    | error => simp [ih]
    | resp ofertas exito => cases exito <;> simp [ih]

theorem respuestasOk_length (leer : String → RespLectura) (nodos : Mapa NodoInfo) :
    (respuestasOk leer nodos).length = respondieron leer nodos := by
  induction nodos with
  | nil => rfl
  | cons e resto ih =>
    obtain ⟨nodoID, nodoInfo⟩ := e
    simp only [respuestasOk, respondieron, List.filterMap_cons, List.countP_cons]
    simp only [respuestasOk, respondieron] at ih
    cases h : leer nodoID with
    | error => simp [ih]
    | resp ofertas exito => cases exito <;> simp [ih]

theorem obtenerHistorialOfertas_snd (b : Broker) (leer : String → RespLectura) :
    (b.obtenerHistorialOfertas leer).2 =
      if respondieron leer b.nodos < R then Slice.nil
      else Broker.primerParIdentico (respuestasOk leer b.nodos) := by
  simp only [Broker.obtenerHistorialOfertas, leerNodos_snd, respuestasOk_length]
  split <;> rfl

/-- C4. Whatever the broker state, the entity id, the kind and the caller's snapshot, when fewer
than `R` replicas return from `LeerOfertas` without error with ok=true, `SincronizarEntidad`
replies ok=false with no missing offers. -/
theorem C4_read_quorum_not_reached (b : Broker) (entidadID tipo : String)
    (ofertasActuales : List Oferta) (leer : String → RespLectura)
    (h : respondieron leer b.nodos < R) :
    (b.SincronizarEntidad entidadID tipo ofertasActuales leer).2.exito = false ∧
    (b.SincronizarEntidad entidadID tipo ofertasActuales leer).2.ofertasFaltantes = [] := by
  have hn : (b.obtenerHistorialOfertas leer).2 = Slice.nil := by
    rw [obtenerHistorialOfertas_snd, if_pos h]
  simp [Broker.SincronizarEntidad, hn]

/-- Scenario S6 as an instance of C4: only DB1 answers, `R = 2`, and the Resync of DB2 replies
ok=false with no missing offers. -/
theorem C4_read_quorum_not_reached_witness :
    R = 2 ∧ respondieron leerSoloDB1 brokerEjemplo.nodos = 1 ∧
    (brokerEjemplo.SincronizarEntidad "DB2" "nodo" [] leerSoloDB1).2.exito = false ∧
    (brokerEjemplo.SincronizarEntidad "DB2" "nodo" [] leerSoloDB1).2.ofertasFaltantes = [] :=
  ⟨rfl, by decide,
    C4_read_quorum_not_reached brokerEjemplo "DB2" "nodo" [] leerSoloDB1 (by decide)⟩

/-! ## C5: read quorum with two agreeing replicas -/

theorem mem_idsDe (ofertas : List Oferta) (id : String) :
    id ∈ idsDe ofertas ↔ ∃ o ∈ ofertas, o.oferta_id = id := by
  simp [idsDe]

theorem idsDe_card (ofertas : List Oferta) (h : sinDuplicados ofertas) :
    (idsDe ofertas).card = ofertas.length := by
  unfold idsDe
  rw [List.toFinset_card_of_nodup h, List.length_map]

/-- On duplicate-free lists `sonListasIdenticas` decides equality of the sets of offer ids. -/
theorem sonListasIdenticas_iff (lista1 lista2 : Slice Oferta)
    (h1 : sinDuplicados lista1.elems) (h2 : sinDuplicados lista2.elems) :
    Broker.sonListasIdenticas lista1 lista2 = true ↔
      idsDe lista1.elems = idsDe lista2.elems := by
  unfold Broker.sonListasIdenticas
  constructor
  · intro h
    by_cases hl : lista1.elems.length ≠ lista2.elems.length
    · rw [if_pos hl] at h
      exact absurd h (by simp)
    · rw [if_neg hl] at h
      push_neg at hl
      apply Finset.eq_of_subset_of_card_le
      · intro id hid
        obtain ⟨o1, ho1, rfl⟩ := (mem_idsDe _ _).mp hid
        have := List.all_eq_true.mp h o1 ho1
        obtain ⟨o2, ho2, he⟩ := List.any_eq_true.mp this
        exact (mem_idsDe _ _).mpr ⟨o2, ho2, (of_decide_eq_true he).symm⟩
      · rw [idsDe_card _ h1, idsDe_card _ h2, hl]
  · intro h
    have hl : lista1.elems.length = lista2.elems.length := by
      rw [← idsDe_card _ h1, ← idsDe_card _ h2, h]
    rw [if_neg (by simpa using hl)]
    apply List.all_eq_true.mpr
    intro o1 ho1
    have hm : o1.oferta_id ∈ idsDe lista2.elems := by
      rw [← h]
      exact (mem_idsDe _ _).mpr ⟨o1, ho1, rfl⟩
    obtain ⟨o2, ho2, he⟩ := (mem_idsDe _ _).mp hm
    exact List.any_eq_true.mpr ⟨o2, ho2, decide_eq_true he.symm⟩

/-- With at most three duplicate-free logs, two of which have the same id set, the scan for the
first identical pair returns one of the logs, with that id set. -/
theorem primerParIdentico_acuerdo (listas : List (Slice Oferta)) (hlen : listas.length ≤ 3)
    (hnd : ∀ l ∈ listas, sinDuplicados l.elems) (l1 l2 : Slice Oferta)
    (hsub : [l1, l2].Sublist listas) (h12 : idsDe l1.elems = idsDe l2.elems) :
    Broker.primerParIdentico listas ∈ listas ∧
    idsDe (Broker.primerParIdentico listas).elems = idsDe l1.elems := by
  rcases listas with _ | ⟨a, _ | ⟨b, _ | ⟨c, _ | ⟨d, resto⟩⟩⟩⟩
  · simp at hsub
  · simp at hsub
  · have he : [l1, l2] = [a, b] := hsub.eq_of_length (by simp)
    simp only [List.cons.injEq, and_true] at he
    obtain ⟨rfl, rfl⟩ := he
    have hab : Broker.sonListasIdenticas l1 l2 = true :=
      (sonListasIdenticas_iff l1 l2 (hnd l1 (by simp)) (hnd l2 (by simp))).mpr h12
    simp [Broker.primerParIdentico, hab]
  · have ha := hnd a (by simp)
    have hb := hnd b (by simp)
    have hc := hnd c (by simp)
    have iab := sonListasIdenticas_iff a b ha hb
    have iac := sonListasIdenticas_iff a c ha hc
    have ibc := sonListasIdenticas_iff b c hb hc
    have hcasos : (l1 = a ∧ l2 = b) ∨ (l1 = a ∧ l2 = c) ∨ (l1 = b ∧ l2 = c) := by
      rw [List.sublist_cons_iff] at hsub
      rcases hsub with hsub | ⟨r, hr, hsub⟩
      · have he : [l1, l2] = [b, c] := hsub.eq_of_length (by simp)
        simp only [List.cons.injEq, and_true] at he
        exact Or.inr (Or.inr he)
      · simp only [List.cons.injEq] at hr
        obtain ⟨rfl, rfl⟩ := hr
        have hm : l2 ∈ [b, c] := List.singleton_sublist.mp hsub
        simp only [List.mem_cons, List.mem_singleton, List.not_mem_nil, or_false] at hm
        rcases hm with rfl | rfl
        · exact Or.inl ⟨rfl, rfl⟩
        · exact Or.inr (Or.inl ⟨rfl, rfl⟩)
    simp only [Broker.primerParIdentico, List.any_cons, List.any_nil, Bool.or_false]
    by_cases hab : Broker.sonListasIdenticas a b = true
    · simp only [hab, Bool.true_or, if_true, List.mem_cons, true_or, true_and]
      rcases hcasos with ⟨rfl, rfl⟩ | ⟨rfl, rfl⟩ | ⟨rfl, rfl⟩
      · rfl
      · rfl
      · exact iab.mp hab
    · by_cases hac : Broker.sonListasIdenticas a c = true
      · simp only [hac, Bool.or_true, if_true, List.mem_cons, true_or, true_and]
        rcases hcasos with ⟨rfl, rfl⟩ | ⟨rfl, rfl⟩ | ⟨rfl, rfl⟩
        · rfl
        · rfl
        · rw [iac.mp hac, h12]
      · rcases hcasos with ⟨rfl, rfl⟩ | ⟨rfl, rfl⟩ | ⟨rfl, rfl⟩
        · exact absurd (iab.mpr h12) hab
        · exact absurd (iac.mpr h12) hac
        · have hbc : Broker.sonListasIdenticas l1 l2 = true := ibc.mpr h12
          simp [hab, hac, hbc]
  · simp at hlen

theorem respuestasOk_cons (leer : String → RespLectura) (nodoID : String) (nodoInfo : NodoInfo)
    (resto : Mapa NodoInfo) :
    respuestasOk leer ((nodoID, nodoInfo) :: resto) =
      match leer nodoID with
      | RespLectura.resp ofertas true => ofertas :: respuestasOk leer resto
      | _ => respuestasOk leer resto := by
  simp only [respuestasOk, List.filterMap_cons]
  cases h : leer nodoID with
  | error => rfl
  | resp ofertas exito => cases exito <;> rfl

theorem respuestasOk_sublist_cons (leer : String → RespLectura) (e : String × NodoInfo)
    (resto : Mapa NodoInfo) :
    (respuestasOk leer resto).Sublist (respuestasOk leer (e :: resto)) := by
  obtain ⟨nodoID, nodoInfo⟩ := e
  rw [respuestasOk_cons]
  cases h : leer nodoID with
  | error => exact List.Sublist.refl _
  | resp ofertas exito =>
    cases exito
    · exact List.Sublist.refl _
    · exact List.sublist_cons_self _ _

theorem mem_respuestasOk (leer : String → RespLectura) (nodos : Mapa NodoInfo)
    (l : Slice Oferta) :
    l ∈ respuestasOk leer nodos ↔
      ∃ k ∈ nodos.map Prod.fst, leer k = RespLectura.resp l true := by
  induction nodos with
  | nil => simp [respuestasOk]
  | cons e resto ih =>
    obtain ⟨nodoID, nodoInfo⟩ := e
    rw [respuestasOk_cons]
    cases h : leer nodoID with
    | error => simp [ih, h]
    | resp ofertas exito =>
      cases exito
      · simp [ih, h]
      · simp only [List.mem_cons, ih, List.map_cons, exists_eq_or_imp, h,
          RespLectura.resp.injEq, and_true]
        constructor
        · rintro (rfl | h')
          · exact Or.inl rfl
          · exact Or.inr h'
        · rintro (rfl | h')
          · exact Or.inl rfl
          · exact Or.inr h'

/-- Two distinct replicas that both answer ok contribute two entries, at different positions, to
the list of collected logs. -/
theorem respuestasOk_par (leer : String → RespLectura) (nodos : Mapa NodoInfo)
    (k1 k2 : String) (l1 l2 : Slice Oferta) (hne : k1 ≠ k2)
    (hk1 : k1 ∈ nodos.map Prod.fst) (hk2 : k2 ∈ nodos.map Prod.fst)
    (h1 : leer k1 = RespLectura.resp l1 true) (h2 : leer k2 = RespLectura.resp l2 true) :
    [l1, l2].Sublist (respuestasOk leer nodos) ∨ [l2, l1].Sublist (respuestasOk leer nodos) := by
  induction nodos with
  | nil => simp at hk1
  | cons e resto ih =>
    obtain ⟨nodoID, nodoInfo⟩ := e
    simp only [List.map_cons, List.mem_cons] at hk1 hk2
    rcases hk1 with rfl | hk1
    · rcases hk2 with rfl | hk2
      · exact absurd rfl hne
      · left
        rw [respuestasOk_cons, h1]
        have hm : l2 ∈ respuestasOk leer resto := (mem_respuestasOk _ _ _).mpr ⟨k2, hk2, h2⟩
        exact List.Sublist.cons₂ _ (List.singleton_sublist.mpr hm)
    · rcases hk2 with rfl | hk2
      · right
        rw [respuestasOk_cons, h2]
        have hm : l1 ∈ respuestasOk leer resto := (mem_respuestasOk _ _ _).mpr ⟨k1, hk1, h1⟩
        exact List.Sublist.cons₂ _ (List.singleton_sublist.mpr hm)
      · rcases ih hk1 hk2 with h | h
        · exact Or.inl (h.trans (respuestasOk_sublist_cons _ _ _))
        · exact Or.inr (h.trans (respuestasOk_sublist_cons _ _ _))

/-- The authoritative list when all collected logs are duplicate-free, there are at most three
replicas, and two distinct replicas answer ok with the same id set. -/
theorem obtenerHistorialOfertas_acuerdo (b : Broker) (leer : String → RespLectura)
    (k1 k2 : String) (l1 l2 : Slice Oferta)
    (hN : b.nodos.length ≤ N)
    (hnd : ∀ k ∈ b.nodos.map Prod.fst, ∀ l, leer k = RespLectura.resp l true →
      sinDuplicados l.elems)
    (hne : k1 ≠ k2)
    (hk1 : k1 ∈ b.nodos.map Prod.fst) (hk2 : k2 ∈ b.nodos.map Prod.fst)
    (h1 : leer k1 = RespLectura.resp l1 true) (h2 : leer k2 = RespLectura.resp l2 true)
    (h12 : idsDe l1.elems = idsDe l2.elems) :
    idsDe (b.obtenerHistorialOfertas leer).2.elems = idsDe l1.elems := by
  have hlen : (respuestasOk leer b.nodos).length ≤ 3 :=
    le_trans (List.length_filterMap_le _ _) hN
  have hnd' : ∀ l ∈ respuestasOk leer b.nodos, sinDuplicados l.elems := by
    intro l hl
    obtain ⟨k, hk, hkl⟩ := (mem_respuestasOk _ _ _).mp hl
    exact hnd k hk l hkl
  have hpar := respuestasOk_par leer b.nodos k1 k2 l1 l2 hne hk1 hk2 h1 h2
  have hR : ¬ respondieron leer b.nodos < R := by
    rw [← respuestasOk_length]
    rcases hpar with h | h
    · have := h.length_le
      simp only [List.length_cons, List.length_nil] at this
      simp only [R]
      omega
    · have := h.length_le
      simp only [List.length_cons, List.length_nil] at this
      simp only [R]
      omega
  rw [obtenerHistorialOfertas_snd, if_neg hR]
  rcases hpar with h | h
  · exact (primerParIdentico_acuerdo _ hlen hnd' l1 l2 h h12).2
  · rw [(primerParIdentico_acuerdo _ hlen hnd' l2 l1 h h12.symm).2, h12]

/-- C5, refuted as stated. DB2 and DB3 answer with duplicate-free logs that have the same
non-empty id set `{"Riploy-1", "Riploy-2"}`, but DB1, visited first, answers with a log of the
same length that repeats `"Riploy-1"`: the scan accepts the pair (DB1, DB2) and the Resync
returns DB1's log, whose id set is `{"Riploy-1"}`. -/
theorem C5_counterexample :
    brokerEjemplo.nodos.length ≤ N ∧
    "DB2" ∈ brokerEjemplo.nodos.map Prod.fst ∧ "DB3" ∈ brokerEjemplo.nodos.map Prod.fst ∧
    leerConDuplicado "DB2"
      = RespLectura.resp (Slice.de [ofertaId "Riploy-1", ofertaId "Riploy-2"]) true ∧
    leerConDuplicado "DB3"
      = RespLectura.resp (Slice.de [ofertaId "Riploy-2", ofertaId "Riploy-1"]) true ∧
    sinDuplicados [ofertaId "Riploy-1", ofertaId "Riploy-2"] ∧
    sinDuplicados [ofertaId "Riploy-2", ofertaId "Riploy-1"] ∧
    idsDe [ofertaId "Riploy-1", ofertaId "Riploy-2"] = {"Riploy-1", "Riploy-2"} ∧
    idsDe [ofertaId "Riploy-2", ofertaId "Riploy-1"] = {"Riploy-1", "Riploy-2"} ∧
    (brokerEjemplo.SincronizarEntidad "DB1" "nodo" [] leerConDuplicado).2.ofertasFaltantes
      = [ofertaId "Riploy-1", ofertaId "Riploy-1"] ∧
    idsDe (brokerEjemplo.SincronizarEntidad "DB1" "nodo" [] leerConDuplicado).2.ofertasFaltantes
      ≠ {"Riploy-1", "Riploy-2"} := by
  decide

/-- C5, amended. For a broker with at most `N` registered replicas, when every replica that
answers `LeerOfertas` ok returns a duplicate-free log and two distinct replicas among them
return logs with the same non-empty id set `H`, the Resync of kind `"nodo"` with an empty
snapshot replies ok=true and the id set of its missing offers is `H`. -/
theorem C5_read_quorum_amended (b : Broker) (entidadID : String) (leer : String → RespLectura)
    (k1 k2 : String) (l1 l2 : Slice Oferta) (H : Finset String)
    (hN : b.nodos.length ≤ N)
    (hnd : ∀ k ∈ b.nodos.map Prod.fst, ∀ l, leer k = RespLectura.resp l true →
      sinDuplicados l.elems)
    (hne : k1 ≠ k2)
    (hk1 : k1 ∈ b.nodos.map Prod.fst) (hk2 : k2 ∈ b.nodos.map Prod.fst)
    (h1 : leer k1 = RespLectura.resp l1 true) (h2 : leer k2 = RespLectura.resp l2 true)
    (hH1 : idsDe l1.elems = H) (hH2 : idsDe l2.elems = H) (hH : H.Nonempty) :
    (b.SincronizarEntidad entidadID "nodo" [] leer).2.exito = true ∧
    idsDe (b.SincronizarEntidad entidadID "nodo" [] leer).2.ofertasFaltantes = H := by
  have hids := obtenerHistorialOfertas_acuerdo b leer k1 k2 l1 l2 hN hnd hne hk1 hk2 h1 h2
    (hH1.trans hH2.symm)
  rw [hH1] at hids
  cases hx : (b.obtenerHistorialOfertas leer).2 with
  | nil =>
    rw [hx] at hids
    obtain ⟨id, hid⟩ := hH
    rw [← hids] at hid
    simp [Slice.elems, idsDe] at hid
  | de historial =>
    rw [hx] at hids
    have hf : historial.filter (fun o => !existeEnActuales [] o) = historial := by
      simp [existeEnActuales]
    have hc : ("nodo" = "consumidor") = False := by decide
    simp only [Broker.SincronizarEntidad, hx, hc, if_false, hf]
    exact ⟨trivial, hids⟩

/-- An instance of C5: the three replicas answer with duplicate-free logs, DB2 and DB3 with
the id set `{"Riploy-1", "Riploy-2"}`; the Resync replies ok=true with that id set. -/
theorem C5_read_quorum_amended_witness :
    (brokerEjemplo.SincronizarEntidad "DB1" "nodo" [] leerDosDeAcuerdo).2.exito = true ∧
    idsDe (brokerEjemplo.SincronizarEntidad "DB1" "nodo" [] leerDosDeAcuerdo).2.ofertasFaltantes
      = {"Riploy-1", "Riploy-2"} :=
  C5_read_quorum_amended brokerEjemplo "DB1" leerDosDeAcuerdo "DB2" "DB3"
    (Slice.de [ofertaId "Riploy-1", ofertaId "Riploy-2"])
    (Slice.de [ofertaId "Riploy-2", ofertaId "Riploy-1"]) {"Riploy-1", "Riploy-2"}
    (by decide)
    (by
      intro k hk l hl
      simp only [brokerEjemplo, NewBroker, List.map_cons, List.map_nil, List.mem_cons,
        List.mem_singleton, List.not_mem_nil, or_false] at hk
      rcases hk with rfl | rfl | rfl
      · have : l = Slice.de [ofertaId "Riploy-1"] := by
          simp [leerDosDeAcuerdo] at hl; exact hl.symm
        subst this; decide
      · have : l = Slice.de [ofertaId "Riploy-1", ofertaId "Riploy-2"] := by
          simp [leerDosDeAcuerdo] at hl; exact hl.symm
        subst this; decide
      · have : l = Slice.de [ofertaId "Riploy-2", ofertaId "Riploy-1"] := by
          simp [leerDosDeAcuerdo] at hl; exact hl.symm
        subst this; decide)
    (by decide) (by decide) (by decide) (by decide) (by decide) (by decide) (by decide)
    (by decide)

/-! ## C6: agreement on the empty log -/

/-- C6, the code at the failing input. The three registered replicas answer `LeerOfertas` ok
with an empty log (the nil slice), so `R` replicas responded and every pair of logs is found
identical; the scan returns `listasOfertas[0]`, which is nil, and `SincronizarEntidad` takes it
for the failure value and replies ok=false.  With the same replies held as non-nil empty slices
the reply is ok=true. -/
theorem C6_empty_logs_rejected :
    R ≤ respondieron leerVacias brokerEjemplo.nodos ∧
    Broker.sonListasIdenticas Slice.nil Slice.nil = true ∧
    (brokerEjemplo.obtenerHistorialOfertas leerVacias).2 = Slice.nil ∧
    (brokerEjemplo.SincronizarEntidad "DB1" "nodo" [] leerVacias).2.exito = false ∧
    (brokerEjemplo.SincronizarEntidad "DB1" "nodo" [] leerVaciasNoNil).2.exito = true := by
  decide

/-! ## C7: diff for a replica -/

theorem existeEnActuales_eq (ofertasActuales : List Oferta) (o : Oferta) :
    existeEnActuales ofertasActuales o
      = decide (o.oferta_id ∈ ofertasActuales.map (fun a => a.oferta_id)) := by
  unfold existeEnActuales
  induction ofertasActuales with
  | nil => simp
  | cons a resto ih =>
    simp only [List.any_cons, ih, List.map_cons, List.mem_cons]
    by_cases h : a.oferta_id = o.oferta_id
    · simp [h]
    · have h' : ¬ o.oferta_id = a.oferta_id := fun e => h e.symm
      simp [h, h']

/-- C7. When the read quorum yields the authoritative list `H`, the Resync of kind `"nodo"`
replies ok=true and its missing offers are the sub-list of `H`, in the order of `H`, of the
offers whose id does not occur in the caller's snapshot; so no returned id occurs in the
snapshot, and every id of `H` occurs in the snapshot or among the missing offers. -/
theorem C7_replica_diff (b : Broker) (entidadID : String) (ofertasActuales : List Oferta)
    (leer : String → RespLectura) (H : List Oferta)
    (hH : (b.obtenerHistorialOfertas leer).2 = Slice.de H) :
    (b.SincronizarEntidad entidadID "nodo" ofertasActuales leer).2.exito = true ∧
    (b.SincronizarEntidad entidadID "nodo" ofertasActuales leer).2.ofertasFaltantes
      = H.filter (fun o => decide (o.oferta_id ∉ ofertasActuales.map (fun a => a.oferta_id))) ∧
    (∀ o ∈ (b.SincronizarEntidad entidadID "nodo" ofertasActuales leer).2.ofertasFaltantes,
      o.oferta_id ∉ ofertasActuales.map (fun a => a.oferta_id)) ∧
    (∀ o ∈ H, o.oferta_id ∈ ofertasActuales.map (fun a => a.oferta_id) ∨
      o.oferta_id ∈ ((b.SincronizarEntidad entidadID "nodo" ofertasActuales
        leer).2.ofertasFaltantes).map (fun a => a.oferta_id)) := by
  have hc : ("nodo" = "consumidor") = False := by decide
  have hr : (b.SincronizarEntidad entidadID "nodo" ofertasActuales leer).2
      = { ofertasFaltantes := H.filter (fun o =>
            decide (o.oferta_id ∉ ofertasActuales.map (fun a => a.oferta_id))),
          exito := true } := by
    have hf : (fun o : Oferta => !existeEnActuales ofertasActuales o)
        = (fun o => decide (o.oferta_id ∉ ofertasActuales.map (fun a => a.oferta_id))) := by
      funext o
      rw [existeEnActuales_eq]
      by_cases hm : o.oferta_id ∈ ofertasActuales.map (fun a => a.oferta_id) <;> simp [hm]
    simp only [Broker.SincronizarEntidad, hH, hc, if_false, hf]
  rw [hr]
  refine ⟨rfl, rfl, ?_, ?_⟩
  · intro o ho
    have := (List.mem_filter.mp ho).2
    exact of_decide_eq_true this
  · intro o ho
    by_cases hm : o.oferta_id ∈ ofertasActuales.map (fun a => a.oferta_id)
    · exact Or.inl hm
    · right
      exact List.mem_map.mpr ⟨o, List.mem_filter.mpr ⟨ho, decide_eq_true hm⟩, rfl⟩

/-- An instance of C7: the quorum yields DB2's log `[Riploy-1, Riploy-2]`; a replica that holds
`Riploy-1` is sent `[Riploy-2]`. -/
theorem C7_replica_diff_witness :
    (brokerEjemplo.obtenerHistorialOfertas leerDosDeAcuerdo).2
      = Slice.de [ofertaId "Riploy-1", ofertaId "Riploy-2"] ∧
    (brokerEjemplo.SincronizarEntidad "DB1" "nodo" [ofertaId "Riploy-1"]
      leerDosDeAcuerdo).2.ofertasFaltantes = [ofertaId "Riploy-2"] := by
  have h := C7_replica_diff brokerEjemplo "DB1" [ofertaId "Riploy-1"] leerDosDeAcuerdo
    [ofertaId "Riploy-1", ofertaId "Riploy-2"] (by decide)
  refine ⟨by decide, ?_⟩
  rw [h.2.1]
  decide

/-! ## C8: diff for a consumer -/

theorem obtenerHistorialOfertas_consumidores (b : Broker) (leer : String → RespLectura) :
    (b.obtenerHistorialOfertas leer).1.consumidores = b.consumidores := by
  simp only [Broker.obtenerHistorialOfertas]
  split <;> rfl

/-- C8. For a registered consumer `c`, when the read quorum yields the authoritative list `H`,
the Resync of kind `"consumidor"` replies ok=true and an offer is among the missing offers
exactly when it is in `H`, matches the three-axis filter of `c`, and its id does not occur in
the caller's snapshot. -/
theorem C8_consumer_diff (b : Broker) (entidadID : String) (c : ConsumidorInfo)
    (ofertasActuales : List Oferta) (leer : String → RespLectura) (H : List Oferta)
    (hc : b.consumidores.buscar entidadID = some c)
    (hH : (b.obtenerHistorialOfertas leer).2 = Slice.de H) :
    (b.SincronizarEntidad entidadID "consumidor" ofertasActuales leer).2.exito = true ∧
    ∀ o : Oferta,
      o ∈ (b.SincronizarEntidad entidadID "consumidor" ofertasActuales
        leer).2.ofertasFaltantes ↔
      (o ∈ H ∧ Broker.coincideConPreferencias o c = true ∧
        o.oferta_id ∉ ofertasActuales.map (fun a => a.oferta_id)) := by
  have hr : (b.SincronizarEntidad entidadID "consumidor" ofertasActuales leer).2
      = { ofertasFaltantes := H.filter (fun o => Broker.coincideConPreferencias o c &&
            !existeEnActuales ofertasActuales o),
          exito := true } := by
    simp only [Broker.SincronizarEntidad, hH, obtenerHistorialOfertas_consumidores, hc, if_true]
  rw [hr]
  refine ⟨rfl, fun o => ?_⟩
  simp only [List.mem_filter, Bool.and_eq_true, Bool.not_eq_true', existeEnActuales_eq,
    decide_eq_false_iff_not]

/-- Scenario S5 as an instance of C8: five offers of the history match the consumer, two of
them are in its snapshot, and the Resync returns exactly the other three. -/
theorem C8_consumer_diff_witness :
    (historialS5.filter (fun o => Broker.coincideConPreferencias o consumidorS4)).length = 5 ∧
    (brokerS5.SincronizarEntidad "C1" "consumidor" actualesS5 leerS5).2.exito = true ∧
    (∀ o : Oferta,
      o ∈ (brokerS5.SincronizarEntidad "C1" "consumidor" actualesS5 leerS5).2.ofertasFaltantes ↔
      (o ∈ historialS5 ∧ Broker.coincideConPreferencias o consumidorS4 = true ∧
        o.oferta_id ∉ actualesS5.map (fun a => a.oferta_id))) ∧
    (brokerS5.SincronizarEntidad "C1" "consumidor" actualesS5 leerS5).2.ofertasFaltantes
      = [ofertaDe "Riploy-2" "Moda" 20, ofertaDe "Riploy-5" "Moda" 40,
         ofertaDe "Riploy-6" "Moda" 50] :=
  ⟨by decide,
   (C8_consumer_diff brokerS5 "C1" consumidorS4 actualesS5 leerS5 historialS5
      (by decide) (by decide)).1,
   (C8_consumer_diff brokerS5 "C1" consumidorS4 actualesS5 leerS5 historialS5
      (by decide) (by decide)).2,
   by decide⟩

/-! ## C9: idempotent insert on a replica -/

/-- The outcome of one insert on a healthy replica, by cases on whether a fault is triggered. -/
theorem NodoDB.EnviarOferta_sano (n : NodoDB) (req : Oferta) (ahora despues : Int) (sorteo : ℚ)
    (hsano : n.enFallo = false) :
    ((n.EnviarOferta req ahora despues sorteo).1.caidasSimuladas = n.caidasSimuladas + 1 ∧
      (n.EnviarOferta req ahora despues sorteo).1.ofertas = n.ofertas ∧
      (n.EnviarOferta req ahora despues sorteo).2 = false) ∨
    ((n.EnviarOferta req ahora despues sorteo).1.caidasSimuladas = n.caidasSimuladas ∧
      (n.EnviarOferta req ahora despues sorteo).1.enFallo = false ∧
      (n.EnviarOferta req ahora despues sorteo).2 = true ∧
      (n.EnviarOferta req ahora despues sorteo).1.ofertas
        = if yaExiste n.ofertas req then n.ofertas else n.ofertas ++ [req]) := by
  simp only [NodoDB.EnviarOferta, hsano, Bool.false_eq_true, if_false, true_and]
  split
  · left
    simp [NodoDB.simularFallo]
  · right
    split <;> simp_all

/-- The log and the crash counter after one insert on a replica in fault. -/
theorem NodoDB.EnviarOferta_enFallo (n : NodoDB) (req : Oferta) (ahora despues : Int)
    (sorteo : ℚ) (h : n.enFallo = true) :
    (n.EnviarOferta req ahora despues sorteo).1.caidasSimuladas = n.caidasSimuladas ∧
    (n.EnviarOferta req ahora despues sorteo).1.ofertas = n.ofertas ∧
    (n.EnviarOferta req ahora despues sorteo).2 = false := by
  simp [NodoDB.EnviarOferta, h]

theorem NodoDB.EnviarOferta_caidas_le (n : NodoDB) (req : Oferta) (ahora despues : Int)
    (sorteo : ℚ) :
    n.caidasSimuladas ≤ (n.EnviarOferta req ahora despues sorteo).1.caidasSimuladas := by
  cases h : n.enFallo with
  | true => exact le_of_eq (NodoDB.EnviarOferta_enFallo n req ahora despues sorteo h).1.symm
  | false =>
    rcases NodoDB.EnviarOferta_sano n req ahora despues sorteo h with h1 | h1
    · omega
    · omega

theorem NodoDB.insertarVeces_caidas_le (req : Oferta) (llamadas : List (Int × Int × ℚ))
    (n : NodoDB) :
    n.caidasSimuladas ≤ (n.insertarVeces req llamadas).1.caidasSimuladas := by
  induction llamadas generalizing n with
  | nil => simp [NodoDB.insertarVeces]
  | cons llamada resto ih =>
    simp only [NodoDB.insertarVeces]
    exact le_trans (NodoDB.EnviarOferta_caidas_le n req _ _ _) (ih _)

theorem yaExiste_append_self (ofertas : List Oferta) (req : Oferta) :
    yaExiste (ofertas ++ [req]) req = true := by
  simp [yaExiste]

/-- A run of inserts of one offer on a healthy replica in which no fault is triggered. -/
theorem NodoDB.insertarVeces_sin_fallo (req : Oferta) (llamadas : List (Int × Int × ℚ))
    (n : NodoDB) (hsano : n.enFallo = false)
    (hsin : (n.insertarVeces req llamadas).1.caidasSimuladas = n.caidasSimuladas) :
    (∀ r ∈ (n.insertarVeces req llamadas).2, r = true) ∧
    (n.insertarVeces req llamadas).2.length = llamadas.length ∧
    (n.insertarVeces req llamadas).1.ofertas
      = if llamadas = [] ∨ yaExiste n.ofertas req = true then n.ofertas
        else n.ofertas ++ [req] := by
  induction llamadas generalizing n with
  | nil => simp [NodoDB.insertarVeces]
  | cons llamada resto ih =>
    simp only [NodoDB.insertarVeces] at hsin ⊢
    have hle1 := NodoDB.EnviarOferta_caidas_le n req llamada.1 llamada.2.1 llamada.2.2
    have hle2 := NodoDB.insertarVeces_caidas_le req resto
      (n.EnviarOferta req llamada.1 llamada.2.1 llamada.2.2).1
    rcases NodoDB.EnviarOferta_sano n req llamada.1 llamada.2.1 llamada.2.2 hsano with h1 | h1
    · omega
    · obtain ⟨hc, hs, hr, ho⟩ := h1
      obtain ⟨i1, i2, i3⟩ := ih _ hs (by omega)
      refine ⟨?_, by simp [i2], ?_⟩
      · intro r hr'
        simp only [List.mem_cons] at hr'
        rcases hr' with rfl | hr'
        · exact hr
        · exact i1 r hr'
      · rw [i3, ho]
        by_cases hy : yaExiste n.ofertas req = true
        · simp [hy]
        · simp [hy, yaExiste_append_self]

theorem apariciones_eq_count (ofertas : List Oferta) (id : String) :
    apariciones ofertas id = (ofertas.map (fun o => o.oferta_id)).count id := by
  unfold apariciones
  induction ofertas with
  | nil => rfl
  | cons o resto ih =>
    simp only [List.countP_cons, ih, List.map_cons, List.count_cons]
    by_cases h : o.oferta_id = id <;> simp [h]

theorem yaExiste_iff (ofertas : List Oferta) (req : Oferta) :
    yaExiste ofertas req = true ↔ req.oferta_id ∈ ofertas.map (fun o => o.oferta_id) := by
  simp only [yaExiste, List.any_eq_true, decide_eq_true_eq, List.mem_map]

/-- C9. On a healthy replica whose log has no duplicate id, inserting the offer `o` once per
element of a non-empty list of calls, with no fault triggered (the crash counter is the same
after the calls), replies ok=true to every call and leaves a log with exactly one entry of id
`o.oferta_id`; and in any state, an insert of an offer whose id is already in the log leaves
the log as it was, and replies ok=true when the replica is healthy and no fault is triggered. -/
theorem C9_replica_idempotence (n : NodoDB) (o : Oferta) (llamadas : List (Int × Int × ℚ))
    (hsano : n.enFallo = false) (hnd : sinDuplicados n.ofertas) (hn : llamadas ≠ [])
    (hsin : (n.insertarVeces o llamadas).1.caidasSimuladas = n.caidasSimuladas) :
    ((n.insertarVeces o llamadas).2.length = llamadas.length ∧
      ∀ r ∈ (n.insertarVeces o llamadas).2, r = true) ∧
    apariciones (n.insertarVeces o llamadas).1.ofertas o.oferta_id = 1 ∧
    (∀ (m : NodoDB) (req : Oferta) (ahora despues : Int) (sorteo : ℚ),
      yaExiste m.ofertas req = true →
      (m.EnviarOferta req ahora despues sorteo).1.ofertas = m.ofertas ∧
      (m.enFallo = false →
        (m.EnviarOferta req ahora despues sorteo).1.caidasSimuladas = m.caidasSimuladas →
        (m.EnviarOferta req ahora despues sorteo).2 = true)) := by
  obtain ⟨h1, h2, h3⟩ := NodoDB.insertarVeces_sin_fallo o llamadas n hsano hsin
  refine ⟨⟨h2, h1⟩, ?_, ?_⟩
  · rw [h3, apariciones_eq_count]
    by_cases hy : yaExiste n.ofertas o = true
    · simp only [hy, or_true, if_true]
      exact List.count_eq_one_of_mem hnd ((yaExiste_iff _ _).mp hy)
    · simp only [hn, hy, or_self, if_false, List.map_append, List.map_cons, List.map_nil,
        List.count_append]
      have h0 : List.count o.oferta_id (n.ofertas.map (fun o => o.oferta_id)) = 0 :=
        List.count_eq_zero_of_not_mem (fun hm => hy ((yaExiste_iff _ _).mpr hm))
      simp [h0]
  · intro m req ahora despues sorteo hy
    cases hm : m.enFallo with
    | true =>
      refine ⟨(NodoDB.EnviarOferta_enFallo m req ahora despues sorteo hm).2.1, fun h => ?_⟩
      exact absurd h (by simp)
    | false =>
      rcases NodoDB.EnviarOferta_sano m req ahora despues sorteo hm with h | h
      · refine ⟨h.2.1, fun _ hc => ?_⟩
        omega
      · refine ⟨?_, fun _ _ => h.2.2.1⟩
        rw [h.2.2.2, if_pos hy]

/-- An instance of C9: three inserts of `Riploy-2` on the healthy replica `nodoEjemplo`, 10 s
after its first insert (outside the window of DB3), the third with a draw below the fault
probability: every reply is ok and the log holds `Riploy-2` once. -/
theorem C9_replica_idempotence_witness :
    (nodoEjemplo.insertarVeces (ofertaId "Riploy-2")
      [(10 * segundo, 10 * segundo, 1 / 2), (11 * segundo, 11 * segundo, 9 / 10),
       (12 * segundo, 12 * segundo, 1 / 100)]).2 = [true, true, true] ∧
    apariciones (nodoEjemplo.insertarVeces (ofertaId "Riploy-2")
      [(10 * segundo, 10 * segundo, 1 / 2), (11 * segundo, 11 * segundo, 9 / 10),
       (12 * segundo, 12 * segundo, 1 / 100)]).1.ofertas "Riploy-2" = 1 := by
  have hev : nodoEjemplo.insertarVeces (ofertaId "Riploy-2")
      [(10 * segundo, 10 * segundo, 1 / 2), (11 * segundo, 11 * segundo, 9 / 10),
       (12 * segundo, 12 * segundo, 1 / 100)]
      = ({ nodoEjemplo with ofertas := [ofertaId "Riploy-1", ofertaId "Riploy-2"],
                            contadorOfertas := 2 }, [true, true, true]) := by
    simp [nodoEjemplo, NodoDB.nuevo, NodoDB.insertarVeces, NodoDB.EnviarOferta,
      NodoDB.puedeFallar, segundo, yaExiste, ofertaId, ofertaDe]
  have h := C9_replica_idempotence nodoEjemplo (ofertaId "Riploy-2")
    [(10 * segundo, 10 * segundo, 1 / 2), (11 * segundo, 11 * segundo, 9 / 10),
     (12 * segundo, 12 * segundo, 1 / 100)] (by decide) (by decide) (by simp)
    (by rw [hev])
  exact ⟨by rw [hev], h.2.1⟩

/-! ## C10: the replica log is duplicate-free and append-only -/

theorem sinDuplicados_append (ofertas : List Oferta) (req : Oferta)
    (hnd : sinDuplicados ofertas) (hy : ¬ yaExiste ofertas req = true) :
    sinDuplicados (ofertas ++ [req]) := by
  have hm : req.oferta_id ∉ ofertas.map (fun o => o.oferta_id) :=
    fun h => hy ((yaExiste_iff _ _).mpr h)
  unfold sinDuplicados at hnd ⊢
  rw [List.map_append, List.nodup_append]
  refine ⟨hnd, by simp, ?_⟩
  intro id h1 h2
  simp only [List.map_cons, List.map_nil, List.mem_singleton] at h2
  subst h2
  exact hm h1

theorem fusionar_invariante (faltantes : List Oferta) (ofertas : List Oferta) :
    ofertas <+: fusionar ofertas faltantes ∧
    (sinDuplicados ofertas → sinDuplicados (fusionar ofertas faltantes)) := by
  induction faltantes generalizing ofertas with
  | nil => exact ⟨List.prefix_refl _, fun h => h⟩
  | cons oferta resto ih =>
    simp only [fusionar, List.foldl_cons]
    by_cases hy : yaExiste ofertas oferta = true
    · simp only [hy, if_true]
      exact ih ofertas
    · simp only [hy, if_false]
      obtain ⟨i1, i2⟩ := ih (ofertas ++ [oferta])
      simp only [fusionar] at i1 i2
      exact ⟨(List.prefix_append _ _).trans i1,
        fun h => i2 (sinDuplicados_append _ _ h hy)⟩

theorem NodoDB.EnviarOferta_ofertas (n : NodoDB) (req : Oferta) (ahora despues : Int)
    (sorteo : ℚ) :
    (n.EnviarOferta req ahora despues sorteo).1.ofertas = n.ofertas ∨
    (¬ yaExiste n.ofertas req = true ∧
      (n.EnviarOferta req ahora despues sorteo).1.ofertas = n.ofertas ++ [req]) := by
  cases h : n.enFallo with
  | true => exact Or.inl (NodoDB.EnviarOferta_enFallo n req ahora despues sorteo h).2.1
  | false =>
    rcases NodoDB.EnviarOferta_sano n req ahora despues sorteo h with h1 | h1
    · exact Or.inl h1.2.1
    · by_cases hy : yaExiste n.ofertas req = true
      · left
        rw [h1.2.2.2, if_pos hy]
      · right
        refine ⟨hy, ?_⟩
        rw [h1.2.2.2, if_neg hy]

theorem NodoDB.recuperarAutomaticamente_ofertas (n : NodoDB) (r : RespSincronizacion) :
    (n.recuperarAutomaticamente r).ofertas = n.ofertas ∨
    ∃ faltantes, (n.recuperarAutomaticamente r).ofertas = fusionar n.ofertas faltantes := by
  cases r with
  | error => left; simp [NodoDB.recuperarAutomaticamente, NodoDB.solicitarResincronizacion]
  | resp resp =>
    cases he : resp.exito with
    | false =>
      left; simp [NodoDB.recuperarAutomaticamente, NodoDB.solicitarResincronizacion, he]
    | true =>
      right
      exact ⟨resp.ofertasFaltantes, by
        simp [NodoDB.recuperarAutomaticamente, NodoDB.solicitarResincronizacion, he]⟩

/-- One event on a replica keeps the log duplicate-free and keeps the old log as the initial
segment of the new one. -/
theorem NodoDB.paso_invariante (n : NodoDB) (a : AccionNodo) :
    n.ofertas <+: (n.paso a).ofertas ∧
    (sinDuplicados n.ofertas → sinDuplicados (n.paso a).ofertas) := by
  cases a with
  | enviarOferta req ahora despues sorteo =>
    simp only [NodoDB.paso]
    rcases NodoDB.EnviarOferta_ofertas n req ahora despues sorteo with h | ⟨hy, h⟩
    · rw [h]
      exact ⟨List.prefix_refl _, fun hnd => hnd⟩
    · rw [h]
      exact ⟨List.prefix_append _ _, fun hnd => sinDuplicados_append _ _ hnd hy⟩
  | recuperar r =>
    simp only [NodoDB.paso]
    rcases NodoDB.recuperarAutomaticamente_ofertas n r with h | ⟨faltantes, h⟩
    · rw [h]
      exact ⟨List.prefix_refl _, fun hnd => hnd⟩
    · rw [h]
      exact fusionar_invariante faltantes n.ofertas

theorem NodoDB.ejecutar_sinDuplicados (acciones : List AccionNodo) (n : NodoDB)
    (hnd : sinDuplicados n.ofertas) : sinDuplicados (n.ejecutar acciones).ofertas := by
  induction acciones generalizing n with
  | nil => exact hnd
  | cons a resto ih =>
    have he : n.ejecutar (a :: resto) = (n.paso a).ejecutar resto := by
      simp [NodoDB.ejecutar]
    rw [he]
    exact ih _ ((NodoDB.paso_invariante n a).2 hnd)

/-- C10. In every state a replica reaches from the empty log by insert requests (faults
included) and runs of the recovery merge, no two entries of the log have the same offer id; and
every such event, in any state, leaves the previous log as the initial segment of the new log. -/
theorem C10_replica_log_invariant :
    (∀ (nodoID direccion : String) (probFallo : ℚ) (acciones : List AccionNodo),
      sinDuplicados ((NodoDB.nuevo nodoID direccion probFallo).ejecutar acciones).ofertas) ∧
    (∀ (n : NodoDB) (a : AccionNodo), n.ofertas <+: (n.paso a).ofertas) := by
  refine ⟨fun nodoID direccion probFallo acciones => ?_, fun n a => (NodoDB.paso_invariante n a).1⟩
  apply NodoDB.ejecutar_sinDuplicados
  simp [NodoDB.nuevo, sinDuplicados]

/-! ## C11: deliveries to a consumer -/

/-- C11, the code at the failing input. A healthy consumer whose list holds `Riploy-1` once
accepts a delivery of `Riploy-1` (no fault is triggered, the reply is ok=true) and then holds
two entries with that id; and starting from the consumer built at start-up, two accepted
deliveries of the same offer give a list with a repeated id. -/
theorem C11_duplicate_delivery :
    consumidorEjemplo.enFallo = false ∧ sinDuplicados consumidorEjemplo.ofertasRecibidas ∧
    (consumidorEjemplo.EnviarOferta (ofertaId "Riploy-1") (1 / 2) true).2 = true ∧
    (consumidorEjemplo.EnviarOferta (ofertaId "Riploy-1") (1 / 2) true).1.caidasSimuladas
      = consumidorEjemplo.caidasSimuladas ∧
    apariciones (consumidorEjemplo.EnviarOferta (ofertaId "Riploy-1") (1 / 2)
      true).1.ofertasRecibidas "Riploy-1" = 2 ∧
    ¬ sinDuplicados ((Consumidor.nuevo "C1" "c1:50061" ["Moda"] ["null"] 50).ejecutar
      [AccionConsumidor.enviarOferta (ofertaId "Riploy-1") (1 / 2) true,
       AccionConsumidor.enviarOferta (ofertaId "Riploy-1") (1 / 2) true]).ofertasRecibidas := by
  have h1 : consumidorEjemplo.EnviarOferta (ofertaId "Riploy-1") (1 / 2) true
      = ({ consumidorEjemplo with
            ofertasRecibidas := [ofertaId "Riploy-1", ofertaId "Riploy-1"],
            ofertasCount := 2 }, true) := by
    simp [consumidorEjemplo, Consumidor.nuevo, Consumidor.EnviarOferta]
    norm_num
  have h2 : ((Consumidor.nuevo "C1" "c1:50061" ["Moda"] ["null"] 50).ejecutar
      [AccionConsumidor.enviarOferta (ofertaId "Riploy-1") (1 / 2) true,
       AccionConsumidor.enviarOferta (ofertaId "Riploy-1") (1 / 2) true]).ofertasRecibidas
      = [ofertaId "Riploy-1", ofertaId "Riploy-1"] := by
    simp [Consumidor.ejecutar, Consumidor.paso, Consumidor.nuevo, Consumidor.EnviarOferta]
    norm_num
  rw [h1, h2]
  refine ⟨by decide, by decide, rfl, rfl, by decide, by decide⟩

/-! ## C12: successful registration -/

theorem Mapa.buscar_poner {α : Type} (m : Mapa α) (k : String) (v : α) :
    Mapa.buscar (Mapa.poner m k v) k = some v := by
  induction m with
  | nil => simp [Mapa.poner, Mapa.buscar]
  | cons e resto ih =>
    obtain ⟨k', v'⟩ := e
    by_cases h : k' = k
    · simp [Mapa.poner, Mapa.buscar, h]
    · simp [Mapa.poner, Mapa.buscar, h, ih]

theorem verificarInicio_tablas (b : Broker) :
    b.verificarInicio.productores = b.productores ∧ b.verificarInicio.nodos = b.nodos ∧
    b.verificarInicio.consumidores = b.consumidores := by
  simp only [Broker.verificarInicio]
  split <;> simp

theorem RegistrarProductor_exito (b : Broker) (nombre : String) :
    (b.RegistrarProductor nombre).2 = true ↔
      (nombre ∈ tiendasValidas ∧ b.productores.buscar nombre = none) := by
  rw [← esValido_iff]
  simp only [Broker.RegistrarProductor]
  cases hv : esValido nombre tiendasValidas <;> cases hb : b.productores.buscar nombre <;> simp

theorem RegistrarNodo_exito (b : Broker) (nodoID direccion : String) (conecta : Bool) :
    (b.RegistrarNodo nodoID direccion conecta).2 = true ↔
      (nodoID ∈ nodosValidos ∧ b.nodos.buscar nodoID = none ∧ conecta = true) := by
  rw [← esValido_iff]
  simp only [Broker.RegistrarNodo]
  cases hv : esValido nodoID nodosValidos <;> cases hb : b.nodos.buscar nodoID <;>
    cases conecta <;> simp

/-- C12. `RegistrarProductor` replies ok=true exactly when the name is one of Riploy,
Falabellox, Parisio and no producer of that name is registered. `RegistrarNodo` replies ok=true
exactly when the id is one of DB1, DB2, DB3, no replica of that id is registered and the client
channel opens; the replica is then recorded alive with a crash count of 0. -/
theorem C12_registration (b : Broker) :
    tiendasValidas = ["Riploy", "Falabellox", "Parisio"] ∧
    nodosValidos = ["DB1", "DB2", "DB3"] ∧
    (∀ nombre : String,
      (b.RegistrarProductor nombre).2 = true ↔
        (nombre ∈ tiendasValidas ∧ b.productores.buscar nombre = none)) ∧
    (∀ (nodoID direccion : String) (conecta : Bool),
      ((b.RegistrarNodo nodoID direccion conecta).2 = true ↔
        (nodoID ∈ nodosValidos ∧ b.nodos.buscar nodoID = none ∧ conecta = true)) ∧
      ((b.RegistrarNodo nodoID direccion conecta).2 = true →
        ∃ info : NodoInfo,
          (b.RegistrarNodo nodoID direccion conecta).1.nodos.buscar nodoID = some info ∧
          info.estado = true ∧ info.cantCaidas = 0)) := by
  refine ⟨rfl, rfl, RegistrarProductor_exito b, fun nodoID direccion conecta => ?_⟩
  refine ⟨RegistrarNodo_exito b nodoID direccion conecta, fun h => ?_⟩
  obtain ⟨hv, hb, hc⟩ := (RegistrarNodo_exito b nodoID direccion conecta).mp h
  have hv' := (esValido_iff _ _).mpr hv
  refine ⟨{ nombre := nodoID, direccion := direccion, estado := true, cantCaidas := 0 },
    ?_, rfl, rfl⟩
  simp only [Broker.RegistrarNodo, hv', hb, hc]
  simp only [Bool.true_eq_false, Bool.false_eq_true, if_false, Option.isSome_none]
  rw [(verificarInicio_tablas _).2.1]
  exact Mapa.buscar_poner _ _ _

/-- An instance of C12 on the empty broker: Riploy and DB1 register, DB1 is recorded alive with
no crash, and the name `Amazon` and the id `DB4` are refused. -/
theorem C12_registration_witness :
    (NewBroker.RegistrarProductor "Riploy").2 = true ∧
    (NewBroker.RegistrarProductor "Amazon").2 = false ∧
    (NewBroker.RegistrarNodo "DB4" "db4:50055" true).2 = false ∧
    (NewBroker.RegistrarNodo "DB1" "db1:50052" true).2 = true ∧
    (∃ info : NodoInfo,
      (NewBroker.RegistrarNodo "DB1" "db1:50052" true).1.nodos.buscar "DB1" = some info ∧
      info.estado = true ∧ info.cantCaidas = 0) :=
  ⟨by decide, by decide, by decide, by decide,
   ((C12_registration NewBroker).2.2.2 "DB1" "db1:50052" true).2 (by decide)⟩

/-! ## C13: refused registration -/

/-- C13. A registration that replies ok=false returns the broker state it was given, and a
registration is refused when the producer name or replica id is outside its valid set, or when
the producer name, replica id or consumer id is already registered. -/
theorem C13_failed_registration_frame (b : Broker) :
    (∀ nombre : String,
      ((b.RegistrarProductor nombre).2 = false → (b.RegistrarProductor nombre).1 = b) ∧
      (nombre ∉ tiendasValidas ∨ (b.productores.buscar nombre).isSome = true →
        b.RegistrarProductor nombre = (b, false))) ∧
    (∀ (nodoID direccion : String) (conecta : Bool),
      ((b.RegistrarNodo nodoID direccion conecta).2 = false →
        (b.RegistrarNodo nodoID direccion conecta).1 = b) ∧
      (nodoID ∉ nodosValidos ∨ (b.nodos.buscar nodoID).isSome = true →
        b.RegistrarNodo nodoID direccion conecta = (b, false))) ∧
    (∀ (consumidorID : String) (categorias tiendas : List String) (precioMax : Int)
        (direccion : String) (conecta : Bool),
      ((b.RegistrarConsumidor consumidorID categorias tiendas precioMax direccion conecta).2
          = false →
        (b.RegistrarConsumidor consumidorID categorias tiendas precioMax direccion conecta).1
          = b) ∧
      ((b.consumidores.buscar consumidorID).isSome = true →
        b.RegistrarConsumidor consumidorID categorias tiendas precioMax direccion conecta
          = (b, false))) := by
  refine ⟨fun nombre => ⟨?_, ?_⟩, fun nodoID direccion conecta => ⟨?_, ?_⟩,
    fun consumidorID categorias tiendas precioMax direccion conecta => ⟨?_, ?_⟩⟩
  · simp only [Broker.RegistrarProductor]
    split
    · simp
    · split <;> simp
  · rw [← esValido_iff]
    simp only [Broker.RegistrarProductor]
    rintro (h | h)
    · simp [h]
    · simp [h]
  · simp only [Broker.RegistrarNodo]
    split
    · simp
    · split
      · simp
      · split <;> simp
  · rw [← esValido_iff]
    simp only [Broker.RegistrarNodo]
    rintro (h | h)
    · simp [h]
    · simp [h]
  · simp only [Broker.RegistrarConsumidor]
    split
    · simp
    · split <;> simp
  · simp only [Broker.RegistrarConsumidor]
    intro h
    simp [h]

/-- An instance of C13 on `brokerS5`: the name `Amazon`, a second Riploy, the id `DB4`, a second
DB1 and a second consumer `C1` are all refused and leave the broker as it was. -/
theorem C13_failed_registration_frame_witness :
    brokerS5.RegistrarProductor "Amazon" = (brokerS5, false) ∧
    brokerS5.RegistrarProductor "Riploy" = (brokerS5, false) ∧
    brokerS5.RegistrarNodo "DB4" "db4:50055" true = (brokerS5, false) ∧
    brokerS5.RegistrarNodo "DB1" "db1:50052" true = (brokerS5, false) ∧
    brokerS5.RegistrarConsumidor "C1" ["Hogar"] ["null"] 10 "c1:50061" true
      = (brokerS5, false) :=
  ⟨((C13_failed_registration_frame brokerS5).1 "Amazon").2 (Or.inl (by decide)),
   ((C13_failed_registration_frame brokerS5).1 "Riploy").2 (Or.inr (by decide)),
   ((C13_failed_registration_frame brokerS5).2.1 "DB4" "db4:50055" true).2
     (Or.inl (by decide)),
   ((C13_failed_registration_frame brokerS5).2.1 "DB1" "db1:50052" true).2
     (Or.inr (by decide)),
   ((C13_failed_registration_frame brokerS5).2.2 "C1" ["Hogar"] ["null"] 10 "c1:50061"
     true).2 (by decide)⟩

/-! ## C14: readiness -/

theorem Mapa.length_poner {α : Type} (m : Mapa α) (k : String) (v : α)
    (h : Mapa.buscar m k = none) : (Mapa.poner m k v).length = m.length + 1 := by
  induction m with
  | nil => simp [Mapa.poner]
  | cons e resto ih =>
    obtain ⟨k', v'⟩ := e
    by_cases hk : k' = k
    · simp [Mapa.buscar, hk] at h
    · simp only [Mapa.buscar, hk, if_false] at h
      simp [Mapa.poner, hk, ih h]

theorem Mapa.length_modificar {α : Type} (m : Mapa α) (k : String) (f : α → α) :
    (Mapa.modificar m k f).length = m.length := by
  simp [Mapa.modificar]

theorem recorrerNodos_length (oferta : Oferta) (rpc : String → Oferta → RespOferta)
    (nodos : Mapa NodoInfo) : (Broker.recorrerNodos oferta rpc nodos).1.length = nodos.length := by
  induction nodos with
  | nil => rfl
  | cons e resto ih =>
    obtain ⟨nodoID, nodoInfo⟩ := e
    simp [Broker.recorrerNodos, ih]

theorem leerNodos_length (leer : String → RespLectura) (nodos : Mapa NodoInfo) :
    (Broker.leerNodos leer nodos).1.length = nodos.length := by
  induction nodos with
  | nil => rfl
  | cons e resto ih =>
    obtain ⟨nodoID, nodoInfo⟩ := e
    simp only [Broker.leerNodos]
    cases h : leer nodoID with
    | error => simp [ih]
    | resp ofertas exito => cases exito <;> simp [ih]

theorem recorrerConsumidores_length (oferta : Oferta) (rpc : String → Oferta → RespOferta)
    (consumidores : Mapa ConsumidorInfo) :
    (Broker.recorrerConsumidores oferta rpc consumidores).1.length = consumidores.length := by
  induction consumidores with
  | nil => rfl
  | cons e resto ih =>
    obtain ⟨consumidorID, consumidor⟩ := e
    simp only [Broker.recorrerConsumidores]
    split <;> simp [ih]

theorem obtenerHistorialOfertas_registrados (b : Broker) (leer : String → RespLectura) :
    (b.obtenerHistorialOfertas leer).1.registrados = b.registrados ∧
    (b.obtenerHistorialOfertas leer).1.inicio = b.inicio := by
  simp only [Broker.obtenerHistorialOfertas, Broker.registrados]
  split <;> simp [leerNodos_length]

theorem SincronizarEntidad_registrados (b : Broker) (entidadID tipo : String)
    (ofertasActuales : List Oferta) (leer : String → RespLectura) :
    (b.SincronizarEntidad entidadID tipo ofertasActuales leer).1.registrados = b.registrados ∧
    (b.SincronizarEntidad entidadID tipo ofertasActuales leer).1.inicio = b.inicio := by
  have h := obtenerHistorialOfertas_registrados b leer
  simp only [Broker.registrados] at h
  simp only [Broker.SincronizarEntidad, Broker.registrados]
  split
  · exact h
  · split
    · split
      · exact h
      · simpa [Mapa.length_modificar] using h
    · split
      · simpa [Mapa.length_modificar] using h
      · exact h

theorem EnviarOferta_registrados (b : Broker) (req : Oferta)
    (rpc : String → Oferta → RespOferta) :
    (b.EnviarOferta req rpc).1.registrados = b.registrados ∧
    (b.EnviarOferta req rpc).1.inicio = b.inicio := by
  simp only [Broker.EnviarOferta, Broker.registrados]
  split
  · simp
  · split
    · simp [Mapa.length_modificar]
    · split <;>
        simp [Broker.almacenarOfertaEnNodos, Mapa.length_modificar, recorrerNodos_length]

theorem RegistrarProductor_fallo (b : Broker) (nombre : String)
    (h : (b.RegistrarProductor nombre).2 = false) : (b.RegistrarProductor nombre).1 = b := by
  revert h
  simp only [Broker.RegistrarProductor]
  split
  · simp
  · split <;> simp

theorem RegistrarNodo_fallo (b : Broker) (nodoID direccion : String) (conecta : Bool)
    (h : (b.RegistrarNodo nodoID direccion conecta).2 = false) :
    (b.RegistrarNodo nodoID direccion conecta).1 = b := by
  revert h
  simp only [Broker.RegistrarNodo]
  split
  · simp
  · split
    · simp
    · split <;> simp

theorem RegistrarConsumidor_fallo (b : Broker) (consumidorID : String)
    (categorias tiendas : List String) (precioMax : Int) (direccion : String) (conecta : Bool)
    (h : (b.RegistrarConsumidor consumidorID categorias tiendas precioMax direccion conecta).2
      = false) :
    (b.RegistrarConsumidor consumidorID categorias tiendas precioMax direccion conecta).1
      = b := by
  revert h
  simp only [Broker.RegistrarConsumidor]
  split
  · simp
  · split <;> simp

theorem RegistrarConsumidor_exito (b : Broker) (consumidorID : String)
    (categorias tiendas : List String) (precioMax : Int) (direccion : String) (conecta : Bool) :
    (b.RegistrarConsumidor consumidorID categorias tiendas precioMax direccion conecta).2
      = true ↔ (b.consumidores.buscar consumidorID = none ∧ conecta = true) := by
  simp only [Broker.RegistrarConsumidor]
  cases hb : b.consumidores.buscar consumidorID <;> cases conecta <;> simp

theorem verificarInicio_registrados (b : Broker) :
    b.verificarInicio.registrados = b.registrados ∧
    (b.verificarInicio.inicio = true ↔ (b.inicio = true ∨ b.registrados = 18)) := by
  simp only [Broker.verificarInicio, Broker.registrados]
  split
  · rename_i h
    simp [h.1]
  · rename_i h
    simp only [true_and]
    constructor
    · intro hi
      exact Or.inl hi
    · rintro (hi | hr)
      · exact hi
      · cases hb : b.inicio with
        | true => rfl
        | false => exact absurd ⟨hr, hb⟩ h

/-- A step that is not a successful registration keeps the number of registered entities and
the readiness flag. -/
theorem paso_sin_registro (b : Broker) (a : Accion) (h : b.registroExitoso a = false) :
    (b.paso a).registrados = b.registrados ∧ (b.paso a).inicio = b.inicio := by
  cases a with
  | registrarProductor nombre =>
    simp only [Broker.registroExitoso] at h
    simp [Broker.paso, RegistrarProductor_fallo b nombre h]
  | registrarNodo nodoID direccion conecta =>
    simp only [Broker.registroExitoso] at h
    simp [Broker.paso, RegistrarNodo_fallo b nodoID direccion conecta h]
  | registrarConsumidor consumidorID categorias tiendas precioMax direccion conecta =>
    simp only [Broker.registroExitoso] at h
    simp [Broker.paso,
      RegistrarConsumidor_fallo b consumidorID categorias tiendas precioMax direccion conecta h]
  | enviarOferta req rpc => exact EnviarOferta_registrados b req rpc
  | distribuir oferta rpc =>
    simp [Broker.paso, Broker.distribuirAConsumidores, Broker.registrados,
      recorrerConsumidores_length]
  | sincronizar entidadID tipo ofertasActuales leer =>
    exact SincronizarEntidad_registrados b entidadID tipo ofertasActuales leer

theorem verificarInicio_tras_registro (b b1 : Broker)
    (h1 : b1.registrados = b.registrados + 1) (hi : b1.inicio = b.inicio) :
    b1.verificarInicio.registrados = b.registrados + 1 ∧
    (b1.verificarInicio.inicio = true ↔ (b.inicio = true ∨ b.registrados + 1 = 18)) := by
  have hvi := verificarInicio_registrados b1
  rw [hvi.1, hvi.2, h1, hi]
  exact ⟨rfl, Iff.rfl⟩

/-- A successful registration adds one registered entity, and the readiness flag is true after
it exactly when it was true before or the new number of entities is 18. -/
theorem paso_con_registro (b : Broker) (a : Accion) (h : b.registroExitoso a = true) :
    (b.paso a).registrados = b.registrados + 1 ∧
    ((b.paso a).inicio = true ↔ (b.inicio = true ∨ b.registrados + 1 = 18)) := by
  cases a with
  | registrarProductor nombre =>
    simp only [Broker.registroExitoso] at h
    obtain ⟨hv, hb⟩ := (RegistrarProductor_exito b nombre).mp h
    have hv' := (esValido_iff _ _).mpr hv
    simp only [Broker.paso, Broker.RegistrarProductor, hv', hb, Bool.true_eq_false,
      Option.isSome_none, Bool.false_eq_true, if_false]
    apply verificarInicio_tras_registro
    · simp only [Broker.registrados, Mapa.length_poner _ _ _ hb]
      omega
    · rfl
  | registrarNodo nodoID direccion conecta =>
    simp only [Broker.registroExitoso] at h
    obtain ⟨hv, hb, hc⟩ := (RegistrarNodo_exito b nodoID direccion conecta).mp h
    have hv' := (esValido_iff _ _).mpr hv
    simp only [Broker.paso, Broker.RegistrarNodo, hv', hb, hc, Bool.true_eq_false,
      Option.isSome_none, Bool.false_eq_true, if_false]
    apply verificarInicio_tras_registro
    · simp only [Broker.registrados, Mapa.length_poner _ _ _ hb]
      omega
    · rfl
  | registrarConsumidor consumidorID categorias tiendas precioMax direccion conecta =>
    simp only [Broker.registroExitoso] at h
    obtain ⟨hb, hc⟩ := (RegistrarConsumidor_exito b consumidorID categorias tiendas precioMax
      direccion conecta).mp h
    simp only [Broker.paso, Broker.RegistrarConsumidor, hb, hc, Bool.true_eq_false,
      Option.isSome_none, Bool.false_eq_true, if_false]
    apply verificarInicio_tras_registro
    · simp only [Broker.registrados, Mapa.length_poner _ _ _ hb]
      omega
    · rfl
  | enviarOferta req rpc => simp [Broker.registroExitoso] at h
  | distribuir oferta rpc => simp [Broker.registroExitoso] at h
  | sincronizar entidadID tipo ofertasActuales leer => simp [Broker.registroExitoso] at h

theorem ejecutar_cons (b : Broker) (a : Accion) (resto : List Accion) :
    b.ejecutar (a :: resto) = (b.paso a).ejecutar resto := by
  simp [Broker.ejecutar]

theorem ejecutar_append (b : Broker) (acciones mas : List Accion) :
    b.ejecutar (acciones ++ mas) = (b.ejecutar acciones).ejecutar mas := by
  simp [Broker.ejecutar, List.foldl_append]

/-- Along a run, the number of registered entities grows by the number of successful
registrations, and the readiness flag is true exactly from the point where it reaches 18. -/
theorem ejecutar_inicio (acciones : List Accion) (b : Broker)
    (hinv : b.inicio = true ↔ 18 ≤ b.registrados) :
    (b.ejecutar acciones).registrados = b.registrados + b.registrosExitosos acciones ∧
    ((b.ejecutar acciones).inicio = true ↔
      18 ≤ b.registrados + b.registrosExitosos acciones) := by
  induction acciones generalizing b with
  | nil => simpa [Broker.ejecutar, Broker.registrosExitosos] using hinv
  | cons a resto ih =>
    rw [ejecutar_cons]
    simp only [Broker.registrosExitosos]
    cases hr : b.registroExitoso a with
    | false =>
      obtain ⟨h1, h2⟩ := paso_sin_registro b a hr
      have hinv' : (b.paso a).inicio = true ↔ 18 ≤ (b.paso a).registrados := by
        rw [h1, h2]; exact hinv
      obtain ⟨i1, i2⟩ := ih (b.paso a) hinv'
      rw [i1, i2, h1]
      simp
    | true =>
      obtain ⟨h1, h2⟩ := paso_con_registro b a hr
      have hinv' : (b.paso a).inicio = true ↔ 18 ≤ (b.paso a).registrados := by
        rw [h1, h2, hinv]; omega
      obtain ⟨i1, i2⟩ := ih (b.paso a) hinv'
      rw [i1, i2, h1]
      simp only [if_true]
      constructor
      · omega
      · constructor <;> intro h <;> omega

/-- C14. In every run from `NewBroker`, the flag returned by `SolicitarInicio` is true exactly
when at least 18 registrations of the run replied ok=true: false before the 18th successful
registration, true right after it; and once true it is true after any further handler
invocations. -/
theorem C14_readiness :
    (∀ acciones : List Accion,
      (NewBroker.ejecutar acciones).SolicitarInicio = true ↔
        18 ≤ NewBroker.registrosExitosos acciones) ∧
    (∀ acciones mas : List Accion,
      (NewBroker.ejecutar acciones).SolicitarInicio = true →
      (NewBroker.ejecutar (acciones ++ mas)).SolicitarInicio = true) := by
  have h0 : NewBroker.inicio = true ↔ 18 ≤ NewBroker.registrados := by
    simp [NewBroker, Broker.registrados]
  have hr0 : NewBroker.registrados = 0 := by simp [NewBroker, Broker.registrados]
  constructor
  · intro acciones
    have h := (ejecutar_inicio acciones NewBroker h0).2
    rw [hr0, Nat.zero_add] at h
    exact h
  · intro acciones mas hi
    have h1 := ejecutar_inicio acciones NewBroker h0
    have hinv : (NewBroker.ejecutar acciones).inicio = true ↔
        18 ≤ (NewBroker.ejecutar acciones).registrados := by
      rw [h1.1]; exact h1.2
    have h2 := (ejecutar_inicio mas (NewBroker.ejecutar acciones) hinv).2
    rw [ejecutar_append]
    simp only [Broker.SolicitarInicio] at hi ⊢
    rw [h2]
    have := hinv.mp hi
    omega

/-- Scenario S1 as an instance of C14: after 17 successful registrations the flag is false,
after the 18th it is true, and it is still true after a refused registration and a Submit. -/
theorem C14_readiness_witness :
    NewBroker.registrosExitosos registrosS1 = 17 ∧
    (NewBroker.ejecutar registrosS1).SolicitarInicio = false ∧
    (NewBroker.ejecutar (registrosS1 ++ [registroConsumidor "12"])).SolicitarInicio = true ∧
    (NewBroker.ejecutar ((registrosS1 ++ [registroConsumidor "12"]) ++
      [Accion.registrarProductor "Riploy",
       Accion.enviarOferta ofertaEjemplo rpcSoloDB1])).SolicitarInicio = true := by
  have h18 : (NewBroker.ejecutar (registrosS1 ++ [registroConsumidor "12"])).SolicitarInicio
      = true := (C14_readiness.1 _).mpr (by decide)
  exact ⟨by decide, by decide, h18, C14_readiness.2 _ _ h18⟩

/-! ## C15: offer ids of a producer -/

/-- C15, refuted as stated. The first Submit of the producer replies ok=false (or fails), so
`ofertasEnviadas` stays 0 and the next offer is built with the same id: the three offers
submitted one after another carry the ids `Riploy-1`, `Riploy-1`, `Riploy-1`. -/
theorem C15_counterexample :
    (productorEjemplo.iniciarGeneracionOfertas
      [iteracionCon (RespOferta.resp false), iteracionCon RespOferta.error,
       iteracionCon (RespOferta.resp true)]).map (fun e => e.1.oferta_id)
      = ["Riploy-1", "Riploy-1", "Riploy-1"] ∧
    ¬ ((productorEjemplo.iniciarGeneracionOfertas
      [iteracionCon (RespOferta.resp false), iteracionCon RespOferta.error,
       iteracionCon (RespOferta.resp true)]).map (fun e => e.1.oferta_id)).Nodup := by
  decide

/-- The three outcomes of one iteration of the producer loop. -/
theorem Productor.iteracion_casos (p : Productor) (e : Iteracion) :
    (p.iteracion e).2.2 = false ∨
    ((p.iteracion e).2.2 = true ∧ (p.iteracion e).2.1 = none ∧ (p.iteracion e).1 = p) ∨
    (∃ o : Oferta, (p.iteracion e).2.2 = true ∧ (p.iteracion e).2.1 = some (o, e.envio) ∧
      o.oferta_id = p.nombre ++ "-" ++ toString (p.ofertasEnviadas + 1) ∧
      (p.iteracion e).1.nombre = p.nombre ∧
      (p.iteracion e).1.ofertasEnviadas
        = p.ofertasEnviadas + (if e.envio = RespOferta.resp true then 1 else 0)) := by
  simp only [Productor.iteracion]
  by_cases h : e.estado = RespEstado.resp false
  · left
    simp [h]
  · right
    simp only [h, if_false]
    cases hc : p.catalogo[e.indice]? with
    | none => left; simp
    | some producto =>
      right
      refine ⟨p.generarOferta producto e.azarDescuento e.azarStock e.fecha, rfl, rfl, rfl, ?_, ?_⟩
      · simp only []
        split <;> rfl
      · simp only []
        split <;> simp

/-- C15, amended. The offer submitted at position `i` of a producer's loop carries the id
`<store>-<seq>` where `seq` is one more than the number of Submits accepted (ok=true) so far:
the start value of `ofertasEnviadas` plus the number of earlier Submits of the loop that replied
ok=true. -/
theorem C15_offer_seq_amended (p : Productor) (entradas : List Iteracion) (i : Nat)
    (o : Oferta) (r : RespOferta)
    (h : (p.iniciarGeneracionOfertas entradas)[i]? = some (o, r)) :
    o.oferta_id = p.nombre ++ "-" ++ toString (p.ofertasEnviadas + 1 +
      ((p.iniciarGeneracionOfertas entradas).take i).countP
        (fun e => decide (e.2 = RespOferta.resp true))) := by
  induction entradas generalizing p i with
  | nil => simp [Productor.iniciarGeneracionOfertas] at h
  | cons e resto ih =>
    simp only [Productor.iniciarGeneracionOfertas] at h ⊢
    rcases Productor.iteracion_casos p e with hfin | ⟨hc, hn, hp⟩ | ⟨o1, hc, hs, hid, hnom, hcnt⟩
    · simp [hfin] at h
    · simp only [hc, hn, hp, Bool.true_eq_false, if_false, Option.toList_none,
        List.nil_append] at h ⊢
      exact ih p i h
    · simp only [hc, hs, Bool.true_eq_false, if_false, Option.toList_some,
        List.singleton_append] at h ⊢
      cases i with
      | zero =>
        simp only [List.getElem?_cons_zero, Option.some.injEq, Prod.mk.injEq] at h
        rw [← h.1, hid]
        simp
      | succ j =>
        simp only [List.getElem?_cons_succ] at h
        have hj := ih (p.iteracion e).1 j h
        rw [hj, hnom, hcnt]
        simp only [List.take_succ_cons, List.countP_cons]
        by_cases hok : e.envio = RespOferta.resp true
        · simp only [hok, if_true, decide_True]
          congr 2
          omega
        · simp only [hok, if_false, decide_False, Bool.false_eq_true]
          congr 2

/-- An instance of C15: after one refused and one accepted Submit, the third offer of the
producer carries the seq `0 + 1 + 1`, that is the id `Riploy-2`. -/
theorem C15_offer_seq_amended_witness :
    (productorEjemplo.iniciarGeneracionOfertas
      [iteracionCon (RespOferta.resp false), iteracionCon (RespOferta.resp true),
       iteracionCon (RespOferta.resp true)])[2]?
      = some (({ productorEjemplo with ofertasEnviadas := 1 } : Productor).generarOferta
          productoEjemplo 0 0 "2025-11-01 10:00:00", RespOferta.resp true) ∧
    (({ productorEjemplo with ofertasEnviadas := 1 } : Productor).generarOferta
      productoEjemplo 0 0 "2025-11-01 10:00:00").oferta_id = "Riploy-2" :=
  ⟨by rfl,
   (C15_offer_seq_amended productorEjemplo
      [iteracionCon (RespOferta.resp false), iteracionCon (RespOferta.resp true),
       iteracionCon (RespOferta.resp true)] 2 _ (RespOferta.resp true) (by rfl)).trans
     (by decide)⟩

/-! ## C16: recovery of a replica and of a consumer -/

theorem idsDe_append (l1 l2 : List Oferta) : idsDe (l1 ++ l2) = idsDe l1 ∪ idsDe l2 := by
  simp [idsDe, List.toFinset_append]

theorem fusionar_cons (ofertas : List Oferta) (oferta : Oferta) (resto : List Oferta) :
    fusionar ofertas (oferta :: resto)
      = fusionar (if yaExiste ofertas oferta = true then ofertas else ofertas ++ [oferta])
          resto := by
  simp [fusionar]

theorem idsDe_fusionar (faltantes ofertas : List Oferta) :
    idsDe (fusionar ofertas faltantes) = idsDe ofertas ∪ idsDe faltantes := by
  induction faltantes generalizing ofertas with
  | nil => simp [fusionar, idsDe]
  | cons oferta resto ih =>
    have hcons : idsDe (oferta :: resto) = idsDe [oferta] ∪ idsDe resto :=
      idsDe_append [oferta] resto
    rw [fusionar_cons, hcons, ← Finset.union_assoc]
    by_cases hy : yaExiste ofertas oferta = true
    · rw [if_pos hy, ih ofertas]
      have hsub : idsDe [oferta] ⊆ idsDe ofertas := by
        intro id hid
        obtain ⟨o, ho, he⟩ := (mem_idsDe _ _).mp hid
        simp only [List.mem_singleton] at ho
        subst ho
        obtain ⟨a, ha, hae⟩ := List.any_eq_true.mp hy
        exact (mem_idsDe _ _).mpr ⟨a, ha, (of_decide_eq_true hae).trans he⟩
      rw [Finset.union_eq_left.mpr hsub]
    · rw [if_neg hy, ih (ofertas ++ [oferta]), idsDe_append]

theorem idsDe_faltantes (ofertas historial : List Oferta) (p : Oferta → Bool) :
    idsDe ofertas ∪ idsDe (historial.filter (fun o => p o && !existeEnActuales ofertas o))
      = idsDe ofertas ∪ idsDe (historial.filter p) := by
  ext id
  simp only [Finset.mem_union, mem_idsDe, List.mem_filter, Bool.and_eq_true,
    Bool.not_eq_true', existeEnActuales_eq, decide_eq_false_iff_not, List.mem_map, not_exists,
    not_and]
  constructor
  · rintro (h | ⟨o, ⟨ho, hp, _⟩, he⟩)
    · exact Or.inl h
    · exact Or.inr ⟨o, ⟨ho, hp⟩, he⟩
  · rintro (h | ⟨o, ⟨ho, hp⟩, he⟩)
    · exact Or.inl h
    · by_cases hex : ∃ a ∈ ofertas, a.oferta_id = o.oferta_id
      · obtain ⟨a, ha, hae⟩ := hex
        exact Or.inl ⟨a, ha, hae.trans he⟩
      · right
        refine ⟨o, ⟨ho, hp, ?_⟩, he⟩
        intro a ha hae
        exact hex ⟨a, ha, hae⟩

/-- The reply of the broker to a Resync of kind `"nodo"` when the quorum yields `H`. -/
theorem SincronizarEntidad_nodo (b : Broker) (entidadID : String)
    (ofertasActuales : List Oferta) (leer : String → RespLectura) (H : List Oferta)
    (hH : (b.obtenerHistorialOfertas leer).2 = Slice.de H) :
    (b.SincronizarEntidad entidadID "nodo" ofertasActuales leer).2
      = { ofertasFaltantes := H.filter (fun o => true && !existeEnActuales ofertasActuales o),
          exito := true } := by
  have hc : ("nodo" = "consumidor") = False := by decide
  simp only [Broker.SincronizarEntidad, hH, hc, if_false, Bool.true_and]

/-- The reply of the broker to a Resync of kind `"consumidor"` by a registered consumer when
the quorum yields `H`. -/
theorem SincronizarEntidad_consumidor (b : Broker) (entidadID : String)
    (info : ConsumidorInfo) (ofertasActuales : List Oferta) (leer : String → RespLectura)
    (H : List Oferta) (hc : b.consumidores.buscar entidadID = some info)
    (hH : (b.obtenerHistorialOfertas leer).2 = Slice.de H) :
    (b.SincronizarEntidad entidadID "consumidor" ofertasActuales leer).2
      = { ofertasFaltantes := H.filter (fun o => Broker.coincideConPreferencias o info &&
            !existeEnActuales ofertasActuales o),
          exito := true } := by
  simp only [Broker.SincronizarEntidad, hH, obtenerHistorialOfertas_consumidores, hc, if_true]

/-- C16. When the read quorum yields the history `H`: a replica with a duplicate-free log `L`
that runs its recovery on the broker's reply to `Resync(kind=nodo, current_offers=L)` ends with
a duplicate-free log that has `L` as initial segment and the id set `ids(L) ∪ ids(H)`, and is
no longer in fault; a registered consumer that runs its recovery on the reply to
`Resync(kind=consumidor, current_offers=L)` ends with the id set
`ids(L) ∪ ids(offers of H matching its registered filter)` and is no longer in fault.  A
recovery whose Resync fails (RPC error or ok=false) leaves the list and `enFallo` as they
were. -/
theorem C16_recovery (b : Broker) (leer : String → RespLectura) (H : List Oferta)
    (hH : (b.obtenerHistorialOfertas leer).2 = Slice.de H) :
    (∀ n : NodoDB, sinDuplicados n.ofertas →
      sinDuplicados (n.recuperarAutomaticamente (RespSincronizacion.resp
        (b.SincronizarEntidad n.nombre "nodo" n.ofertas leer).2)).ofertas ∧
      n.ofertas <+: (n.recuperarAutomaticamente (RespSincronizacion.resp
        (b.SincronizarEntidad n.nombre "nodo" n.ofertas leer).2)).ofertas ∧
      idsDe (n.recuperarAutomaticamente (RespSincronizacion.resp
        (b.SincronizarEntidad n.nombre "nodo" n.ofertas leer).2)).ofertas
        = idsDe n.ofertas ∪ idsDe H ∧
      (n.recuperarAutomaticamente (RespSincronizacion.resp
        (b.SincronizarEntidad n.nombre "nodo" n.ofertas leer).2)).enFallo = false) ∧
    (∀ (c : Consumidor) (info : ConsumidorInfo), b.consumidores.buscar c.id = some info →
      idsDe (c.recuperarAutomaticamente (RespSincronizacion.resp
        (b.SincronizarEntidad c.id "consumidor" c.ofertasRecibidas leer).2)).ofertasRecibidas
        = idsDe c.ofertasRecibidas ∪
          idsDe (H.filter (fun o => Broker.coincideConPreferencias o info)) ∧
      (c.recuperarAutomaticamente (RespSincronizacion.resp
        (b.SincronizarEntidad c.id "consumidor" c.ofertasRecibidas leer).2)).enFallo = false) ∧
    (∀ (n : NodoDB) (c : Consumidor) (r : RespSincronizacion),
      (r = RespSincronizacion.error ∨ ∃ resp, r = RespSincronizacion.resp resp ∧
        resp.exito = false) →
      ((n.recuperarAutomaticamente r).ofertas = n.ofertas ∧
        (n.recuperarAutomaticamente r).enFallo = n.enFallo) ∧
      ((c.recuperarAutomaticamente r).ofertasRecibidas = c.ofertasRecibidas ∧
        (c.recuperarAutomaticamente r).enFallo = c.enFallo)) := by
  refine ⟨fun n hnd => ?_, fun c info hc => ?_, fun n c r hr => ?_⟩
  · rw [SincronizarEntidad_nodo b n.nombre n.ofertas leer H hH]
    simp only [NodoDB.recuperarAutomaticamente, NodoDB.solicitarResincronizacion,
      Bool.true_eq_false, if_false, if_true]
    refine ⟨(fusionar_invariante _ _).2 hnd, (fusionar_invariante _ _).1, ?_, trivial⟩
    rw [idsDe_fusionar, idsDe_faltantes]
    simp
  · rw [SincronizarEntidad_consumidor b c.id info c.ofertasRecibidas leer H hc hH]
    simp only [Consumidor.recuperarAutomaticamente, Consumidor.solicitarResincronizacion,
      Bool.true_eq_false, if_false, if_true]
    refine ⟨?_, trivial⟩
    rw [idsDe_fusionar, idsDe_faltantes]
  · rcases hr with rfl | ⟨resp, rfl, he⟩
    · simp [NodoDB.recuperarAutomaticamente, NodoDB.solicitarResincronizacion,
        Consumidor.recuperarAutomaticamente, Consumidor.solicitarResincronizacion]
    · simp [NodoDB.recuperarAutomaticamente, NodoDB.solicitarResincronizacion,
        Consumidor.recuperarAutomaticamente, Consumidor.solicitarResincronizacion, he]

/-- Scenario S5 as an instance of C16: with the history `historialS5` held by the replicas, the
replica in fault that holds `Riploy-1` and the consumer `C1` in fault that holds two offers
both recover and are no longer in fault; the consumer ends with the five matching offers. -/
theorem C16_recovery_witness :
    (idsDe (nodoEnFallo.recuperarAutomaticamente (RespSincronizacion.resp
        (brokerS5.SincronizarEntidad nodoEnFallo.nombre "nodo" nodoEnFallo.ofertas
          leerS5).2)).ofertas
        = idsDe nodoEnFallo.ofertas ∪ idsDe historialS5 ∧
      (nodoEnFallo.recuperarAutomaticamente (RespSincronizacion.resp
        (brokerS5.SincronizarEntidad nodoEnFallo.nombre "nodo" nodoEnFallo.ofertas
          leerS5).2)).enFallo = false) ∧
    (idsDe (consumidorEnFallo.recuperarAutomaticamente (RespSincronizacion.resp
        (brokerS5.SincronizarEntidad consumidorEnFallo.id "consumidor"
          consumidorEnFallo.ofertasRecibidas leerS5).2)).ofertasRecibidas
        = idsDe consumidorEnFallo.ofertasRecibidas ∪
          idsDe (historialS5.filter (fun o => Broker.coincideConPreferencias o consumidorS4)) ∧
      (consumidorEnFallo.recuperarAutomaticamente (RespSincronizacion.resp
        (brokerS5.SincronizarEntidad consumidorEnFallo.id "consumidor"
          consumidorEnFallo.ofertasRecibidas leerS5).2)).enFallo = false) ∧
    (consumidorEnFallo.recuperarAutomaticamente (RespSincronizacion.resp
        (brokerS5.SincronizarEntidad consumidorEnFallo.id "consumidor"
          consumidorEnFallo.ofertasRecibidas leerS5).2)).ofertasRecibidas
      = [ofertaDe "Riploy-1" "Moda" 10, ofertaDe "Riploy-3" "Moda" 30,
         ofertaDe "Riploy-2" "Moda" 20, ofertaDe "Riploy-5" "Moda" 40,
         ofertaDe "Riploy-6" "Moda" 50] :=
  ⟨⟨((C16_recovery brokerS5 leerS5 historialS5 (by decide)).1 nodoEnFallo (by decide)).2.2.1,
    ((C16_recovery brokerS5 leerS5 historialS5 (by decide)).1 nodoEnFallo (by decide)).2.2.2⟩,
   (C16_recovery brokerS5 leerS5 historialS5 (by decide)).2.1 consumidorEnFallo consumidorS4
     (by decide),
   by decide⟩

/-! ## C17: liveness bookkeeping of the write fan-out -/

theorem enviarOfertaANodo_fst (nodoInfo : NodoInfo) (r : RespOferta) :
    ((Broker.enviarOfertaANodo nodoInfo r).1.estado = true ↔ r = RespOferta.resp true) ∧
    (Broker.enviarOfertaANodo nodoInfo r).1.cantCaidas
      = nodoInfo.cantCaidas +
        (if nodoInfo.estado = true ∧ r ≠ RespOferta.resp true then 1 else 0) ∧
    (Broker.enviarOfertaANodo nodoInfo r).1.nombre = nodoInfo.nombre ∧
    (Broker.enviarOfertaANodo nodoInfo r).1.direccion = nodoInfo.direccion := by
  cases r with
  | error => cases h : nodoInfo.estado <;> simp [Broker.enviarOfertaANodo, h]
  | resp exito =>
    cases exito <;> cases h : nodoInfo.estado <;> simp [Broker.enviarOfertaANodo, h]

theorem recorrerNodos_buscar (oferta : Oferta) (rpc : String → Oferta → RespOferta)
    (nodos : Mapa NodoInfo) (k : String) :
    Mapa.buscar (Broker.recorrerNodos oferta rpc nodos).1 k
      = (Mapa.buscar nodos k).map
          (fun v => (Broker.enviarOfertaANodo v (rpc k oferta)).1) := by
  induction nodos with
  | nil => rfl
  | cons e resto ih =>
    obtain ⟨nodoID, nodoInfo⟩ := e
    simp only [Broker.recorrerNodos, Mapa.buscar]
    by_cases h : nodoID = k
    · simp [h]
    · simp [h, ih]

theorem EnviarOferta_nodos (b : Broker) (req : Oferta) (rpc : String → Oferta → RespOferta)
    (h : b.pasaValidacion (Accion.enviarOferta req rpc) = true) :
    (b.EnviarOferta req rpc).1.nodos = (Broker.recorrerNodos req rpc b.nodos).1 := by
  simp only [Broker.pasaValidacion, Bool.and_eq_true] at h
  obtain ⟨hprod, hv⟩ := h
  obtain ⟨p, hp⟩ := Option.isSome_iff_exists.mp hprod
  simp only [Broker.EnviarOferta, hp, hv, Bool.true_eq_false, if_false]
  split <;> simp [Broker.almacenarOfertaEnNodos]

/-- C17. After a Submit that passes validation, every registered replica is still registered,
is marked alive exactly when its insert returned without error and replied ok, and its crash
count has grown by one if it was marked alive and did not acknowledge, and is unchanged
otherwise. -/
theorem C17_replica_liveness (b : Broker) (req : Oferta) (rpc : String → Oferta → RespOferta)
    (k : String) (v : NodoInfo)
    (hval : b.pasaValidacion (Accion.enviarOferta req rpc) = true)
    (hk : b.nodos.buscar k = some v) :
    ∃ v' : NodoInfo,
      (b.EnviarOferta req rpc).1.nodos.buscar k = some v' ∧
      (v'.estado = true ↔ rpc k req = RespOferta.resp true) ∧
      v'.cantCaidas = v.cantCaidas +
        (if v.estado = true ∧ rpc k req ≠ RespOferta.resp true then 1 else 0) := by
  refine ⟨(Broker.enviarOfertaANodo v (rpc k req)).1, ?_,
    (enviarOfertaANodo_fst v (rpc k req)).1, (enviarOfertaANodo_fst v (rpc k req)).2.1⟩
  rw [EnviarOferta_nodos b req rpc hval, recorrerNodos_buscar, hk]
  rfl

/-- An instance of C17 on a broker where DB2 is marked dead with one crash: DB2 acknowledges and
is marked alive with its crash count still 1; DB3, alive before, replies not-ok and is marked
dead with one crash more. -/
theorem C17_replica_liveness_witness :
    (∃ v' : NodoInfo,
      (brokerDB2Caido.EnviarOferta ofertaEjemplo rpcDB3Rechaza).1.nodos.buscar "DB2" = some v' ∧
      (v'.estado = true ↔ rpcDB3Rechaza "DB2" ofertaEjemplo = RespOferta.resp true) ∧
      v'.cantCaidas = 1 + 0) ∧
    (brokerDB2Caido.EnviarOferta ofertaEjemplo rpcDB3Rechaza).1.nodos
      = [("DB1", { nombre := "DB1", direccion := "db1:50052", estado := true,
                   cantCaidas := 0 }),
         ("DB2", { nombre := "DB2", direccion := "db2:50053", estado := true,
                   cantCaidas := 1 }),
         ("DB3", { nombre := "DB3", direccion := "db3:50054", estado := false,
                   cantCaidas := 1 })] :=
  ⟨C17_replica_liveness brokerDB2Caido ofertaEjemplo rpcDB3Rechaza "DB2"
     { nombre := "DB2", direccion := "db2:50053", estado := false, cantCaidas := 1 }
     (by decide) (by decide),
   by decide⟩

/-! ## C18: a Submit that fails validation -/

theorem Mapa.modificar_cons {α : Type} (k0 : String) (v0 : α) (resto : Mapa α) (k : String)
    (f : α → α) :
    Mapa.modificar ((k0, v0) :: resto) k f
      = (if k0 = k then (k0, f v0) else (k0, v0)) :: Mapa.modificar resto k f := rfl

theorem Mapa.buscar_modificar {α : Type} (m : Mapa α) (k k' : String) (f : α → α) :
    Mapa.buscar (Mapa.modificar m k f) k'
      = if k' = k then (Mapa.buscar m k').map f else Mapa.buscar m k' := by
  induction m with
  | nil => simp [Mapa.modificar, Mapa.buscar]
  | cons e resto ih =>
    obtain ⟨k0, v0⟩ := e
    rw [Mapa.modificar_cons]
    by_cases h0 : k0 = k
    · rw [if_pos h0]
      by_cases h1 : k0 = k'
      · have h2 : k' = k := h1 ▸ h0
        simp only [Mapa.buscar, h1, h2, if_true, Option.map_some']
      · have h2 : ¬ k' = k := fun e => h1 (h0.trans e.symm)
        simp only [Mapa.buscar, h1, if_false, ih]
    · rw [if_neg h0]
      by_cases h1 : k0 = k'
      · have h2 : ¬ k' = k := fun e => h0 (h1.trans e)
        simp only [Mapa.buscar, h1, h2, if_true, if_false]
      · simp only [Mapa.buscar, h1, if_false, ih]

/-- C18. A Submit whose store is not a registered producer replies ok=false and returns the
broker state it was given. A Submit whose store is registered but whose category is not valid
replies ok=false and changes only the producer table: the producer of that store has one more
submitted offer and the same accepted count, every other producer is as before; replicas,
consumers, the three write counters and the flags are as before. In both cases the result does
not depend on the outcome of any replica RPC and the consumer fan-out is not started. -/
theorem C18_rejected_submit_frame (b : Broker) (req : Oferta) :
    (b.productores.buscar req.tienda = none →
      (∀ rpc : String → Oferta → RespOferta, b.EnviarOferta req rpc = (b, false)) ∧
      b.EnviarOferta_distribuye req = false) ∧
    (∀ p : ProductorInfo, b.productores.buscar req.tienda = some p →
      req.categoria ∉ categoriasValidas →
      (∀ rpc : String → Oferta → RespOferta,
        (b.EnviarOferta req rpc).2 = false ∧
        (b.EnviarOferta req rpc).1.nodos = b.nodos ∧
        (b.EnviarOferta req rpc).1.consumidores = b.consumidores ∧
        (b.EnviarOferta req rpc).1.ofertasRecibidas = b.ofertasRecibidas ∧
        (b.EnviarOferta req rpc).1.escriturasExitosas = b.escriturasExitosas ∧
        (b.EnviarOferta req rpc).1.escriturasFallidas = b.escriturasFallidas ∧
        (b.EnviarOferta req rpc).1.inicio = b.inicio ∧
        (b.EnviarOferta req rpc).1.sistemaActivo = b.sistemaActivo ∧
        (b.EnviarOferta req rpc).1.productores.buscar req.tienda
          = some { p with ofertasEnviadas := p.ofertasEnviadas + 1 } ∧
        (∀ k : String, k ≠ req.tienda →
          (b.EnviarOferta req rpc).1.productores.buscar k = b.productores.buscar k)) ∧
      (∀ rpc rpc' : String → Oferta → RespOferta,
        b.EnviarOferta req rpc = b.EnviarOferta req rpc') ∧
      b.EnviarOferta_distribuye req = false) := by
  constructor
  · intro hn
    exact ⟨fun rpc => by simp [Broker.EnviarOferta, hn],
      by simp [Broker.EnviarOferta_distribuye, hn]⟩
  · intro p hp hcat
    have hv : esValido req.categoria categoriasValidas = false := by
      cases h : esValido req.categoria categoriasValidas with
      | false => rfl
      | true => exact absurd ((esValido_iff _ _).mp h) hcat
    have hres : ∀ rpc : String → Oferta → RespOferta, b.EnviarOferta req rpc
        = (Broker.mk (b.productores.modificar req.tienda
              (fun prod => { prod with ofertasEnviadas := prod.ofertasEnviadas + 1 }))
            b.nodos b.consumidores b.ofertasRecibidas b.escriturasExitosas
            b.escriturasFallidas b.inicio b.sistemaActivo, false) := by
      intro rpc
      simp [Broker.EnviarOferta, hp, hv]
    refine ⟨fun rpc => ?_, fun rpc rpc' => by rw [hres rpc, hres rpc'],
      by simp [Broker.EnviarOferta_distribuye, hp, hv]⟩
    rw [hres rpc]
    refine ⟨rfl, rfl, rfl, rfl, rfl, rfl, rfl, rfl, ?_, ?_⟩
    · simp [Mapa.buscar_modificar, hp]
    · intro k hk
      simp [Mapa.buscar_modificar, hk]

/-- An instance of C18 on `brokerEjemplo`: an offer of the unknown store `Amazon` leaves the
broker as it was; an offer of Riploy with the category `Libros` only raises Riploy's submitted
count to 1. -/
theorem C18_rejected_submit_frame_witness :
    brokerEjemplo.EnviarOferta ofertaTiendaDesconocida rpcSoloDB1 = (brokerEjemplo, false) ∧
    (brokerEjemplo.EnviarOferta ofertaCategoriaInvalida rpcSoloDB1).2 = false ∧
    (brokerEjemplo.EnviarOferta ofertaCategoriaInvalida rpcSoloDB1).1.nodos
      = brokerEjemplo.nodos ∧
    (brokerEjemplo.EnviarOferta ofertaCategoriaInvalida rpcSoloDB1).1.productores.buscar
      ofertaCategoriaInvalida.tienda
      = some { nombre := "Riploy", ofertasEnviadas := 0 + 1, ofertasAceptadas := 0 } :=
  ⟨((C18_rejected_submit_frame brokerEjemplo ofertaTiendaDesconocida).1 (by decide)).1
     rpcSoloDB1,
   (((C18_rejected_submit_frame brokerEjemplo ofertaCategoriaInvalida).2
     { nombre := "Riploy", ofertasEnviadas := 0, ofertasAceptadas := 0 } (by decide)
     (by decide)).1 rpcSoloDB1).1,
   (((C18_rejected_submit_frame brokerEjemplo ofertaCategoriaInvalida).2
     { nombre := "Riploy", ofertasEnviadas := 0, ofertasAceptadas := 0 } (by decide)
     (by decide)).1 rpcSoloDB1).2.1,
   (((C18_rejected_submit_frame brokerEjemplo ofertaCategoriaInvalida).2
     { nombre := "Riploy", ofertasEnviadas := 0, ofertasAceptadas := 0 } (by decide)
     (by decide)).1 rpcSoloDB1).2.2.2.2.2.2.2.2.1⟩

/-! ## C19: consumer fan-out -/

theorem notificarConsumidor_spec (consumidorInfo : ConsumidorInfo) (r : RespOferta) :
    (Broker.notificarConsumidor consumidorInfo r).2 = decide (r = RespOferta.resp true) ∧
    (Broker.notificarConsumidor consumidorInfo r).1.ofertasRecibidas
      = consumidorInfo.ofertasRecibidas := by
  cases r with
  | error => cases h : consumidorInfo.estado <;> simp [Broker.notificarConsumidor, h]
  | resp exito =>
    cases exito <;> cases h : consumidorInfo.estado <;> simp [Broker.notificarConsumidor, h]

/-- The consumers called by the fan-out loop are the matching entries, in visit order. -/
theorem recorrerConsumidores_snd (oferta : Oferta) (rpc : String → Oferta → RespOferta)
    (consumidores : Mapa ConsumidorInfo) :
    (Broker.recorrerConsumidores oferta rpc consumidores).2
      = (consumidores.filter (fun e => Broker.coincideConPreferencias oferta e.2)).map
          (fun e => e.1) := by
  induction consumidores with
  | nil => rfl
  | cons e resto ih =>
    obtain ⟨consumidorID, consumidor⟩ := e
    simp only [Broker.recorrerConsumidores, List.filter_cons]
    cases h : Broker.coincideConPreferencias oferta consumidor <;> simp [ih]

/-- The record the fan-out loop leaves for a consumer whose record was `c`. -/
theorem recorrerConsumidores_buscar (oferta : Oferta) (rpc : String → Oferta → RespOferta)
    (consumidores : Mapa ConsumidorInfo) (k : String) :
    Mapa.buscar (Broker.recorrerConsumidores oferta rpc consumidores).1 k
      = (Mapa.buscar consumidores k).map (fun c =>
          if Broker.coincideConPreferencias oferta c = true then
            if (Broker.notificarConsumidor c (rpc k oferta)).2 = true then
              { (Broker.notificarConsumidor c (rpc k oferta)).1 with
                ofertasRecibidas :=
                  (Broker.notificarConsumidor c (rpc k oferta)).1.ofertasRecibidas + 1 }
            else (Broker.notificarConsumidor c (rpc k oferta)).1
          else c) := by
  induction consumidores with
  | nil => rfl
  | cons e resto ih =>
    obtain ⟨consumidorID, consumidor⟩ := e
    simp only [Broker.recorrerConsumidores]
    cases hm : Broker.coincideConPreferencias oferta consumidor with
    | false =>
      by_cases hk : consumidorID = k
      · subst hk
        simp [Mapa.buscar, hm]
      · simp [Mapa.buscar, hk, ih]
    | true =>
      by_cases hk : consumidorID = k
      · subst hk
        simp only [if_true, Mapa.buscar, Option.map_some', hm]
      · simp only [if_true, Mapa.buscar, hk, if_false, ih]

/-- C19. The fan-out of an offer calls `EnviarOferta` on the registered consumers whose filter
matches the offer, once per matching entry and on no other consumer; afterwards every consumer
is still registered, a consumer that does not match has the record it had, and the
`ofertasRecibidas` of a consumer has grown by one exactly when it matched and its delivery
returned without error and replied ok, and is unchanged otherwise. -/
theorem C19_consumer_fanout (b : Broker) (oferta : Oferta)
    (rpc : String → Oferta → RespOferta) :
    (Broker.recorrerConsumidores oferta rpc b.consumidores).2
      = (b.consumidores.filter (fun e => Broker.coincideConPreferencias oferta e.2)).map
          (fun e => e.1) ∧
    (∀ (k : String) (c : ConsumidorInfo), b.consumidores.buscar k = some c →
      ∃ c' : ConsumidorInfo,
        (b.distribuirAConsumidores oferta rpc).consumidores.buscar k = some c' ∧
        (Broker.coincideConPreferencias oferta c = false → c' = c) ∧
        c'.ofertasRecibidas = c.ofertasRecibidas +
          (if Broker.coincideConPreferencias oferta c = true ∧
              rpc k oferta = RespOferta.resp true then 1 else 0)) := by
  refine ⟨recorrerConsumidores_snd oferta rpc b.consumidores, fun k c hk => ?_⟩
  have hb := recorrerConsumidores_buscar oferta rpc b.consumidores k
  rw [hk] at hb
  simp only [Option.map_some'] at hb
  refine ⟨_, hb, ?_, ?_⟩
  · intro hm
    simp [hm]
  · obtain ⟨h1, h2⟩ := notificarConsumidor_spec c (rpc k oferta)
    cases hm : Broker.coincideConPreferencias oferta c with
    | false => simp
    | true =>
      rw [if_pos rfl]
      by_cases hr : rpc k oferta = RespOferta.resp true
      · have h1' : (Broker.notificarConsumidor c (rpc k oferta)).2 = true := by
          rw [h1]; exact decide_eq_true hr
        rw [if_pos h1', if_pos ⟨rfl, hr⟩]
        show (Broker.notificarConsumidor c (rpc k oferta)).1.ofertasRecibidas + 1 = _
        rw [h2]
      · have h1' : ¬ (Broker.notificarConsumidor c (rpc k oferta)).2 = true := by
          rw [h1]; simpa using hr
        rw [if_neg h1', if_neg (fun h => hr h.2), h2]
        rfl

/-- An instance of C19: with `C1` subscribed to Moda and `C2` to Hogar, the fan-out of a Moda
offer calls `C1` only; `C1` has one more offer received and `C2` has the record it had. -/
theorem C19_consumer_fanout_witness :
    (Broker.recorrerConsumidores (ofertaDe "Riploy-1" "Moda" 40) rpcTodosOk
      brokerDosConsumidores.consumidores).2 = ["C1"] ∧
    (∃ c' : ConsumidorInfo,
      (brokerDosConsumidores.distribuirAConsumidores (ofertaDe "Riploy-1" "Moda" 40)
        rpcTodosOk).consumidores.buscar "C1" = some c' ∧
      (Broker.coincideConPreferencias (ofertaDe "Riploy-1" "Moda" 40) consumidorS4 = false →
        c' = consumidorS4) ∧
      c'.ofertasRecibidas = consumidorS4.ofertasRecibidas +
        (if Broker.coincideConPreferencias (ofertaDe "Riploy-1" "Moda" 40) consumidorS4 = true ∧
            rpcTodosOk "C1" (ofertaDe "Riploy-1" "Moda" 40) = RespOferta.resp true
          then 1 else 0)) ∧
    (brokerDosConsumidores.distribuirAConsumidores (ofertaDe "Riploy-1" "Moda" 40)
      rpcTodosOk).consumidores
      = [("C1", { consumidorS4 with ofertasRecibidas := 1 }),
         ("C2", { consumidorS4 with id_consumidor := "C2", categorias := ["Hogar"] })] :=
  ⟨by decide,
   (C19_consumer_fanout brokerDosConsumidores (ofertaDe "Riploy-1" "Moda" 40) rpcTodosOk).2
     "C1" consumidorS4 (by decide),
   by decide⟩

/-! ## C20: the comparison of two logs -/

theorem sinDuplicados_perm (l1 l2 : List Oferta) (h : l1.Perm l2) :
    sinDuplicados l1 ↔ sinDuplicados l2 := by
  unfold sinDuplicados
  exact (h.map (fun o => o.oferta_id)).nodup_iff

theorem idsDe_perm (l1 l2 : List Oferta) (h : l1.Perm l2) : idsDe l1 = idsDe l2 :=
  List.toFinset_eq_of_perm _ _ (h.map (fun o => o.oferta_id))

/-- C20. For two logs without duplicate offer ids, `sonListasIdenticas` returns true exactly
when the two logs have the same set of offer ids; so on such logs it gives the same answer with
its arguments exchanged, and the same answer when either log is reordered. -/
theorem C20_list_comparison (lista1 lista2 : Slice Oferta)
    (h1 : sinDuplicados lista1.elems) (h2 : sinDuplicados lista2.elems) :
    (Broker.sonListasIdenticas lista1 lista2 = true ↔
      idsDe lista1.elems = idsDe lista2.elems) ∧
    Broker.sonListasIdenticas lista1 lista2 = Broker.sonListasIdenticas lista2 lista1 ∧
    (∀ otra1 otra2 : Slice Oferta,
      otra1.elems.Perm lista1.elems → otra2.elems.Perm lista2.elems →
      Broker.sonListasIdenticas otra1 otra2 = Broker.sonListasIdenticas lista1 lista2) := by
  have hiff := sonListasIdenticas_iff lista1 lista2 h1 h2
  refine ⟨hiff, ?_, fun otra1 otra2 p1 p2 => ?_⟩
  · have hsim := sonListasIdenticas_iff lista2 lista1 h2 h1
    cases ha : Broker.sonListasIdenticas lista1 lista2 with
    | true =>
      exact (hsim.mpr (hiff.mp ha).symm).symm
    | false =>
      cases hb : Broker.sonListasIdenticas lista2 lista1 with
      | false => rfl
      | true =>
        have := hiff.mpr (hsim.mp hb).symm
        rw [ha] at this
        exact this
  · have g1 : sinDuplicados otra1.elems := (sinDuplicados_perm _ _ p1).mpr h1
    have g2 : sinDuplicados otra2.elems := (sinDuplicados_perm _ _ p2).mpr h2
    have hotra := sonListasIdenticas_iff otra1 otra2 g1 g2
    rw [idsDe_perm _ _ p1, idsDe_perm _ _ p2] at hotra
    cases ha : Broker.sonListasIdenticas lista1 lista2 with
    | true => exact hotra.mpr (hiff.mp ha)
    | false =>
      cases hb : Broker.sonListasIdenticas otra1 otra2 with
      | false => rfl
      | true =>
        have := hiff.mpr (hotra.mp hb)
        rw [ha] at this
        exact this.symm

/-- An instance of C20: the logs `[Riploy-1, Riploy-2]` and `[Riploy-2, Riploy-1]` are found
identical in both directions, and `[Riploy-1, Riploy-2]` and `[Riploy-1, Riploy-3]` are not. -/
theorem C20_list_comparison_witness :
    Broker.sonListasIdenticas (Slice.de [ofertaId "Riploy-1", ofertaId "Riploy-2"])
      (Slice.de [ofertaId "Riploy-2", ofertaId "Riploy-1"]) = true ∧
    Broker.sonListasIdenticas (Slice.de [ofertaId "Riploy-1", ofertaId "Riploy-2"])
        (Slice.de [ofertaId "Riploy-2", ofertaId "Riploy-1"])
      = Broker.sonListasIdenticas (Slice.de [ofertaId "Riploy-2", ofertaId "Riploy-1"])
        (Slice.de [ofertaId "Riploy-1", ofertaId "Riploy-2"]) ∧
    Broker.sonListasIdenticas (Slice.de [ofertaId "Riploy-1", ofertaId "Riploy-2"])
      (Slice.de [ofertaId "Riploy-1", ofertaId "Riploy-3"]) = false :=
  ⟨by decide,
   (C20_list_comparison (Slice.de [ofertaId "Riploy-1", ofertaId "Riploy-2"])
     (Slice.de [ofertaId "Riploy-2", ofertaId "Riploy-1"]) (by decide) (by decide)).2.1,
   by decide⟩

/-! ## C21: fault windows of the replicas -/

theorem NodoDB.puedeFallar_iff (nombre : String) (elapsed : Int) :
    NodoDB.puedeFallar nombre elapsed = true ↔
      ((nombre = "DB1" ∧ elapsed ≤ 30 * segundo) ∨
       (nombre = "DB2" ∧ 40 * segundo ≤ elapsed ∧ elapsed ≤ 70 * segundo) ∨
       (nombre = "DB3" ∧ 80 * segundo ≤ elapsed)) := by
  have h12 : ¬ ("DB1" = "DB2") := by decide
  have h13 : ¬ ("DB1" = "DB3") := by decide
  have h23 : ¬ ("DB2" = "DB3") := by decide
  unfold NodoDB.puedeFallar
  by_cases h1 : nombre = "DB1"
  · subst h1
    simp [h12, h13]
  · by_cases h2 : nombre = "DB2"
    · subst h2
      simp [h23, Ne.symm h12]
    · by_cases h3 : nombre = "DB3"
      · subst h3
        simp [Ne.symm h13, Ne.symm h23]
      · simp [h1, h2, h3]

/-- An insert on a healthy replica whose `puedeFallar` is false triggers no fault. -/
theorem NodoDB.EnviarOferta_fuera_de_ventana (n : NodoDB) (req : Oferta) (ahora despues : Int)
    (sorteo : ℚ) (hsano : n.enFallo = false)
    (hfuera : NodoDB.puedeFallar n.nombre (n.transcurrido ahora despues) = false) :
    (n.EnviarOferta req ahora despues sorteo).1.caidasSimuladas = n.caidasSimuladas ∧
    (n.EnviarOferta req ahora despues sorteo).1.enFallo = false ∧
    (n.EnviarOferta req ahora despues sorteo).2 = true := by
  simp only [NodoDB.transcurrido] at hfuera
  simp only [NodoDB.EnviarOferta, hsano, Bool.false_eq_true, if_false, true_and, hfuera,
    false_and, and_false]
  split <;> simp [hsano]

/-- C21. `puedeFallar` is true exactly for DB1 with `elapsed ≤ 30 s`, DB2 with
`40 s ≤ elapsed ≤ 70 s` and DB3 with `elapsed ≥ 80 s`; so for every elapsed time at most one of
the three identities is eligible; and an insert on a healthy replica outside its window triggers
no fault whatever the random draw: the crash counter is unchanged, the replica stays healthy and
the reply is ok=true. -/
theorem C21_fault_windows :
    segundo = 1000000000 ∧
    (∀ (nombre : String) (elapsed : Int),
      NodoDB.puedeFallar nombre elapsed = true ↔
        ((nombre = "DB1" ∧ elapsed ≤ 30 * segundo) ∨
         (nombre = "DB2" ∧ 40 * segundo ≤ elapsed ∧ elapsed ≤ 70 * segundo) ∨
         (nombre = "DB3" ∧ 80 * segundo ≤ elapsed))) ∧
    (∀ elapsed : Int,
      ¬ (NodoDB.puedeFallar "DB1" elapsed = true ∧ NodoDB.puedeFallar "DB2" elapsed = true) ∧
      ¬ (NodoDB.puedeFallar "DB1" elapsed = true ∧ NodoDB.puedeFallar "DB3" elapsed = true) ∧
      ¬ (NodoDB.puedeFallar "DB2" elapsed = true ∧ NodoDB.puedeFallar "DB3" elapsed = true)) ∧
    (∀ (n : NodoDB) (req : Oferta) (ahora despues : Int) (sorteo : ℚ),
      n.enFallo = false →
      NodoDB.puedeFallar n.nombre (n.transcurrido ahora despues) = false →
      (n.EnviarOferta req ahora despues sorteo).1.caidasSimuladas = n.caidasSimuladas ∧
      (n.EnviarOferta req ahora despues sorteo).1.enFallo = false ∧
      (n.EnviarOferta req ahora despues sorteo).2 = true) := by
  refine ⟨rfl, NodoDB.puedeFallar_iff, fun elapsed => ?_,
    fun n req ahora despues sorteo h1 h2 =>
      NodoDB.EnviarOferta_fuera_de_ventana n req ahora despues sorteo h1 h2⟩
  have h12 : ¬ ("DB1" = "DB2") := by decide
  have h13 : ¬ ("DB1" = "DB3") := by decide
  have h23 : ¬ ("DB2" = "DB3") := by decide
  simp only [NodoDB.puedeFallar_iff, segundo, h12, h13, h23, Ne.symm h12, Ne.symm h13,
    Ne.symm h23, false_and, true_and, or_false, false_or]
  refine ⟨?_, ?_, ?_⟩ <;> intro h <;> omega

/-- An instance of C21: the healthy DB3 replica `nodoEjemplo`, 10 s after its first insert, is
outside its window; an insert with a draw of 1/100, below the fault probability 1/10, triggers
no fault. -/
theorem C21_fault_windows_witness :
    nodoEjemplo.enFallo = false ∧
    NodoDB.puedeFallar nodoEjemplo.nombre
      (nodoEjemplo.transcurrido (10 * segundo) (10 * segundo)) = false ∧
    (nodoEjemplo.EnviarOferta (ofertaId "Riploy-2") (10 * segundo) (10 * segundo)
      (1 / 100)).1.caidasSimuladas = nodoEjemplo.caidasSimuladas ∧
    (nodoEjemplo.EnviarOferta (ofertaId "Riploy-2") (10 * segundo) (10 * segundo)
      (1 / 100)).1.enFallo = false ∧
    (nodoEjemplo.EnviarOferta (ofertaId "Riploy-2") (10 * segundo) (10 * segundo)
      (1 / 100)).2 = true :=
  ⟨by decide, by decide,
   C21_fault_windows.2.2.2 nodoEjemplo (ofertaId "Riploy-2") (10 * segundo) (10 * segundo)
     (1 / 100) (by decide) (by decide)⟩

/-! ## C22: side effects of a Resync -/

theorem leerNodos_buscar (leer : String → RespLectura) (nodos : Mapa NodoInfo) (k : String) :
    Mapa.buscar (Broker.leerNodos leer nodos).1 k
      = (Mapa.buscar nodos k).map (Broker.trasLectura (leer k)) := by
  induction nodos with
  | nil => rfl
  | cons e resto ih =>
    obtain ⟨nodoID, nodoInfo⟩ := e
    simp only [Broker.leerNodos]
    by_cases hk : nodoID = k
    · subst hk
      cases h : leer nodoID with
      | error => simp [Mapa.buscar, Broker.trasLectura]
      | resp ofertas exito =>
        cases exito <;> simp [Mapa.buscar, Broker.trasLectura]
    · cases h : leer nodoID with
      | error => simp [Mapa.buscar, hk, ih]
      | resp ofertas exito =>
        cases exito <;> simp [Mapa.buscar, hk, ih]

theorem obtenerHistorialOfertas_fst (b : Broker) (leer : String → RespLectura) :
    (b.obtenerHistorialOfertas leer).1
      = Broker.mk b.productores (Broker.leerNodos leer b.nodos).1 b.consumidores
          b.ofertasRecibidas b.escriturasExitosas b.escriturasFallidas b.inicio
          b.sistemaActivo := by
  simp only [Broker.obtenerHistorialOfertas]
  split <;> rfl

theorem SincronizarEntidad_productores (b : Broker) (entidadID tipo : String)
    (ofertasActuales : List Oferta) (leer : String → RespLectura) :
    (b.SincronizarEntidad entidadID tipo ofertasActuales leer).1.productores
      = b.productores := by
  simp only [Broker.SincronizarEntidad, obtenerHistorialOfertas_fst]
  split
  · rfl
  · split
    · split <;> rfl
    · split <;> rfl

/-- A Resync that replies ok=true got a non-nil history from the read quorum. -/
theorem SincronizarEntidad_exito (b : Broker) (entidadID tipo : String)
    (ofertasActuales : List Oferta) (leer : String → RespLectura)
    (h : (b.SincronizarEntidad entidadID tipo ofertasActuales leer).2.exito = true) :
    ∃ H, (b.obtenerHistorialOfertas leer).2 = Slice.de H := by
  cases hH : (b.obtenerHistorialOfertas leer).2 with
  | nil => simp [Broker.SincronizarEntidad, hH] at h
  | de H => exact ⟨H, rfl⟩

/-- C22. After a Resync that replies ok=true: a registered replica that asked with kind
`"nodo"` is marked alive and the consumer table is as before; a registered consumer that asked
with kind `"consumidor"` is marked alive and its `ofertasRecibidas` has grown by the number of
missing offers returned. After any Resync the producer table and the counters
`ofertasRecibidas`, `escriturasExitosas` and `escriturasFallidas` are as before. -/
theorem C22_resync_effects (b : Broker) (entidadID tipo : String)
    (ofertasActuales : List Oferta) (leer : String → RespLectura) :
    ((b.SincronizarEntidad entidadID tipo ofertasActuales leer).2.exito = true →
      (tipo = "nodo" →
        (∀ v : NodoInfo, b.nodos.buscar entidadID = some v →
          ∃ v' : NodoInfo,
            (b.SincronizarEntidad entidadID tipo ofertasActuales leer).1.nodos.buscar
              entidadID = some v' ∧ v'.estado = true) ∧
        (b.SincronizarEntidad entidadID tipo ofertasActuales leer).1.consumidores
          = b.consumidores) ∧
      (tipo = "consumidor" →
        ∀ c : ConsumidorInfo, b.consumidores.buscar entidadID = some c →
          ∃ c' : ConsumidorInfo,
            (b.SincronizarEntidad entidadID tipo ofertasActuales leer).1.consumidores.buscar
              entidadID = some c' ∧ c'.estado = true ∧
            c'.ofertasRecibidas = c.ofertasRecibidas +
              (b.SincronizarEntidad entidadID tipo ofertasActuales
                leer).2.ofertasFaltantes.length)) ∧
    (b.SincronizarEntidad entidadID tipo ofertasActuales leer).1.productores = b.productores ∧
    (b.SincronizarEntidad entidadID tipo ofertasActuales leer).1.ofertasRecibidas
      = b.ofertasRecibidas ∧
    (b.SincronizarEntidad entidadID tipo ofertasActuales leer).1.escriturasExitosas
      = b.escriturasExitosas ∧
    (b.SincronizarEntidad entidadID tipo ofertasActuales leer).1.escriturasFallidas
      = b.escriturasFallidas := by
  refine ⟨fun hex => ⟨fun ht => ?_, fun ht => ?_⟩,
    SincronizarEntidad_productores b entidadID tipo ofertasActuales leer,
    SincronizarEntidad_contadores b entidadID tipo ofertasActuales leer⟩
  · obtain ⟨H, hH⟩ := SincronizarEntidad_exito b entidadID tipo ofertasActuales leer hex
    subst ht
    have hc : ("nodo" = "consumidor") = False := by decide
    simp only [Broker.SincronizarEntidad, hH, hc, if_false, if_true,
      obtenerHistorialOfertas_fst]
    refine ⟨fun v hv => ?_, trivial⟩
    rw [Mapa.buscar_modificar, if_pos rfl, leerNodos_buscar, hv]
    exact ⟨_, rfl, rfl⟩
  · obtain ⟨H, hH⟩ := SincronizarEntidad_exito b entidadID tipo ofertasActuales leer hex
    subst ht
    intro c hcb
    simp only [Broker.SincronizarEntidad, hH, if_true, obtenerHistorialOfertas_fst, hcb]
    rw [Mapa.buscar_modificar, if_pos rfl, hcb]
    exact ⟨_, rfl, rfl, rfl⟩

/-- Scenario S5 as an instance of C22: the consumer `C1`, marked dead with two offers received,
asks for a Resync; three offers are returned, `C1` is marked alive and its counter is 5. -/
theorem C22_resync_effects_witness :
    (brokerC1Caido.SincronizarEntidad "C1" "consumidor" actualesS5 leerS5).2.exito = true ∧
    (brokerC1Caido.SincronizarEntidad "C1" "consumidor" actualesS5
      leerS5).2.ofertasFaltantes.length = 3 ∧
    (∃ c' : ConsumidorInfo,
      (brokerC1Caido.SincronizarEntidad "C1" "consumidor" actualesS5
        leerS5).1.consumidores.buscar "C1" = some c' ∧ c'.estado = true ∧
      c'.ofertasRecibidas = 2 +
        (brokerC1Caido.SincronizarEntidad "C1" "consumidor" actualesS5
          leerS5).2.ofertasFaltantes.length) :=
  ⟨by decide, by decide,
   ((C22_resync_effects brokerC1Caido "C1" "consumidor" actualesS5 leerS5).1
     (by decide)).2 rfl
     { consumidorS4 with estado := false, cantCaidas := 1, ofertasRecibidas := 2 }
     (by decide)⟩

/-! ## C23: the authoritative history does not depend on the scan order -/

theorem par_sublist_perm {α : Type} (l1 l2 : α) (listas otras : List α)
    (h : [l1, l2].Sublist listas) (hp : listas.Perm otras) :
    [l1, l2].Sublist otras ∨ [l2, l1].Sublist otras := by
  obtain ⟨l, hl, hsub⟩ := h.subperm.trans hp.subperm
  have hlen : l.length = 2 := hl.length_eq
  rcases l with _ | ⟨a, _ | ⟨c, _ | ⟨d, resto⟩⟩⟩
  · simp at hlen
  · simp at hlen
  · have ha : a ∈ [l1, l2] := hl.mem_iff.mp (by simp)
    simp only [List.mem_cons, List.mem_singleton, List.not_mem_nil, or_false] at ha
    by_cases h1 : a = l1
    · subst h1
      have hc : [c] = [l2] := List.perm_singleton.mp hl.cons_inv
      simp only [List.cons.injEq, and_true] at hc
      subst hc
      exact Or.inl hsub
    · have h2 : a = l2 := ha.resolve_left h1
      subst h2
      have hl' : [a, c].Perm [a, l1] := hl.trans (List.Perm.swap a l1 [])
      have hc : [c] = [l1] := List.perm_singleton.mp hl'.cons_inv
      simp only [List.cons.injEq, and_true] at hc
      subst hc
      exact Or.inr hsub
  · simp at hlen

/-- The scan finds a pair exactly when two of the lists, at different positions, are found
identical. -/
theorem hayParIdentico_iff (listas : List (Slice Oferta)) :
    Broker.hayParIdentico listas = true ↔
      ∃ l1 l2, [l1, l2].Sublist listas ∧ Broker.sonListasIdenticas l1 l2 = true := by
  induction listas with
  | nil => simp [Broker.hayParIdentico]
  | cons lista resto ih =>
    simp only [Broker.hayParIdentico, Bool.or_eq_true, List.any_eq_true, ih]
    constructor
    · rintro (⟨otra, ho, hs⟩ | ⟨l1, l2, hsub, hs⟩)
      · exact ⟨lista, otra, List.Sublist.cons₂ _ (List.singleton_sublist.mpr ho), hs⟩
      · exact ⟨l1, l2, hsub.cons _, hs⟩
    · rintro ⟨l1, l2, hsub, hs⟩
      rw [List.sublist_cons_iff] at hsub
      rcases hsub with hsub | ⟨r, hr, hsub⟩
      · exact Or.inr ⟨l1, l2, hsub, hs⟩
      · simp only [List.cons.injEq] at hr
        obtain ⟨rfl, rfl⟩ := hr
        exact Or.inl ⟨l2, List.singleton_sublist.mp hsub, hs⟩

/-- What the scan returns: nil when it finds no pair, the first list of a pair otherwise. -/
theorem primerParIdentico_casos (listas : List (Slice Oferta)) :
    (Broker.hayParIdentico listas = false ∧ Broker.primerParIdentico listas = Slice.nil) ∨
    (Broker.hayParIdentico listas = true ∧
      ∃ l2, [Broker.primerParIdentico listas, l2].Sublist listas ∧
        Broker.sonListasIdenticas (Broker.primerParIdentico listas) l2 = true) := by
  induction listas with
  | nil => left; simp [Broker.hayParIdentico, Broker.primerParIdentico]
  | cons lista resto ih =>
    simp only [Broker.hayParIdentico, Broker.primerParIdentico]
    by_cases ha : resto.any (fun otra => Broker.sonListasIdenticas lista otra) = true
    · right
      obtain ⟨otra, ho, hs⟩ := List.any_eq_true.mp ha
      simp only [ha, Bool.true_or, if_true, true_and]
      exact ⟨otra, List.Sublist.cons₂ _ (List.singleton_sublist.mpr ho), hs⟩
    · simp only [ha, Bool.false_eq_true, if_false]
      rw [Bool.false_or]
      rcases ih with ⟨h1, h2⟩ | ⟨h1, l2, hsub, hs⟩
      · exact Or.inl ⟨h1, h2⟩
      · exact Or.inr ⟨h1, l2, hsub.cons _, hs⟩

theorem respuestasOk_perm (leer : String → RespLectura) (nodos otros : Mapa NodoInfo)
    (h : nodos.Perm otros) : (respuestasOk leer nodos).Perm (respuestasOk leer otros) := by
  unfold respuestasOk
  exact h.filterMap _

/-- On duplicate-free lists, whether the scan finds a pair does not depend on the order. -/
theorem hayParIdentico_perm (listas otras : List (Slice Oferta)) (hp : listas.Perm otras)
    (hnd : ∀ l ∈ listas, sinDuplicados l.elems) (h : Broker.hayParIdentico listas = true) :
    Broker.hayParIdentico otras = true := by
  obtain ⟨l1, l2, hsub, hs⟩ := (hayParIdentico_iff listas).mp h
  have m1 : l1 ∈ listas := hsub.subset (by simp)
  have m2 : l2 ∈ listas := hsub.subset (by simp)
  have hids := (sonListasIdenticas_iff l1 l2 (hnd l1 m1) (hnd l2 m2)).mp hs
  rcases par_sublist_perm l1 l2 listas otras hsub hp with h' | h'
  · exact (hayParIdentico_iff otras).mpr ⟨l1, l2, h', hs⟩
  · exact (hayParIdentico_iff otras).mpr ⟨l2, l1, h',
      (sonListasIdenticas_iff l2 l1 (hnd l2 m2) (hnd l1 m1)).mpr hids.symm⟩

/-- With at most three duplicate-free lists, when the scan finds a pair in one order, the list
it returns in another order has the same id set. -/
theorem primerParIdentico_perm_ids (listas otras : List (Slice Oferta))
    (hp : listas.Perm otras) (hlen : listas.length ≤ 3)
    (hnd : ∀ l ∈ listas, sinDuplicados l.elems)
    (h : Broker.hayParIdentico listas = true) :
    idsDe (Broker.primerParIdentico otras).elems
      = idsDe (Broker.primerParIdentico listas).elems := by
  have hnd' : ∀ l ∈ otras, sinDuplicados l.elems := fun l hl => hnd l (hp.mem_iff.mpr hl)
  have hlen' : otras.length ≤ 3 := hp.length_eq ▸ hlen
  rcases primerParIdentico_casos listas with ⟨h1, _⟩ | ⟨_, l2, hsub, hs⟩
  · rw [h] at h1
    exact absurd h1 (by simp)
  · have m1 : Broker.primerParIdentico listas ∈ listas := hsub.subset (by simp)
    have m2 : l2 ∈ listas := hsub.subset (by simp)
    have hids := (sonListasIdenticas_iff _ l2 (hnd _ m1) (hnd l2 m2)).mp hs
    rcases par_sublist_perm _ l2 listas otras hsub hp with h' | h'
    · exact (primerParIdentico_acuerdo otras hlen' hnd' _ l2 h' hids).2
    · rw [(primerParIdentico_acuerdo otras hlen' hnd' l2 _ h' hids.symm).2, hids]

theorem idsDe_eq_empty (ofertas : List Oferta) : idsDe ofertas = ∅ ↔ ofertas = [] := by
  cases ofertas with
  | nil => simp [idsDe]
  | cons o resto =>
    simp only [reduceCtorEq, iff_false]
    intro h
    have : o.oferta_id ∈ idsDe (o :: resto) := (mem_idsDe _ _).mpr ⟨o, by simp, rfl⟩
    rw [h] at this
    simp at this

/-- The list returned by the scan is nil or one of the collected lists. -/
theorem primerParIdentico_mem (listas : List (Slice Oferta)) :
    Broker.primerParIdentico listas = Slice.nil ∨ Broker.primerParIdentico listas ∈ listas := by
  rcases primerParIdentico_casos listas with ⟨_, h⟩ | ⟨_, l2, hsub, _⟩
  · exact Or.inl h
  · exact Or.inr (hsub.subset (by simp))

/-- When every collected list is nil or non-empty, the scan returns nil exactly when the id set
of what it returns is empty. -/
theorem primerParIdentico_nil_iff (listas : List (Slice Oferta))
    (hcable : ∀ l ∈ listas, l = Slice.nil ∨ l.elems ≠ []) :
    Broker.primerParIdentico listas = Slice.nil ↔
      idsDe (Broker.primerParIdentico listas).elems = ∅ := by
  rcases primerParIdentico_mem listas with h | h
  · simp [h, Slice.elems, idsDe]
  · rcases hcable _ h with h' | h'
    · simp [h', Slice.elems, idsDe]
    · constructor
      · intro hn
        rw [hn] at h'
        exact absurd rfl h'
      · intro he
        exact absurd ((idsDe_eq_empty _).mp he) h'

/-- In two visit orders of the same replicas, with at most three duplicate-free replies, the
scans return lists with the same id set. -/
theorem primerParIdentico_orden (listas otras : List (Slice Oferta))
    (hp : listas.Perm otras) (hlen : listas.length ≤ 3)
    (hnd : ∀ l ∈ listas, sinDuplicados l.elems) :
    Broker.hayParIdentico listas = Broker.hayParIdentico otras ∧
    idsDe (Broker.primerParIdentico listas).elems
      = idsDe (Broker.primerParIdentico otras).elems := by
  have hnd' : ∀ l ∈ otras, sinDuplicados l.elems := fun l hl => hnd l (hp.mem_iff.mpr hl)
  cases h : Broker.hayParIdentico listas with
  | true =>
    exact ⟨(hayParIdentico_perm listas otras hp hnd h).symm,
      (primerParIdentico_perm_ids listas otras hp hlen hnd h).symm⟩
  | false =>
    have h' : Broker.hayParIdentico otras = false := by
      cases ho : Broker.hayParIdentico otras with
      | false => rfl
      | true =>
        have := hayParIdentico_perm otras listas hp.symm hnd' ho
        rw [h] at this
        exact absurd this (by simp)
    refine ⟨h'.symm, ?_⟩
    rcases primerParIdentico_casos listas with ⟨_, hn⟩ | ⟨h1, _⟩
    · rcases primerParIdentico_casos otras with ⟨_, hn'⟩ | ⟨h1', _⟩
      · rw [hn, hn']
      · rw [h'] at h1'
        exact absurd h1' (by simp)
    · rw [h] at h1
      exact absurd h1 (by simp)

/-- C23. For replicas visited in two orders, with at most three replies that answered ok, all
duplicate-free: `obtenerHistorialOfertas` reaches its `return listasOfertas[i]` in one order
exactly when it does in the other, and the lists it returns in the two orders have the same set
of offer ids; and when every reply is as decoded from the wire (a list that is nil or
non-empty), it returns nil in one order exactly when it does in the other. -/
theorem C23_scan_order (b : Broker) (otroOrden : Mapa NodoInfo) (leer : String → RespLectura)
    (hperm : b.nodos.Perm otroOrden)
    (hlen : respondieron leer b.nodos ≤ 3)
    (hnd : ∀ l ∈ respuestasOk leer b.nodos, sinDuplicados l.elems) :
    b.alcanzaQuorumLectura leer
      = ({ b with nodos := otroOrden } : Broker).alcanzaQuorumLectura leer ∧
    idsDe (b.obtenerHistorialOfertas leer).2.elems
      = idsDe (({ b with nodos := otroOrden } : Broker).obtenerHistorialOfertas leer).2.elems ∧
    ((∀ l ∈ respuestasOk leer b.nodos, l = Slice.nil ∨ l.elems ≠ []) →
      ((b.obtenerHistorialOfertas leer).2 = Slice.nil ↔
        (({ b with nodos := otroOrden } : Broker).obtenerHistorialOfertas leer).2
          = Slice.nil)) := by
  have hp := respuestasOk_perm leer b.nodos otroOrden hperm
  have hl3 : (respuestasOk leer b.nodos).length ≤ 3 := by
    rw [respuestasOk_length]; exact hlen
  have hresp : respondieron leer otroOrden = respondieron leer b.nodos := by
    rw [← respuestasOk_length, ← respuestasOk_length]
    exact hp.length_eq.symm
  obtain ⟨o1, o2⟩ := primerParIdentico_orden _ _ hp hl3 hnd
  have e1 : (b.obtenerHistorialOfertas leer).2
      = if respondieron leer b.nodos < R then Slice.nil
        else Broker.primerParIdentico (respuestasOk leer b.nodos) :=
    obtenerHistorialOfertas_snd b leer
  have e2 : (({ b with nodos := otroOrden } : Broker).obtenerHistorialOfertas leer).2
      = if respondieron leer b.nodos < R then Slice.nil
        else Broker.primerParIdentico (respuestasOk leer otroOrden) := by
    rw [obtenerHistorialOfertas_snd, hresp]
  refine ⟨?_, ?_, fun hcable => ?_⟩
  · simp only [Broker.alcanzaQuorumLectura, leerNodos_snd, respuestasOk_length, hresp, o1]
  · rw [e1, e2]
    split
    · rfl
    · exact o2
  · have hcable' : ∀ l ∈ respuestasOk leer otroOrden, l = Slice.nil ∨ l.elems ≠ [] :=
      fun l hl => hcable l (hp.mem_iff.mpr hl)
    rw [e1, e2]
    split
    · exact Iff.rfl
    · rw [primerParIdentico_nil_iff _ hcable, primerParIdentico_nil_iff _ hcable', o2]

/-- An instance of C23: with the replies of `leerDosDeAcuerdo`, visiting DB1, DB2, DB3 returns
DB2's log `[Riploy-1, Riploy-2]` and visiting DB3, DB2, DB1 returns DB3's log
`[Riploy-2, Riploy-1]`: both orders reach the return and the id sets are equal. -/
theorem C23_scan_order_witness :
    (brokerEjemplo.obtenerHistorialOfertas leerDosDeAcuerdo).2
      = Slice.de [ofertaId "Riploy-1", ofertaId "Riploy-2"] ∧
    (brokerOrdenInverso.obtenerHistorialOfertas leerDosDeAcuerdo).2
      = Slice.de [ofertaId "Riploy-2", ofertaId "Riploy-1"] ∧
    brokerEjemplo.alcanzaQuorumLectura leerDosDeAcuerdo
      = brokerOrdenInverso.alcanzaQuorumLectura leerDosDeAcuerdo ∧
    idsDe (brokerEjemplo.obtenerHistorialOfertas leerDosDeAcuerdo).2.elems
      = idsDe (brokerOrdenInverso.obtenerHistorialOfertas leerDosDeAcuerdo).2.elems :=
  ⟨by decide, by decide,
   (C23_scan_order brokerEjemplo brokerEjemplo.nodos.reverse leerDosDeAcuerdo
     (List.reverse_perm _).symm (by decide) (by decide)).1,
   (C23_scan_order brokerEjemplo brokerEjemplo.nodos.reverse leerDosDeAcuerdo
     (List.reverse_perm _).symm (by decide) (by decide)).2.1⟩

/-! ## C24: a peer marked dead has crashed at least once -/

theorem progresa_refl {α : Type} (est : α → Bool) (cnt : α → Nat) (m : Mapa α) :
    progresa est cnt m m := by
  intro k
  refine ⟨fun v hv => ⟨v, hv, le_refl _, fun h => h⟩, fun hn v' hv' => ?_⟩
  rw [hn] at hv'
  exact absurd hv' (by simp)

theorem progresa_trans {α : Type} (est : α → Bool) (cnt : α → Nat) (m1 m2 m3 : Mapa α)
    (h12 : progresa est cnt m1 m2) (h23 : progresa est cnt m2 m3) :
    progresa est cnt m1 m3 := by
  intro k
  constructor
  · intro v hv
    obtain ⟨v2, hv2, hc2, hs2⟩ := (h12 k).1 v hv
    obtain ⟨v3, hv3, hc3, hs3⟩ := (h23 k).1 v2 hv2
    exact ⟨v3, hv3, le_trans hc2 hc3, fun h => hs3 (hs2 h)⟩
  · intro hn v3 hv3
    cases h2 : Mapa.buscar m2 k with
    | none => exact (h23 k).2 h2 v3 hv3
    | some v2 =>
      obtain ⟨v3', hv3', _, hs3⟩ := (h23 k).1 v2 h2
      rw [hv3] at hv3'
      simp only [Option.some.injEq] at hv3'
      subst hv3'
      exact hs3 ((h12 k).2 hn v2 h2)

/-- A table obtained by changing each entry in place comes after the original when every change
keeps or raises the crash count and keeps the entry counted. -/
theorem progresa_map {α : Type} (est : α → Bool) (cnt : α → Nat) (m m' : Mapa α)
    (f : String → α → α)
    (hmap : ∀ k, Mapa.buscar m' k = (Mapa.buscar m k).map (f k))
    (hf : ∀ k v, cnt v ≤ cnt (f k v) ∧
      ((est v = false → 1 ≤ cnt v) → (est (f k v) = false → 1 ≤ cnt (f k v)))) :
    progresa est cnt m m' := by
  intro k
  constructor
  · intro v hv
    exact ⟨f k v, by rw [hmap, hv]; rfl, (hf k v).1, (hf k v).2⟩
  · intro hn v' hv'
    rw [hmap, hn] at hv'
    exact absurd hv' (by simp)

theorem Mapa.buscar_poner_ne {α : Type} (m : Mapa α) (k0 k : String) (v0 : α) (h : k ≠ k0) :
    Mapa.buscar (Mapa.poner m k0 v0) k = Mapa.buscar m k := by
  induction m with
  | nil =>
    have h' : ¬ k0 = k := fun e => h e.symm
    simp [Mapa.poner, Mapa.buscar, h']
  | cons e resto ih =>
    obtain ⟨k1, v1⟩ := e
    by_cases h1 : k1 = k0
    · have h2 : ¬ k0 = k := fun e => h e.symm
      have h3 : ¬ k1 = k := fun e => h (e.symm.trans h1)
      simp [Mapa.poner, Mapa.buscar, h1, h2, h3]
    · by_cases h2 : k1 = k
      · subst h2
        simp [Mapa.poner, Mapa.buscar, h1]
      · simp [Mapa.poner, Mapa.buscar, h1, h2, ih]

/-- Registering a new entry that is counted gives a table that comes after the original. -/
theorem progresa_poner {α : Type} (est : α → Bool) (cnt : α → Nat) (m : Mapa α) (k0 : String)
    (v0 : α) (hnew : Mapa.buscar m k0 = none) (h0 : est v0 = false → 1 ≤ cnt v0) :
    progresa est cnt m (Mapa.poner m k0 v0) := by
  intro k
  by_cases hk : k = k0
  · subst hk
    constructor
    · intro v hv
      rw [hnew] at hv
      exact absurd hv (by simp)
    · intro _ v' hv'
      rw [Mapa.buscar_poner] at hv'
      simp only [Option.some.injEq] at hv'
      subst hv'
      exact h0
  · rw [Mapa.buscar_poner_ne m k0 k v0 hk]
    exact progresa_refl est cnt m k

theorem marcasContadas_progresa {α : Type} (est : α → Bool) (cnt : α → Nat) (m m' : Mapa α)
    (hinv : marcasContadas est cnt m) (hp : progresa est cnt m m') :
    marcasContadas est cnt m' := by
  intro k v' hv'
  cases hb : Mapa.buscar m k with
  | none => exact (hp k).2 hb v' hv'
  | some v =>
    obtain ⟨v'', hv'', _, hs⟩ := (hp k).1 v hb
    rw [hv'] at hv''
    simp only [Option.some.injEq] at hv''
    subst hv''
    exact hs (hinv k v hb)

theorem progresa_modificar {α : Type} (est : α → Bool) (cnt : α → Nat) (m : Mapa α)
    (k0 : String) (g : α → α)
    (hg : ∀ v, cnt v ≤ cnt (g v) ∧
      ((est v = false → 1 ≤ cnt v) → (est (g v) = false → 1 ≤ cnt (g v)))) :
    progresa est cnt m (Mapa.modificar m k0 g) := by
  apply progresa_map est cnt m _ (fun k v => if k = k0 then g v else v)
  · intro k
    rw [Mapa.buscar_modificar]
    split <;> simp
  · intro k v
    split
    · exact hg v
    · exact ⟨le_refl _, fun h => h⟩

theorem recorrerNodos_progresa (oferta : Oferta) (rpc : String → Oferta → RespOferta)
    (nodos : Mapa NodoInfo) :
    progresa NodoInfo.estado NodoInfo.cantCaidas nodos
      (Broker.recorrerNodos oferta rpc nodos).1 := by
  apply progresa_map _ _ _ _ (fun k v => (Broker.enviarOfertaANodo v (rpc k oferta)).1)
    (recorrerNodos_buscar oferta rpc nodos)
  intro k v
  cases hr : rpc k oferta with
  | error => cases he : v.estado <;> simp [Broker.enviarOfertaANodo, he]
  | resp exito =>
    cases exito <;> cases he : v.estado <;> simp [Broker.enviarOfertaANodo, he]

theorem leerNodos_progresa (leer : String → RespLectura) (nodos : Mapa NodoInfo) :
    progresa NodoInfo.estado NodoInfo.cantCaidas nodos (Broker.leerNodos leer nodos).1 := by
  apply progresa_map _ _ _ _ (fun k v => Broker.trasLectura (leer k) v)
    (leerNodos_buscar leer nodos)
  intro k v
  cases hr : leer k with
  | error => cases he : v.estado <;> simp [Broker.trasLectura, he]
  | resp ofertas exito =>
    cases exito <;> cases he : v.estado <;> simp [Broker.trasLectura, he]

theorem recorrerConsumidores_progresa (oferta : Oferta) (rpc : String → Oferta → RespOferta)
    (consumidores : Mapa ConsumidorInfo) :
    progresa ConsumidorInfo.estado ConsumidorInfo.cantCaidas consumidores
      (Broker.recorrerConsumidores oferta rpc consumidores).1 := by
  apply progresa_map _ _ _ _ _ (recorrerConsumidores_buscar oferta rpc consumidores)
  intro k v
  cases hm : Broker.coincideConPreferencias oferta v with
  | false => simp
  | true =>
    cases hr : rpc k oferta with
    | error => cases he : v.estado <;> simp [Broker.notificarConsumidor, he]
    | resp exito =>
      cases exito <;> cases he : v.estado <;> simp [Broker.notificarConsumidor, he]

theorem EnviarOferta_tablas (b : Broker) (req : Oferta) (rpc : String → Oferta → RespOferta) :
    (b.EnviarOferta req rpc).1.consumidores = b.consumidores ∧
    ((b.EnviarOferta req rpc).1.nodos = b.nodos ∨
      (b.EnviarOferta req rpc).1.nodos = (Broker.recorrerNodos req rpc b.nodos).1) := by
  simp only [Broker.EnviarOferta]
  split
  · exact ⟨rfl, Or.inl rfl⟩
  · split
    · exact ⟨rfl, Or.inl rfl⟩
    · split <;> exact ⟨rfl, Or.inr rfl⟩

theorem SincronizarEntidad_progresa (b : Broker) (entidadID tipo : String)
    (ofertasActuales : List Oferta) (leer : String → RespLectura) :
    progresa NodoInfo.estado NodoInfo.cantCaidas b.nodos
      (b.SincronizarEntidad entidadID tipo ofertasActuales leer).1.nodos ∧
    progresa ConsumidorInfo.estado ConsumidorInfo.cantCaidas b.consumidores
      (b.SincronizarEntidad entidadID tipo ofertasActuales leer).1.consumidores := by
  have hl := leerNodos_progresa leer b.nodos
  have hc := progresa_refl ConsumidorInfo.estado ConsumidorInfo.cantCaidas b.consumidores
  simp only [Broker.SincronizarEntidad, obtenerHistorialOfertas_fst]
  split
  · exact ⟨hl, hc⟩
  · split
    · split
      · exact ⟨hl, hc⟩
      · dsimp only
        refine ⟨hl, progresa_modificar _ _ _ _ _ ?_⟩
        intro v
        simp
    · split
      · dsimp only
        refine ⟨progresa_trans _ _ _ _ _ hl (progresa_modificar _ _ _ _ _ ?_), hc⟩
        intro v
        simp
      · exact ⟨hl, hc⟩

/-- Every handler invocation leaves replica and consumer tables that come after the ones it
found. -/
theorem paso_progresa (b : Broker) (a : Accion) :
    progresa NodoInfo.estado NodoInfo.cantCaidas b.nodos (b.paso a).nodos ∧
    progresa ConsumidorInfo.estado ConsumidorInfo.cantCaidas b.consumidores
      (b.paso a).consumidores := by
  have hn := progresa_refl NodoInfo.estado NodoInfo.cantCaidas b.nodos
  have hc := progresa_refl ConsumidorInfo.estado ConsumidorInfo.cantCaidas b.consumidores
  cases a with
  | registrarProductor nombre =>
    simp only [Broker.paso]
    cases hr : (b.RegistrarProductor nombre).2 with
    | false =>
      rw [RegistrarProductor_fallo b nombre hr]
      exact ⟨hn, hc⟩
    | true =>
      obtain ⟨hv, hb⟩ := (RegistrarProductor_exito b nombre).mp hr
      have hv' := (esValido_iff _ _).mpr hv
      simp only [Broker.RegistrarProductor, hv', hb, Bool.true_eq_false, Option.isSome_none,
        Bool.false_eq_true, if_false]
      rw [(verificarInicio_tablas _).2.1, (verificarInicio_tablas _).2.2]
      exact ⟨hn, hc⟩
  | registrarNodo nodoID direccion conecta =>
    simp only [Broker.paso]
    cases hr : (b.RegistrarNodo nodoID direccion conecta).2 with
    | false =>
      rw [RegistrarNodo_fallo b nodoID direccion conecta hr]
      exact ⟨hn, hc⟩
    | true =>
      obtain ⟨hv, hb, hcon⟩ := (RegistrarNodo_exito b nodoID direccion conecta).mp hr
      have hv' := (esValido_iff _ _).mpr hv
      simp only [Broker.RegistrarNodo, hv', hb, hcon, Bool.true_eq_false, Option.isSome_none,
        Bool.false_eq_true, if_false]
      rw [(verificarInicio_tablas _).2.1, (verificarInicio_tablas _).2.2]
      exact ⟨progresa_poner _ _ _ _ _ hb (by simp), hc⟩
  | registrarConsumidor consumidorID categorias tiendas precioMax direccion conecta =>
    simp only [Broker.paso]
    cases hr : (b.RegistrarConsumidor consumidorID categorias tiendas precioMax direccion
      conecta).2 with
    | false =>
      rw [RegistrarConsumidor_fallo b consumidorID categorias tiendas precioMax direccion
        conecta hr]
      exact ⟨hn, hc⟩
    | true =>
      obtain ⟨hb, hcon⟩ := (RegistrarConsumidor_exito b consumidorID categorias tiendas
        precioMax direccion conecta).mp hr
      simp only [Broker.RegistrarConsumidor, hb, hcon, Bool.true_eq_false,
        Option.isSome_none, Bool.false_eq_true, if_false]
      rw [(verificarInicio_tablas _).2.1, (verificarInicio_tablas _).2.2]
      exact ⟨hn, progresa_poner _ _ _ _ _ hb (by simp)⟩
  | enviarOferta req rpc =>
    simp only [Broker.paso]
    obtain ⟨h1, h2⟩ := EnviarOferta_tablas b req rpc
    rw [h1]
    refine ⟨?_, hc⟩
    rcases h2 with h2 | h2
    · rw [h2]; exact hn
    · rw [h2]; exact recorrerNodos_progresa req rpc b.nodos
  | distribuir oferta rpc =>
    simp only [Broker.paso, Broker.distribuirAConsumidores]
    exact ⟨hn, recorrerConsumidores_progresa oferta rpc b.consumidores⟩
  | sincronizar entidadID tipo ofertasActuales leer =>
    exact SincronizarEntidad_progresa b entidadID tipo ofertasActuales leer

theorem ejecutar_marcasContadas (acciones : List Accion) (b : Broker)
    (hn : marcasContadas NodoInfo.estado NodoInfo.cantCaidas b.nodos)
    (hc : marcasContadas ConsumidorInfo.estado ConsumidorInfo.cantCaidas b.consumidores) :
    marcasContadas NodoInfo.estado NodoInfo.cantCaidas (b.ejecutar acciones).nodos ∧
    marcasContadas ConsumidorInfo.estado ConsumidorInfo.cantCaidas
      (b.ejecutar acciones).consumidores := by
  induction acciones generalizing b with
  | nil => exact ⟨hn, hc⟩
  | cons a resto ih =>
    rw [ejecutar_cons]
    obtain ⟨p1, p2⟩ := paso_progresa b a
    exact ih (b.paso a) (marcasContadas_progresa _ _ _ _ hn p1)
      (marcasContadas_progresa _ _ _ _ hc p2)

/-- C24. In every state the broker reaches from `NewBroker` by registrations, Submits, consumer
fan-outs and Resyncs, every replica and every consumer that is marked dead has a crash count of
at least one, so the number of recoveries the final report computes for it (the crash count,
minus one when it is marked dead) is not negative; and no handler invocation, in any state,
removes a replica or a consumer or lowers its crash count. -/
theorem C24_crash_counts :
    (∀ acciones : List Accion,
      (∀ (k : String) (v : NodoInfo),
        (NewBroker.ejecutar acciones).nodos.buscar k = some v →
        (v.estado = false → 1 ≤ v.cantCaidas) ∧ 0 ≤ v.cantRecuperaciones) ∧
      (∀ (k : String) (c : ConsumidorInfo),
        (NewBroker.ejecutar acciones).consumidores.buscar k = some c →
        (c.estado = false → 1 ≤ c.cantCaidas) ∧ 0 ≤ c.cantRecuperaciones)) ∧
    (∀ (b : Broker) (a : Accion),
      (∀ (k : String) (v : NodoInfo), b.nodos.buscar k = some v →
        ∃ v' : NodoInfo, (b.paso a).nodos.buscar k = some v' ∧ v.cantCaidas ≤ v'.cantCaidas) ∧
      (∀ (k : String) (c : ConsumidorInfo), b.consumidores.buscar k = some c →
        ∃ c' : ConsumidorInfo,
          (b.paso a).consumidores.buscar k = some c' ∧ c.cantCaidas ≤ c'.cantCaidas)) := by
  constructor
  · intro acciones
    have h0n : marcasContadas NodoInfo.estado NodoInfo.cantCaidas NewBroker.nodos := by
      intro k v hv
      simp [NewBroker, Mapa.buscar] at hv
    have h0c : marcasContadas ConsumidorInfo.estado ConsumidorInfo.cantCaidas
        NewBroker.consumidores := by
      intro k v hv
      simp [NewBroker, Mapa.buscar] at hv
    obtain ⟨hn, hc⟩ := ejecutar_marcasContadas acciones NewBroker h0n h0c
    constructor
    · intro k v hv
      have h := hn k v hv
      refine ⟨h, ?_⟩
      unfold NodoInfo.cantRecuperaciones
      split
      · rename_i he
        have := h he
        omega
      · omega
    · intro k c hv
      have h := hc k c hv
      refine ⟨h, ?_⟩
      unfold ConsumidorInfo.cantRecuperaciones
      split
      · rename_i he
        have := h he
        omega
      · omega
  · intro b a
    obtain ⟨p1, p2⟩ := paso_progresa b a
    constructor
    · intro k v hv
      obtain ⟨v', hv', hle, _⟩ := (p1 k).1 v hv
      exact ⟨v', hv', hle⟩
    · intro k c hc
      obtain ⟨c', hc', hle, _⟩ := (p2 k).1 c hc
      exact ⟨c', hc', hle⟩

/-- Scenario S3 as an instance of C24: after the Submit that DB2 did not answer, DB2 is marked
dead with a crash count of 1, and the report computes 0 recoveries for it. -/
theorem C24_crash_counts_witness :
    (NewBroker.ejecutar corridaS3).nodos.buscar "DB2"
      = some { nombre := "DB2", direccion := "db2:50053", estado := false, cantCaidas := 1 } ∧
    ((false = false → 1 ≤ 1) ∧
      0 ≤ ({ nombre := "DB2", direccion := "db2:50053", estado := false,
             cantCaidas := 1 } : NodoInfo).cantRecuperaciones) ∧
    ({ nombre := "DB2", direccion := "db2:50053", estado := false,
       cantCaidas := 1 } : NodoInfo).cantRecuperaciones = 0 :=
  ⟨by decide,
   (C24_crash_counts.1 corridaS3).1 "DB2"
     { nombre := "DB2", direccion := "db2:50053", estado := false, cantCaidas := 1 }
     (by decide),
   by decide⟩

end Lab2
